import Mathlib

/-!
# sdtrack: online self-calibration scheduler

A shallow embedding of the calibration state machine of
`applications/self_cal/sd_selfcal.cpp`, of the adaptive window sizing of
`applications/self_cal/sd_selfcal.cpp` and `applications/vitracker/sd_vitracker.cpp`,
and of the patch scores of `src/parallel_algos.cpp`.

Conventions of the embedding:

* `uint32_t` values are natural numbers, every arithmetic operation on them is
  reduced modulo `2 ^ 32` explicitly; `int` values are integers.
* a `double` is a value of `Dbl`: NaN, the two infinities, or a rational number.
  Comparisons follow IEEE 754 (every ordered comparison with NaN is false, `!=`
  with NaN is true).  Finite arithmetic is exact: rounding, overflow to infinity
  and the sign of zero are not modelled.  Decimal literals of the source are
  given their exact binary64 value.
* results of the external solver and of the linear-algebra library are inputs.
* the patch scores of `parallel_algos.cpp` are taken over a linearly ordered field
  with the square root as a parameter, and studied over the real numbers.
-/

namespace SdTrack

/-! ## Machine numbers -/

/-- The modulus of `uint32_t` arithmetic. -/
def U32 : Nat := 2 ^ 32

/-- Conversion of an `int` to `uint32_t`. -/
def toU32 (x : Int) : Nat := (x % (2 ^ 32 : Int)).toNat

/-- Conversion of a `uint32_t` to `int` (two's complement). -/
def toI32 (n : Nat) : Int :=
  if n % U32 < 2 ^ 31 then ((n % U32 : Nat) : Int) else ((n % U32 : Nat) : Int) - 2 ^ 32

/-- Subtraction of `b` from `a` stored in a `uint32_t`: `a` may be a `size_t`, the
difference is taken in unsigned arithmetic and truncated to 32 bits. -/
def sub32 (a b : Nat) : Nat := (a + (U32 - b % U32)) % U32

/-- A `double`: NaN, an infinity, or a finite value. -/
inductive Dbl where
  | nan
  | posInf
  | negInf
  | fin (q : ℚ)
  deriving DecidableEq

namespace Dbl

/-- The operator `<` on doubles. -/
def lt : Dbl → Dbl → Bool
  | fin a, fin b => decide (a < b)
  | negInf, fin _ => true
  | negInf, posInf => true
  | fin _, posInf => true
  | _, _ => false

/-- The operator `>` on doubles. -/
def gt (a b : Dbl) : Bool := lt b a

/-- The operator `==` on doubles. -/
def eq : Dbl → Dbl → Bool
  | fin a, fin b => decide (a = b)
  | posInf, posInf => true
  | negInf, negInf => true
  | _, _ => false

/-- The operator `!=` on doubles. -/
def ne (a b : Dbl) : Bool := !(eq a b)

/-- The operator `<=` on doubles. -/
def le (a b : Dbl) : Bool := lt a b || eq a b

/-- The function `std::isnan`. -/
def isnan : Dbl → Bool
  | nan => true
  | _ => false

/-- The function `std::isinf`. -/
def isinf : Dbl → Bool
  | posInf => true
  | negInf => true
  | _ => false

/-- The operator `+` on doubles. -/
def add : Dbl → Dbl → Dbl
  | fin a, fin b => fin (a + b)
  | nan, _ => nan
  | _, nan => nan
  | posInf, negInf => nan
  | negInf, posInf => nan
  | posInf, _ => posInf
  | negInf, _ => negInf
  | _, posInf => posInf
  | _, negInf => negInf

/-- Unary minus on doubles. -/
def neg : Dbl → Dbl
  | nan => nan
  | posInf => negInf
  | negInf => posInf
  | fin a => fin (-a)

/-- The operator `-` on doubles. -/
def sub (a b : Dbl) : Dbl := add a (neg b)

/-- An infinity of the given sign (`true` for negative). -/
def infOfSign (negative : Bool) : Dbl := if negative then negInf else posInf

/-- The operator `/` on doubles (zero divisors are taken as `+0`). -/
def div : Dbl → Dbl → Dbl
  | nan, _ => nan
  | _, nan => nan
  | fin a, fin b =>
    if b = 0 then (if a = 0 then nan else infOfSign (decide (a < 0))) else fin (a / b)
  | fin _, _ => fin 0
  | posInf, fin b => infOfSign (decide (b < 0))
  | negInf, fin b => infOfSign (!decide (b < 0))
  | _, _ => nan

/-- The literal `0`. -/
def zero : Dbl := fin 0

/-- The literal `1.0`. -/
def one : Dbl := fin 1

/-- The literal `-1`. -/
def minusOne : Dbl := fin (-1)

/-- The literal `0.2` (its binary64 value). -/
def c0_2 : Dbl := fin (3602879701896397 / 18014398509481984)

/-- The literal `0.1` (its binary64 value). -/
def c0_1 : Dbl := fin (3602879701896397 / 36028797018963968)

/-- The literal `0.00001` (its binary64 value). -/
def c0_00001 : Dbl := fin (5902958103587057 / 590295810358705651712)

/-- The literal `0.01` (its binary64 value). -/
def c0_01 : Dbl := fin (5764607523034235 / 576460752303423488)

/-- The literal `1e7`. -/
def c1e7 : Dbl := fin 10000000

/-- The constant `DBL_MAX`. -/
def DBL_MAX : Dbl := fin ((2 ^ 53 - 1) * 2 ^ 971)

end Dbl

/-! ## Data model (`sd_selfcal.cpp`, lines 105-152) -/

/-- The enumeration `CalibrationType`. -/
inductive CalibrationType where
  | Camera
  | IMU
  deriving DecidableEq

/-- The `sdtrack::CalibrationWindow` of the source: pose range, mean, covariance and
score.  The covariance is stored row by row. -/
structure CalibrationWindow where
  start_index : Nat
  end_index : Nat
  mean : List Dbl
  covariance : List (List Dbl)
  score : Dbl
  deriving DecidableEq

/-- Modelled from the spec: the class `sdtrack::OnlineCalibrator` (declared in
`online_calibrator.h`, which is not among the sources).  Only the priority queue is
kept: the bounded store of accepted windows, its capacity and the dirty flag. -/
structure OnlineCalibrator where
  windows : List CalibrationWindow
  capacity : Nat
  dirty : Bool
  deriving DecidableEq

namespace OnlineCalibrator

/-- Modelled from the spec: `NumWindows()`, the number of windows in the queue. -/
def NumWindows (oc : OnlineCalibrator) : Nat := oc.windows.length

/-- Modelled from the spec: `queue_length()`, the fixed capacity of the queue. -/
def queue_length (oc : OnlineCalibrator) : Nat := oc.capacity

/-- Modelled from the spec: `needs_update()`, the dirty flag of the queue. -/
def needs_update (oc : OnlineCalibrator) : Bool := oc.dirty

/-- Modelled from the spec: `ClearQueue()`, which empties the priority queue. -/
def ClearQueue (oc : OnlineCalibrator) : OnlineCalibrator := { oc with windows := [] }

end OnlineCalibrator

/-- The structure `Calibration`, one instance per sensor. -/
structure Calibration where
  online_calibrator : OnlineCalibrator
  last_window_kl_divergence : Dbl
  last_added_window_kl_divergence : Dbl
  unknown_calibration_start_pose : Nat
  pq_window : CalibrationWindow
  candidate_window : CalibrationWindow
  current_window : CalibrationWindow
  num_change_detected : Nat
  num_change_needed : Nat
  num_self_cal_segments : Nat
  self_cal_segment_length : Nat
  plot_graphs : Bool
  do_self_cal : Bool
  unknown_calibration : Bool
  type : CalibrationType
  deriving DecidableEq

/-! ## Change detection (`sd_selfcal.cpp`, lines 404-431) -/

/-- The guard of `CheckParameterChange`: the divergence is below `0.2` and non-zero,
the queue is full and the calibration is known. -/
def changeGuard (calib : Calibration) : Bool :=
  Dbl.lt calib.last_window_kl_divergence Dbl.c0_2 &&
  Dbl.ne calib.last_window_kl_divergence Dbl.zero &&
  decide (calib.online_calibrator.NumWindows = calib.online_calibrator.queue_length) &&
  !calib.unknown_calibration

/-- The function `CheckParameterChange`; `poses_size` is `poses.size()`. -/
def CheckParameterChange (poses_size : Nat) (calib : Calibration) : Calibration :=
  if changeGuard calib then
    let calib1 := { calib with num_change_detected := (calib.num_change_detected + 1) % U32 }
    if calib1.num_change_detected > calib1.num_change_needed then
      { calib1 with
        unknown_calibration := true
        unknown_calibration_start_pose := sub32 poses_size calib1.num_change_needed
        online_calibrator := calib1.online_calibrator.ClearQueue }
    else calib1
  else
    { calib with num_change_detected := 0 }

/-- The divergence test of `CheckParameterChange` alone: below `0.2` and non-zero. -/
def qualifies (kl : Dbl) : Bool := Dbl.lt kl Dbl.c0_2 && Dbl.ne kl Dbl.zero

/-- One change-detection evaluation as `BaAndStartNewLandmarks` performs it: the
divergence `e.2` of the newest candidate is stored in the sensor and
`CheckParameterChange` is called with `e.1` poses in the graph. -/
def evaluate (calib : Calibration) (e : Nat × Dbl) : Calibration :=
  CheckParameterChange e.1 { calib with last_window_kl_divergence := e.2 }

/-! ## Pose graph and construction of the bundle adjustment problem
(`sd_selfcal.cpp`, lines 476-633; `sd_vitracker.cpp`, lines 148-158) -/

/-- The constant `UINT_MAX`. -/
def UINT_MAX : Nat := 4294967295

/-- The fields of `sdtrack::DenseTrack` used by bundle adjustment and calibration:
`keypoints` holds, for every keyframe `jj` and camera `cam_id`, the flag
`keypoints[jj][cam_id].tracked`; `external_id` is the entry `external_id[id]` of the
bundle adjuster at hand; `ray`, `rho` and `center_px` belong to `ref_keypoint`. -/
structure DenseTrack where
  id : Nat
  keypoints : List (List Bool)
  num_good_tracked_frames : Nat
  is_outlier : Bool
  tracked : Bool
  external_id : Nat
  ray : List Dbl
  rho : Dbl
  center_px : List Dbl
  needs_backprojection : Bool
  deriving DecidableEq

/-- The fields of `sdtrack::TrackerPose` used here: the tracks started at the pose, the
entry `opt_id[id]` of the bundle adjuster at hand, the per-pose camera parameters and
the time. -/
structure TrackerPose where
  tracks : List DenseTrack
  opt_id : Nat
  cam_params : List Dbl
  time : Dbl
  deriving DecidableEq

/-- The values that the construction of the problem reads: the argument `use_imu`, the
variable `use_imu_measurements`, `tracker.longest_track_id()`, the number of cameras of
the rig, and the range computed by `GetBaPoseRange` (whose definition is not among the
sources) together with `end_pose_id`. -/
structure BaConfig where
  use_imu : Bool
  use_imu_measurements : Bool
  longest_track_id : Nat
  num_cameras : Nat
  start_pose_id : Nat
  start_active_pose : Nat
  end_pose_id : Nat

namespace BaConfig

/-- The variable `start_pose_id` after lines 503-507: with inertial residuals, when the
whole range is active and does not start at pose 0, the range is extended by one pose. -/
def first_pose (c : BaConfig) : Nat :=
  if c.use_imu && c.use_imu_measurements && decide (c.start_active_pose = c.start_pose_id) &&
      decide (c.start_pose_id ≠ 0) then c.start_pose_id - 1
  else c.start_pose_id

/-- The local `all_poses_active` (line 510). -/
def all_poses_active (c : BaConfig) : Bool := decide (c.start_active_pose = c.first_pose)

end BaConfig

/-- A pose handed to the solver by `AddPose`: its index in the graph and its activity. -/
structure BaPose where
  index : Nat
  is_active : Bool
  deriving DecidableEq

/-- A landmark handed to the solver by `AddLandmark`: the track it stands for, the
solver id of its pose and its activity. -/
structure BaLandmark where
  track_id : Nat
  pose_id : Nat
  active : Bool
  deriving DecidableEq

/-- A projection residual handed to the solver by `AddProjectionResidual`: the solver
ids of the pose and of the landmark, and the camera. -/
structure BaResidual where
  pose_id : Nat
  landmark_id : Nat
  cam_id : Nat
  deriving DecidableEq

/-- The problem handed to the solver.  The solver numbers poses and landmarks
consecutively from 0 in the order in which they are added. -/
structure BaProblem where
  poses : List BaPose
  landmarks : List BaLandmark
  residuals : List BaResidual
  deriving DecidableEq

namespace SelfCal

/-- The local `is_pose_active` of `sd_selfcal.cpp` (line 531). -/
def poseActive (c : BaConfig) (ii : Nat) : Bool :=
  decide (ii ≠ 0) && decide (ii ≥ c.start_active_pose)

/-- The local `constraints_active` (lines 579-580). -/
def constraints_active (c : BaConfig) (ii : Nat) (track : DenseTrack) : Bool :=
  decide (track.keypoints.length + ii > c.start_active_pose)

/-- The test of lines 581-582 under which a track is left out of the problem. -/
def excluded (c : BaConfig) (ii : Nat) (track : DenseTrack) : Bool :=
  decide (track.num_good_tracked_frames ≤ 1) || track.is_outlier || !constraints_active c ii track

/-- The local `active` of a landmark (lines 596-597). -/
def landmarkActive (c : BaConfig) (track : DenseTrack) : Bool :=
  decide (track.id ≠ c.longest_track_id) || !c.all_poses_active || c.use_imu

/-- The landmark added for a track of the pose with solver id `opt_id`. -/
def landmarkOf (c : BaConfig) (opt_id : Nat) (track : DenseTrack) : BaLandmark :=
  { track_id := track.id, pose_id := opt_id, active := landmarkActive c track }

/-- The loop over the tracks of pose `ii` (lines 576-603): an excluded track gets
`external_id = UINT_MAX`; every other track is added as a landmark and gets the solver
id of that landmark.  The result is the list of landmarks and the updated tracks. -/
def addLandmarks (c : BaConfig) (ii opt_id : Nat) :
    List DenseTrack → List BaLandmark → List BaLandmark × List DenseTrack
  | [], landmarks => (landmarks, [])
  | track :: rest, landmarks =>
    if excluded c ii track then
      ((addLandmarks c ii opt_id rest landmarks).1,
        { track with external_id := UINT_MAX } ::
          (addLandmarks c ii opt_id rest landmarks).2)
    else
      ((addLandmarks c ii opt_id rest (landmarks ++ [landmarkOf c opt_id track])).1,
        { track with external_id := landmarks.length % U32 } ::
          (addLandmarks c ii opt_id rest (landmarks ++ [landmarkOf c opt_id track])).2)

/-- The first loop (lines 528-604) over consecutive poses starting at index `ii`: each
pose is added with its activity and gets its solver id, then its tracks are handled.
The inertial residuals and the regularisation of the first pose, which add neither
poses nor landmarks nor projection residuals, are left out. -/
def addPoses (c : BaConfig) : Nat → List TrackerPose → BaProblem → BaProblem × List TrackerPose
  | _, [], problem => (problem, [])
  | ii, pose :: rest, problem =>
    let opt_id := problem.poses.length % U32
    let added := addLandmarks c ii opt_id pose.tracks problem.landmarks
    let problem1 : BaProblem :=
      { problem with
        poses := problem.poses ++ [{ index := ii, is_active := poseActive c ii }]
        landmarks := added.1 }
    ((addPoses c (ii + 1) rest problem1).1,
      { pose with opt_id := opt_id, tracks := added.2 } :: (addPoses c (ii + 1) rest problem1).2)

/-- The flag `keypoints[jj][cam_id].tracked`. -/
def keypointTracked (track : DenseTrack) (jj cam_id : Nat) : Bool :=
  (track.keypoints.getD jj []).getD cam_id false

/-- The projection residuals added for one track of a pose with solver id `opt_id`
(lines 610-630), with `num_poses` standing for `ba.GetNumPoses()`: none for a track
whose `external_id` is `UINT_MAX`; otherwise one per camera and tracked keypoint whose
pose is in the problem. -/
def trackResiduals (c : BaConfig) (num_poses opt_id : Nat) (track : DenseTrack) :
    List BaResidual :=
  if track.external_id = UINT_MAX then []
  else
    (List.range c.num_cameras).flatMap fun cam_id =>
      (List.range track.keypoints.length).filterMap fun jj =>
        if keypointTracked track jj cam_id && decide (num_poses > opt_id + jj) then
          some { pose_id := opt_id + jj, landmark_id := track.external_id, cam_id := cam_id }
        else none

/-- The second loop (lines 606-633): the projection residuals of all tracks of the
poses in the range. -/
def addResiduals (c : BaConfig) (num_poses : Nat) (poses : List TrackerPose) : List BaResidual :=
  poses.flatMap fun pose => pose.tracks.flatMap fun track => trackResiduals c num_poses pose.opt_id track

/-- The construction of the problem in `DoBundleAdjustment` of `sd_selfcal.cpp`
(lines 476-633) on the pose graph `poses`: `none` when nothing is built (the range is a
single pose, there are no current tracks, or `end_pose_id` is 0); otherwise the problem
and the pose graph with the solver ids written back. -/
def buildProblem (c : BaConfig) (has_current_tracks : Bool) (poses : List TrackerPose) :
    Option (BaProblem × List TrackerPose) :=
  if c.start_pose_id = c.end_pose_id then none
  else if has_current_tracks && decide (c.end_pose_id ≠ 0) then
    let range := (poses.drop c.first_pose).take (c.end_pose_id + 1 - c.first_pose)
    let first := addPoses c c.first_pose range { poses := [], landmarks := [], residuals := [] }
    some ({ first.1 with residuals := addResiduals c first.1.poses.length first.2 },
      poses.take c.first_pose ++ first.2 ++ poses.drop (c.end_pose_id + 1))
  else none

end SelfCal

namespace ViTracker

/-- The local `is_active` of `sd_vitracker.cpp` (line 150). -/
def poseActive (start_active_pose ii : Nat) : Bool := decide (ii ≥ start_active_pose)

/-- The poses added by the first loop of `DoBundleAdjustment` in `sd_vitracker.cpp`
(lines 148-158), from `start_pose` to the last pose. -/
def addedPoses (start_pose start_active_pose poses_size : Nat) : List BaPose :=
  (List.range' start_pose (poses_size - start_pose)).map fun ii =>
    { index := ii, is_active := poseActive start_active_pose ii }

end ViTracker

/-! ## Read-back of the solution (`sd_selfcal.cpp`, lines 680-728) -/

/-- The literal `0.3` (its binary64 value). -/
def Dbl.c0_3 : Dbl := Dbl.fin (5404319552844595 / 18014398509481984)

/-- The constant `POSES_TO_INIT`. -/
def POSES_TO_INIT : Nat := 30

/-- The values that the read-back of a track reads besides the track: the variable
`do_outlier_rejection`, the camera's `unknown_calibration`, `poses.size()`,
`end_pose_id`, the variable `min_poses_for_imu` and the argument `use_imu`. -/
structure ReadbackConfig where
  do_outlier_rejection : Bool
  cam_unknown_calibration : Bool
  poses_size : Nat
  end_pose_id : Nat
  min_poses_for_imu : Nat
  use_imu : Bool

namespace SelfCal

/-- The gate of lines 702-703 in front of the outlier test. -/
def reflagGate (r : ReadbackConfig) : Bool :=
  r.do_outlier_rejection && !r.cam_unknown_calibration && decide (r.poses_size > POSES_TO_INIT)

/-- The outlier test of lines 704-705; `ratio` is the value of
`ba.LandmarkOutlierRatio` for the track's landmark. -/
def outlierTest (r : ReadbackConfig) (ratio : Dbl) (track : DenseTrack) : Bool :=
  Dbl.gt ratio Dbl.c0_3 && (track.tracked == false) &&
    (decide (r.end_pose_id ≥ sub32 r.min_poses_for_imu 1) || !r.use_imu)

/-- The read-back of one track (lines 689-727): a track without a landmark is skipped;
otherwise the outlier flag is recomputed behind the gate and the inverse depth is read
from the solution.  `ratio` and `solved_rho` give, for a landmark id, the outlier ratio
and the inverse depth of the solved landmark relative to its pose. -/
def readbackTrack (r : ReadbackConfig) (ratio solved_rho : Nat → Dbl) (track : DenseTrack) :
    DenseTrack :=
  if track.external_id = UINT_MAX then track
  else
    let track1 : DenseTrack :=
      if reflagGate r then
        { track with is_outlier := outlierTest r (ratio track.external_id) track }
      else track
    { track1 with rho := solved_rho track.external_id }

end SelfCal

/-! ## The tracks through `DoBundleAdjustment` (`sd_selfcal.cpp`, lines 435-733) -/

namespace SelfCal

/-- The loop of lines 444-455: with `reset_outliers` set, every track of every pose
loses its outlier flag. -/
def resetOutliers (reset_outliers : Bool) (poses : List TrackerPose) : List TrackerPose :=
  if reset_outliers then
    poses.map fun pose =>
      { pose with tracks := pose.tracks.map fun track => { track with is_outlier := false } }
  else poses

/-- The read-back of the tracks of one pose (lines 689-727). -/
def readbackPose (r : ReadbackConfig) (ratio solved_rho : Nat → Dbl) (pose : TrackerPose) :
    TrackerPose :=
  { pose with tracks := pose.tracks.map (readbackTrack r ratio solved_rho) }

/-- The function `DoBundleAdjustment` of `sd_selfcal.cpp` as far as the tracks of the
pose graph are concerned: the outlier flags are reset if asked for; nothing more happens
when the range is a single pose, there are no current tracks or `end_pose_id` is 0;
otherwise the first loop runs over the poses from `start_pose_id` to `end_pose_id`, the
problem is solved, and the read-back loop runs over the same poses.  `ratio` and
`solved_rho` stand for the values that the solver returns for a landmark id. -/
def DoBundleAdjustment (reset_outliers : Bool) (c : BaConfig) (has_current_tracks : Bool)
    (r : ReadbackConfig) (ratio solved_rho : Nat → Dbl) (poses : List TrackerPose) :
    List TrackerPose :=
  if c.start_pose_id = c.end_pose_id then resetOutliers reset_outliers poses
  else if has_current_tracks && decide (c.end_pose_id ≠ 0) then
    (resetOutliers reset_outliers poses).take c.first_pose ++
      (addPoses c c.first_pose
          (((resetOutliers reset_outliers poses).drop c.first_pose).take
            (c.end_pose_id + 1 - c.first_pose))
          { poses := [], landmarks := [], residuals := [] }).2.map
        (readbackPose r ratio solved_rho) ++
      (resetOutliers reset_outliers poses).drop (c.end_pose_id + 1)
  else resetOutliers reset_outliers poses

end SelfCal

/-! ## Pose timestamps in `ProcessImage` (`sd_selfcal.cpp`, lines 1866-1928) -/

/-- The times of the poses after the start of `ProcessImage`: when the previous frame
was a keyframe a pose is appended (lines 1866-1917); then the newest pose is stamped
with `timestamp + imu_time_offset` (line 1920).  With no pose at all and no keyframe
before, `poses.back()` has no defined behaviour in the source; the list is left empty. -/
def stampNewest (is_prev_keyframe : Bool) (timestamp imu_time_offset : Dbl)
    (times : List Dbl) : List Dbl :=
  if is_prev_keyframe then times ++ [Dbl.add timestamp imu_time_offset]
  else if times = [] then []
  else times.dropLast ++ [Dbl.add timestamp imu_time_offset]

/-- The test of line 1922: there is more than one pose and the time of the newest is
less than or equal to the time of the one before. -/
def timestampViolation (times : List Dbl) : Bool :=
  decide (times.length > 1) &&
    (match times.getLast?, times.dropLast.getLast? with
     | some newest, some previous => Dbl.le newest previous
     | _, _ => false)

/-- The start of `ProcessImage` up to line 1928: `none` stands for
`exit(EXIT_FAILURE)`, `some times` for the frame being processed further. -/
def stampAndCheck (is_prev_keyframe : Bool) (timestamp imu_time_offset : Dbl)
    (times : List Dbl) : Option (List Dbl) :=
  if timestampViolation (stampNewest is_prev_keyframe timestamp imu_time_offset times) then none
  else some (stampNewest is_prev_keyframe timestamp imu_time_offset times)

/-- Pose times strictly increasing along the pose sequence. -/
def increasingTimes (times : List Dbl) : Prop :=
  List.Chain' (fun a b => Dbl.lt a b = true) times

/-! ## Motion guess in `ProcessImage` (`sd_selfcal.cpp`, lines 1930-2007) -/

/-- A rigid transform `Sophus::SE3d` as coordinates: the unit quaternion `x, y, z, w`
and the translation. -/
structure SE3 where
  rotation : List Dbl
  translation : List Dbl
  deriving DecidableEq

/-- The identity transform, the value of `Sophus::SE3d()`. -/
def SE3.identity : SE3 :=
  { rotation := [Dbl.fin 0, Dbl.fin 0, Dbl.fin 0, Dbl.fin 1]
    translation := [Dbl.fin 0, Dbl.fin 0, Dbl.fin 0] }

/-- The test `translation() == Eigen::Vector3d(0, 0, 0)`: every coefficient compares
equal to zero. -/
def SE3.translationIsZero (t : SE3) : Bool := t.translation.all (fun v => Dbl.eq v Dbl.zero)

/-- The literal `0.001` (its binary64 value). -/
def Dbl.c0_001 : Dbl := Dbl.fin (1152921504606847 / 1152921504606846976)

/-- What the motion guess of `ProcessImage` reads: the value of `track_ratio`, which is
`(double)tracker.num_successful_tracks() / (double)num_features` as computed in binary64;
the group operation of `Sophus::SE3d`; the transforms `prev_delta_t_ba` and `prev_t_ba`;
the flags `has_imu`, `use_imu_measurements` and `use_imu_for_guess`; the variable
`min_poses_for_imu`; the IMU sensor's `unknown_calibration`; the transform
`last_pose.t_wp.inverse() * imu_poses.front().t_wp` of the IMU integration if it
returned more than one pose; and, after the tracker has run, the value of
`tracker.num_successful_tracks()` and the tracker's relative transform `t_ba`. -/
structure GuessInput where
  track_ratio : Dbl
  mul : SE3 → SE3 → SE3
  prev_delta_t_ba : SE3
  prev_t_ba : SE3
  has_imu : Bool
  use_imu_measurements : Bool
  use_imu_for_guess : Bool
  min_poses_for_imu : Nat
  imu_unknown_calibration : Bool
  imu_integration : Option SE3
  num_successful_tracks : Nat
  tracker_t_ba : SE3

/-- The guess chosen by the track ratio (lines 1930-1938). -/
def initialGuess (x : GuessInput) : SE3 :=
  if Dbl.gt x.track_ratio Dbl.c0_3 then x.mul x.prev_delta_t_ba x.prev_t_ba
  else SE3.identity

/-- The perturbation of a guess with zero translation (lines 1941-1946). -/
def perturbGuess (poses_size : Nat) (guess : SE3) : SE3 :=
  if guess.translationIsZero && decide (poses_size > 1) then
    { guess with translation := [Dbl.fin 0, Dbl.fin 0, Dbl.c0_001] }
  else guess

/-- The gate in front of the IMU integration (lines 1948-1951). -/
def imuGuessGate (poses_size : Nat) (x : GuessInput) : Bool :=
  x.has_imu && x.use_imu_measurements && x.use_imu_for_guess &&
    decide (poses_size > x.min_poses_for_imu) && !x.imu_unknown_calibration

/-- The guess after the IMU integration (lines 1948-1975). -/
def imuGuess (poses_size : Nat) (x : GuessInput) (guess : SE3) : SE3 :=
  if imuGuessGate poses_size x then
    match x.imu_integration with
    | some t => t
    | none => guess
  else guess

/-- The guess given to `tracker.AddImage` (lines 1930-1986). -/
def motionGuess (poses_size : Nat) (x : GuessInput) : SE3 :=
  imuGuess poses_size x (perturbGuess poses_size (initialGuess x))

/-- The relative transform of the tracker after lines 1996-2007: it is replaced by the
guess when fewer than 10 tracks succeeded and inertial measurements are in use. -/
def trackerTransform (poses_size : Nat) (x : GuessInput) : SE3 :=
  if decide (x.num_successful_tracks < 10) && x.has_imu && x.use_imu_measurements then
    motionGuess poses_size x
  else x.tracker_t_ba

/-- The part of `ProcessImage` from the stamping of the newest pose to the update of the
current pose (lines 1866-2010): `none` stands for `exit(EXIT_FAILURE)`; otherwise the
pose times, the guess given to the tracker and the relative transform of the tracker. -/
def processFrame (is_prev_keyframe : Bool) (timestamp imu_time_offset : Dbl)
    (times : List Dbl) (x : GuessInput) : Option (List Dbl × SE3 × SE3) :=
  (stampAndCheck is_prev_keyframe timestamp imu_time_offset times).map fun stamped =>
    (stamped, motionGuess stamped.length x, trackerTransform stamped.length x)

/-- A frame with track ratio `0.2`, no IMU, 5 successful tracks and a tracker transform
with translation `(1, 0, 0)`. -/
def sampleGuessInput : GuessInput :=
  { track_ratio := Dbl.c0_2
    mul := fun a _ => a
    prev_delta_t_ba := { SE3.identity with translation := [Dbl.fin 1, Dbl.fin 1, Dbl.fin 1] }
    prev_t_ba := SE3.identity
    has_imu := false
    use_imu_measurements := false
    use_imu_for_guess := false
    min_poses_for_imu := 30
    imu_unknown_calibration := false
    imu_integration := none
    num_successful_tracks := 5
    tracker_t_ba := { SE3.identity with translation := [Dbl.fin 1, Dbl.fin 0, Dbl.fin 0] } }

/-! ## Patch scores in `OptimizeTrack` (`parallel_algos.cpp`, lines 141-273)

The sums behind `transfer.ncc` are taken over a linearly ordered field `R`, with the
square root as a parameter, so that the score can be evaluated on rationals and studied
over the reals. -/

namespace OptimizeTrack

/-- The locals `ncc_num`, `ncc_den_a` and `ncc_den_b` (line 153). -/
structure NccSums (R : Type) where
  ncc_num : R
  ncc_den_a : R
  ncc_den_b : R

/-- What the loop over the valid rays reads for the scores besides the pixel values:
`ref_patch.mean`, `transfer.mean_value`, the option `use_robust_norm_` and the
threshold `c_huber`. -/
structure PatchInput (R : Type) where
  ref_mean : R
  mean_value : R
  use_robust_norm : Bool
  c_huber : R

/-- The local `mean_s_ref` of a pixel; a pixel is the pair of `ref_patch.values[ii]` and
`val_pix`. -/
def mean_s_ref {R : Type} [LinearOrderedField R] (x : PatchInput R) (px : R × R) : R :=
  px.1 - x.ref_mean

/-- The local `mean_s_proj` of a pixel. -/
def mean_s_proj {R : Type} [LinearOrderedField R] (x : PatchInput R) (px : R × R) : R :=
  px.2 - x.mean_value

/-- The local `weight_sqrt` (lines 204-205) for the residual `res`. -/
def weight_sqrt {R : Type} [LinearOrderedField R] (sqrt : R → R) (x : PatchInput R)
    (res : R) : R :=
  sqrt (if |res| > x.c_huber then x.c_huber / |res| else 1)

/-- The flag `inlier` of a pixel (lines 202-213): with the robust norm a pixel whose
weight differs from 1 is not an inlier. -/
def inlier {R : Type} [LinearOrderedField R] (sqrt : R → R) (x : PatchInput R)
    (px : R × R) : Bool :=
  if x.use_robust_norm then
    if weight_sqrt sqrt x (mean_s_proj x px - mean_s_ref x px) ≠ 1 then false else true
  else true

/-- The update of the three sums by one pixel (lines 217-223). -/
def accumulate {R : Type} [LinearOrderedField R] (sqrt : R → R) (x : PatchInput R)
    (s : NccSums R) (px : R × R) : NccSums R :=
  if inlier sqrt x px then
    { ncc_num := s.ncc_num + mean_s_ref x px * mean_s_proj x px
      ncc_den_a := s.ncc_den_a + mean_s_ref x px * mean_s_ref x px
      ncc_den_b := s.ncc_den_b + mean_s_proj x px * mean_s_proj x px }
  else s

/-- The three sums after the loop over the valid rays. -/
def sums {R : Type} [LinearOrderedField R] (sqrt : R → R) (x : PatchInput R)
    (pixels : List (R × R)) : NccSums R :=
  pixels.foldl (accumulate sqrt x) { ncc_num := 0, ncc_den_a := 0, ncc_den_b := 0 }

/-- The value assigned to `transfer.ncc` (lines 271-272). -/
def ncc {R : Type} [LinearOrderedField R] (sqrt : R → R) (x : PatchInput R)
    (pixels : List (R × R)) : R :=
  if sqrt ((sums sqrt x pixels).ncc_den_a * (sums sqrt x pixels).ncc_den_b) = 0 then 0
  else
    (sums sqrt x pixels).ncc_num /
      sqrt ((sums sqrt x pixels).ncc_den_a * (sums sqrt x pixels).ncc_den_b)

/-- The field `transfer.ncc` after the body of the loop over the cameras for one patch
transfer: a transfer with fewer valid projections than half of the rays of the
reference patch is skipped (lines 141-144) and keeps the value it had. -/
def transferNcc {R : Type} [LinearOrderedField R] (sqrt : R → R) (x : PatchInput R)
    (valid_projections rays : Nat)
    (old_ncc : R) (pixels : List (R × R)) : R :=
  if valid_projections < rays / 2 then old_ncc else ncc sqrt x pixels

/-- A square root on the rationals that is exact on 0, 1, 4, 9, 16 and 25 and is 0
elsewhere, for the evaluation of samples. -/
def sampleSqrt (q : ℚ) : ℚ :=
  if q = 25 then 5 else if q = 16 then 4 else if q = 9 then 3 else if q = 4 then 2
  else if q = 1 then 1 else 0

/-- A patch with the means 2 and 3, without the robust norm. -/
def samplePatch : PatchInput ℚ :=
  { ref_mean := 2, mean_value := 3, use_robust_norm := false, c_huber := 1 }

end OptimizeTrack

/-! ### Sample pose graph -/

/-- A track with id `n`, seen in three keyframes by one camera, with two good tracked
frames. -/
def sampleTrack (n : Nat) : DenseTrack :=
  { id := n, keypoints := [[true], [true], [true]], num_good_tracked_frames := 2
    is_outlier := false, tracked := true, external_id := 0, ray := [], rho := Dbl.one
    center_px := [], needs_backprojection := false }

/-- A pose graph of three poses; the first pose owns tracks 7 and 8, the second owns
track 9, which is an outlier. -/
def samplePoses : List TrackerPose :=
  [{ tracks := [sampleTrack 7, sampleTrack 8], opt_id := 0, cam_params := [], time := Dbl.fin 1 },
   { tracks := [{ sampleTrack 9 with is_outlier := true }], opt_id := 0, cam_params := []
     time := Dbl.fin 2 },
   { tracks := [], opt_id := 0, cam_params := [], time := Dbl.fin 3 }]

/-- A visual-only bundle adjustment over poses 0 to 2, all of them in the active window;
track 7 is the longest track. -/
def sampleBa : BaConfig :=
  { use_imu := false, use_imu_measurements := false, longest_track_id := 7, num_cameras := 1
    start_pose_id := 0, start_active_pose := 0, end_pose_id := 2 }

/-- A read-back with outlier rejection enabled, a known camera calibration, 40 poses and
no inertial residuals. -/
def sampleReadback : ReadbackConfig :=
  { do_outlier_rejection := true, cam_unknown_calibration := false, poses_size := 40
    end_pose_id := 39, min_poses_for_imu := 30, use_imu := false }

/-- Track 8 with landmark 1, lost by the tracker. -/
def sampleLostTrack : DenseTrack := { sampleTrack 8 with tracked := false, external_id := 1 }

/-! ### Sample sensors -/

/-- A window over poses 0 to 10 with a one-dimensional mean and covariance. -/
def sampleWindow : CalibrationWindow :=
  { start_index := 0, end_index := 10, mean := [Dbl.one], covariance := [[Dbl.one]],
    score := Dbl.one }

/-- A camera sensor in online mode: known calibration, a full queue of two windows, the
counter at zero and the default threshold 3. -/
def sampleCalib : Calibration :=
  { online_calibrator := { windows := [sampleWindow, sampleWindow], capacity := 2, dirty := false }
    last_window_kl_divergence := Dbl.zero
    last_added_window_kl_divergence := Dbl.zero
    unknown_calibration_start_pose := 0
    pq_window := sampleWindow
    candidate_window := sampleWindow
    current_window := sampleWindow
    num_change_detected := 0
    num_change_needed := 3
    num_self_cal_segments := 5
    self_cal_segment_length := 10
    plot_graphs := false
    do_self_cal := true
    unknown_calibration := false
    type := CalibrationType.Camera }

/-- Three qualifying evaluations with divergence `0.1`, at pose counts 100 to 102. -/
def sampleEvals : List (Nat × Dbl) := [(100, Dbl.c0_1), (101, Dbl.c0_1), (102, Dbl.c0_1)]

/-- The sample sensor after three qualifying evaluations: the counter is at the
threshold 3 and the newest divergence is `0.1`. -/
def sampleCalibAtThreshold : Calibration :=
  { sampleCalib with last_window_kl_divergence := Dbl.c0_1, num_change_detected := 3 }

/-! ## Global state and sensor activity (`sd_selfcal.cpp`, lines 56-200, 362-384) -/

/-- The camera of a `calibu::Rig`: its intrinsic parameters (`GetParams()`) and its
camera-to-IMU pose (`Pose()`), both as coordinate vectors. -/
structure Rig where
  params : List Dbl
  pose : List Dbl
  deriving DecidableEq

/-- The global variables of `sd_selfcal.cpp` that the calibration scheduler reads or
writes: the map `calibrations`, the flags and tunable variables, the number of poses,
the live rig and the self-calibration scratch rig, and the batch window. -/
structure State where
  cam_calib : Calibration
  imu_calib : Calibration
  has_imu : Bool
  use_imu_measurements : Bool
  use_batch_estimates : Bool
  do_cam_self_cal : Bool
  do_imu_self_cal : Bool
  min_poses_for_camera : Nat
  min_poses_for_imu : Nat
  min_poses_for_imu_rotation_init : Nat
  do_tvs_rotation_init : Bool
  do_tvs_translation_init : Bool
  num_residual_blocks : Nat
  poses_size : Nat
  rig : Rig
  selfcal_rig : Rig
  global_pq_window : CalibrationWindow
  deriving DecidableEq

/-- The function `GetCalibration`: the entry of the map `calibrations`. -/
def GetCalibration (s : State) : CalibrationType → Calibration
  | CalibrationType.Camera => s.cam_calib
  | CalibrationType.IMU => s.imu_calib

/-- The function `SelfCalActive`. -/
def SelfCalActive (s : State) (calib : Calibration) : Bool :=
  match calib.type with
  | CalibrationType.Camera => calib.do_self_cal
  | CalibrationType.IMU =>
    s.has_imu && s.use_imu_measurements && calib.do_self_cal &&
      !(GetCalibration s CalibrationType.Camera).unknown_calibration

/-- The map `calibrations` holds under each key the sensor of that type, as `main`
sets it up. -/
def State.wellTyped (s : State) : Prop :=
  s.cam_calib.type = CalibrationType.Camera ∧ s.imu_calib.type = CalibrationType.IMU

/-! ## Change detection in `BaAndStartNewLandmarks` (`sd_selfcal.cpp`, lines 1439-1484) -/

/-- The top-left block `block<4,4>(0,0)` of a matrix stored row by row. -/
def block4 (m : List (List Dbl)) : List (List Dbl) := (m.take 4).map (fun row => row.take 4)

/-- The divergence step for the camera (lines 1440-1452): when the candidate covariance
has lost exactly one rank, both covariances are cut to their top-left 4 by 4 block;
then the divergence of the candidate from the queue is stored.  `rank` stands for
`fullPivLu().rank()` and `ComputeYao1965` for the method of that name. -/
def cameraDivergence (rank : List (List Dbl) → Nat)
    (ComputeYao1965 : CalibrationWindow → CalibrationWindow → Dbl)
    (calib : Calibration) : Calibration :=
  let calib1 :=
    if (rank calib.candidate_window.covariance : Int) =
        (calib.candidate_window.covariance.length : Int) - 1 then
      { calib with
        pq_window := { calib.pq_window with covariance := block4 calib.pq_window.covariance }
        candidate_window :=
          { calib.candidate_window with covariance := block4 calib.candidate_window.covariance } }
    else calib
  { calib1 with
    last_window_kl_divergence := ComputeYao1965 calib1.pq_window calib1.candidate_window }

/-- The body of the loop over the active sensors (lines 1477-1484): the candidate
becomes the current window when it has a mean, a divergence that is NaN or infinite is
replaced by 0, and `CheckParameterChange` is called. -/
def changeCheckBody (poses_size : Nat) (calib : Calibration) : Calibration :=
  let calib1 :=
    if calib.candidate_window.mean.length ≠ 0 then
      { calib with current_window := calib.candidate_window }
    else calib
  let calib2 :=
    if Dbl.isnan calib1.last_window_kl_divergence || Dbl.isinf calib1.last_window_kl_divergence then
      { calib1 with last_window_kl_divergence := Dbl.zero }
    else calib1
  CheckParameterChange poses_size calib2

/-- The change-detection section of `BaAndStartNewLandmarks` (lines 1439-1484): the
camera divergence is computed if the camera is active, the IMU divergence is set to 0 if
the IMU is active, then every active sensor is checked, the camera first. -/
def changeDetection (rank : List (List Dbl) → Nat)
    (ComputeYao1965 : CalibrationWindow → CalibrationWindow → Dbl) (s : State) : State :=
  let s1 :=
    if SelfCalActive s s.cam_calib then
      { s with cam_calib := cameraDivergence rank ComputeYao1965 s.cam_calib }
    else s
  let s2 :=
    if SelfCalActive s1 s1.imu_calib then
      { s1 with imu_calib := { s1.imu_calib with last_window_kl_divergence := Dbl.zero } }
    else s1
  let s3 :=
    if SelfCalActive s2 s2.cam_calib then
      { s2 with cam_calib := changeCheckBody s2.poses_size s2.cam_calib }
    else s2
  if SelfCalActive s3 s3.imu_calib then
    { s3 with imu_calib := changeCheckBody s3.poses_size s3.imu_calib }
  else s3

/-! ## Batch mode of `BaAndStartNewLandmarks` (`sd_selfcal.cpp`, lines 944-1311) -/

/-- Results of the external computations used by the batch block: for the camera, the
window written by `AnalyzeCalibrationWindow<false, false>`, its score
(`GetWindowScore`) and the scratch rig after the analysis; for the IMU, the poses
produced by the rotation and translation initialisation, the return value of
`AnalyzeCalibrationWindow<true, true>`, the window it writes, its score and the scratch
rig after the analysis; and `rank`, standing for `fullPivLu().rank()`. -/
structure BatchExtern where
  cam_window : CalibrationWindow
  cam_score : Dbl
  cam_selfcal_rig : Rig
  tvs_rotation_pose : List Dbl
  tvs_translation_pose : List Dbl
  imu_use_batch_candidate : Bool
  imu_window : CalibrationWindow
  imu_score : Dbl
  imu_selfcal_rig : Rig
  rank : List (List Dbl) → Nat

/-- The locals `score`, `num_params` and `use_batch_candidate` of the batch block. -/
structure BatchLocals where
  score : Dbl
  num_params : Int
  use_batch_candidate : Bool

/-- The local `batch_end`, the `uint32_t` copy of `poses.size()`. -/
def batch_end (s : State) : Nat := s.poses_size % U32

/-- The segment test `batch_end - unknown_calibration_start_pose > bound`, in
`uint32_t` arithmetic. -/
def segmentExceeds (s : State) (calib : Calibration) (bound : Nat) : Bool :=
  decide (sub32 (batch_end s) calib.unknown_calibration_start_pose > bound)

/-- The settings copied into the sensors at the start of `BaAndStartNewLandmarks`
(lines 949-955). -/
def syncSettings (s : State) : State :=
  { s with
    cam_calib := { s.cam_calib with do_self_cal := s.do_cam_self_cal
                                    self_cal_segment_length := s.min_poses_for_camera }
    imu_calib := { s.imu_calib with do_self_cal := s.do_imu_self_cal
                                    self_cal_segment_length := s.min_poses_for_imu } }

/-- The flag `have_unknown_calib` (lines 961-969): some active sensor is Unknown. -/
def have_unknown_calib (s : State) : Bool :=
  (SelfCalActive s s.cam_calib && s.cam_calib.unknown_calibration) ||
  (SelfCalActive s s.imu_calib && s.imu_calib.unknown_calibration)

/-- Camera batch initialisation (lines 982-1001). -/
def cameraBatch (x : BatchExtern) (sl : State × BatchLocals) : State × BatchLocals :=
  let s := sl.1
  if (s.use_batch_estimates || s.cam_calib.unknown_calibration) &&
      SelfCalActive s s.cam_calib &&
      segmentExceeds s s.cam_calib s.cam_calib.self_cal_segment_length then
    let cam1 : Calibration := { s.cam_calib with pq_window := x.cam_window }
    let cam2 : Calibration :=
      if cam1.pq_window.mean.length ≠ 0 then { cam1 with current_window := cam1.pq_window }
      else cam1
    ({ s with cam_calib := cam2, selfcal_rig := x.cam_selfcal_rig
              global_pq_window := cam1.pq_window },
     { sl.2 with score := x.cam_score, num_params := (x.cam_selfcal_rig.params.length : Int) })
  else sl

/-- The staged initialisation of the camera-to-IMU transform (lines 1016-1155): a
rotation residual is added per keyframe; once enough have accumulated the rotation is
solved and written to the live and scratch rigs and the translation stage is enabled;
the translation stage writes its guess to both rigs. -/
def tvsInit (x : BatchExtern) (s : State) : State :=
  if (s.do_tvs_rotation_init || s.do_tvs_translation_init) && decide (s.poses_size > 1) then
    let s1 :=
      if s.do_tvs_rotation_init then { s with num_residual_blocks := s.num_residual_blocks + 1 }
      else s
    let s2 :=
      if decide (s1.num_residual_blocks % U32 ≥ s1.min_poses_for_imu_rotation_init) &&
          s1.do_tvs_rotation_init then
        { s1 with rig := { s1.rig with pose := x.tvs_rotation_pose }
                  selfcal_rig := { s1.selfcal_rig with pose := x.tvs_rotation_pose }
                  do_tvs_translation_init := true
                  do_tvs_rotation_init := false }
      else s1
    if decide (s2.poses_size > s2.min_poses_for_imu_rotation_init) &&
        s2.do_tvs_translation_init then
      { s2 with rig := { s2.rig with pose := x.tvs_translation_pose }
                selfcal_rig := { s2.selfcal_rig with pose := x.tvs_translation_pose }
                do_tvs_translation_init := false }
    else s2
  else s

/-- IMU batch initialisation (lines 1008-1186). -/
def imuBatch (x : BatchExtern) (sl : State × BatchLocals) : State × BatchLocals :=
  let s := sl.1
  if (s.use_batch_estimates || s.imu_calib.unknown_calibration) &&
      SelfCalActive s s.imu_calib then
    let s1 := tvsInit x s
    if !s1.do_tvs_rotation_init && !s1.do_tvs_translation_init &&
        segmentExceeds s1 s1.imu_calib s1.imu_calib.self_cal_segment_length then
      let imu1 : Calibration := { s1.imu_calib with pq_window := x.imu_window }
      if x.imu_use_batch_candidate then
        let imu2 : Calibration :=
          if imu1.pq_window.mean.length ≠ 0 then { imu1 with current_window := imu1.pq_window }
          else imu1
        ({ s1 with imu_calib := imu2, selfcal_rig := x.imu_selfcal_rig
                   global_pq_window := imu1.pq_window },
         { score := x.imu_score, num_params := 6, use_batch_candidate := true })
      else
        ({ s1 with imu_calib := imu1, selfcal_rig := x.imu_selfcal_rig },
         { sl.2 with num_params := 6, use_batch_candidate := false })
    else (s1, sl.2)
  else sl

/-- The estimation part of the batch block: the locals are initialised, then the camera
and the IMU batch initialisations run. -/
def batchEstimate (x : BatchExtern) (s : State) : State × BatchLocals :=
  imuBatch x (cameraBatch x (s, { score := Dbl.zero, num_params := 0, use_batch_candidate := true }))

/-- The rank gate of line 1193: the covariance of the batch window has full rank, there
are free parameters and the candidate was not rejected. -/
def rankGate (x : BatchExtern) (sl : State × BatchLocals) : Bool :=
  decide ((x.rank sl.1.global_pq_window.covariance : Int) = sl.2.num_params) &&
  decide (sl.2.num_params ≠ 0) && sl.2.use_batch_candidate

/-- The score test of lines 1275 and 1284: below `1e7`, non-zero and finite. -/
def scoreGood (score : Dbl) : Bool :=
  Dbl.lt score Dbl.c1e7 && Dbl.ne score Dbl.zero && !Dbl.isnan score && !Dbl.isinf score

/-- The test of lines 1274-1277 and 1283-1286 for one sensor. -/
def leavesBatch (s : State) (calib : Calibration) (score : Dbl) : Bool :=
  SelfCalActive s calib &&
  (scoreGood score || segmentExceeds s calib ((calib.self_cal_segment_length * 2) % U32))

/-- The copy of the scratch rig to the live rig (lines 1201-1206). -/
def copyRig (s : State) : State :=
  { s with rig := { s.rig with params := s.selfcal_rig.params, pose := s.selfcal_rig.pose } }

/-- The switch of the camera to self-calibration (lines 1273-1280). -/
def camLeave (score : Dbl) (s : State) : State :=
  if leavesBatch s s.cam_calib score then
    { s with cam_calib := { s.cam_calib with unknown_calibration := false } }
  else s

/-- The switch of the IMU to self-calibration (lines 1282-1289). -/
def imuLeave (score : Dbl) (s : State) : State :=
  if leavesBatch s s.imu_calib score then
    { s with imu_calib := { s.imu_calib with unknown_calibration := false } }
  else s

/-- The application part of the batch block (lines 1193-1290): behind the rank gate the
scratch rig is copied to the live rig, then the camera and after it the IMU leave
Unknown if their test holds.  The rewriting of the per-pose camera parameters and of
the track rays (lines 1236-1259) acts on the pose graph, which is not part of the
state. -/
def batchApply (x : BatchExtern) (sl : State × BatchLocals) : State :=
  if rankGate x sl then imuLeave sl.2.score (camLeave sl.2.score (copyRig sl.1))
  else sl.1

/-- The batch block of `BaAndStartNewLandmarks` (lines 960-1311). -/
def batchBlock (x : BatchExtern) (s : State) : State :=
  if have_unknown_calib s || s.use_batch_estimates then batchApply x (batchEstimate x s)
  else s

/-- The fields of a sensor that decide whether it is active and whether it leaves batch
mode: type, enable flag, Unknown flag, rollback index and segment length. -/
def calView (c : Calibration) : CalibrationType × Bool × Bool × Nat × Nat :=
  (c.type, c.do_self_cal, c.unknown_calibration, c.unknown_calibration_start_pose,
    c.self_cal_segment_length)

/-- The part of the state that the activity and segment tests read. -/
def scheduleView (s : State) :
    Bool × Bool × Nat × (CalibrationType × Bool × Bool × Nat × Nat) ×
      (CalibrationType × Bool × Bool × Nat × Nat) :=
  (s.has_imu, s.use_imu_measurements, s.poses_size, calView s.cam_calib, calView s.imu_calib)

/-- A state with the sample camera sensor, an IMU sensor in online mode and both
self-calibrations enabled. -/
def sampleState : State :=
  { cam_calib := sampleCalib
    imu_calib := { sampleCalib with type := CalibrationType.IMU, self_cal_segment_length := 30 }
    has_imu := true
    use_imu_measurements := true
    use_batch_estimates := false
    do_cam_self_cal := true
    do_imu_self_cal := true
    min_poses_for_camera := 10
    min_poses_for_imu := 30
    min_poses_for_imu_rotation_init := 30
    do_tvs_rotation_init := false
    do_tvs_translation_init := false
    num_residual_blocks := 0
    poses_size := 100
    rig := { params := [Dbl.one, Dbl.one, Dbl.one, Dbl.one], pose := [] }
    selfcal_rig := { params := [Dbl.one, Dbl.one, Dbl.one, Dbl.one], pose := [] }
    global_pq_window := sampleWindow }

/-! ## Application of the priority queue results (`sd_selfcal.cpp`, lines 851-933) -/

/-- The value given to `apply_pq_results` when the analysis of a sensor's queue is
queued or run (lines 1534-1535 and 1576-1577). -/
def capturedApply (s : State) (calib : Calibration) : Bool :=
  !calib.unknown_calibration && !s.use_batch_estimates

/-- The rewriting of a pose by `ApplyPriorityQueueResults` (lines 894-900): inside the
loop over the tracks of the pose, the per-pose camera parameters are set and every
track gets a new reference ray and `needs_backprojection`.  `unproject` stands for
`Unproject(center_px).normalized()` of the live camera. -/
def reprojectPose (unproject : List Dbl → List Dbl → List Dbl) (new_cam_params : List Dbl)
    (pose : TrackerPose) : TrackerPose :=
  if pose.tracks = [] then pose
  else
    { pose with
      cam_params := new_cam_params
      tracks := pose.tracks.map fun track =>
        { track with ray := unproject new_cam_params track.center_px
                     needs_backprojection := true } }

/-- The function `ApplyPriorityQueueResults` on the state and the pose graph.  The
calls of `SetPriorityQueueDistribution` act on the calibrators' internal distribution,
which is not part of the model. -/
def ApplyPriorityQueueResults (unproject : List Dbl → List Dbl → List Dbl)
    (apply_results : Bool) (s : State) (poses : List TrackerPose) :
    State × List TrackerPose :=
  if apply_results && !s.use_batch_estimates then
    let s1 := copyRig s
    if SelfCalActive s1 s1.cam_calib then
      (s1, poses.take s1.cam_calib.unknown_calibration_start_pose ++
        (poses.drop s1.cam_calib.unknown_calibration_start_pose).map
          (reprojectPose unproject s1.rig.params))
    else (s1, poses)
  else (s, poses)

/-! ## Per-pose camera parameters after a batch estimate (`sd_selfcal.cpp`,
lines 1236-1259) -/

/-- The rewriting of a pose by the batch block (lines 1245-1257): the per-pose camera
parameters are set to those of the live rig; every track that has a landmark (its
`external_id[0]`, here `external_id`, is not `UINT_MAX`) gets a new reference ray and
`needs_backprojection`, the other tracks are skipped. -/
def batchReprojectPose (unproject : List Dbl → List Dbl → List Dbl) (cam_params : List Dbl)
    (pose : TrackerPose) : TrackerPose :=
  { pose with
    cam_params := cam_params
    tracks := pose.tracks.map fun track =>
      if track.external_id = UINT_MAX then track
      else
        { track with ray := unproject cam_params track.center_px
                     needs_backprojection := true } }

/-- The loop of the batch block over the poses from the rollback index on
(lines 1236-1259), taken after the live rig has received the batch estimate. -/
def batchReproject (unproject : List Dbl → List Dbl → List Dbl) (s : State)
    (poses : List TrackerPose) : List TrackerPose :=
  if SelfCalActive s s.cam_calib then
    poses.take s.cam_calib.unknown_calibration_start_pose ++
      (poses.drop s.cam_calib.unknown_calibration_start_pose).map
        (batchReprojectPose unproject s.rig.params)
  else poses

/-! ## Start-up (`sd_selfcal.cpp`, lines 2595-2749) -/

/-- What `LoadCameras` reads: the cameras loaded by `LoadCameraAndRig`, the width and
height of the first camera, whether an IMU was given on the command line, the variables
`unknown_cam_calibration`, `unknown_imu_calibration` and `use_imu_measurements`, the
value of `tan(fov_rads / 2)` for the field of view of 90 degrees, and the function
`sdtrack::RoboticsToVision`, whose definition is not among the sources.  A pose is the
coordinate vector of `Sophus::SE3`: the unit quaternion `x, y, z, w` followed by the
translation. -/
structure LoadInput where
  xml_rig : List Rig
  width : Nat
  height : Nat
  imu_given : Bool
  unknown_cam_calibration : Bool
  unknown_imu_calibration : Bool
  use_imu_measurements : Bool
  tan_half_fov : Dbl
  RoboticsToVision : List Dbl → List Dbl

/-- The cameras of the live rig, of the self-calibration scratch rig and of the AAC
scratch rig, and the flag `has_imu`. -/
structure Rigs where
  rig : List Rig
  selfcal_rig : List Rig
  aac_rig : List Rig
  has_imu : Bool

/-- The call `cameras_[0]->SetParams(params)`. -/
def setParams0 (params : List Dbl) : List Rig → List Rig
  | [] => []
  | cam :: rest => { cam with params := params } :: rest

/-- The call `cameras_[0]->SetPose(pose)`. -/
def setPose0 (pose : List Dbl) : List Rig → List Rig
  | [] => []
  | cam :: rest => { cam with pose := pose } :: rest

/-- The loop `dst.cameras_[cam_id]->SetPose(src.cameras_[cam_id]->Pose())`. -/
def copyPoses (src dst : List Rig) : List Rig :=
  List.zipWith (fun d s => { d with pose := s.pose }) dst src

/-- The perturbed intrinsics of lines 2646-2660: both focal lengths become
`0.5 * Height() / tan(fov_rads / 2)`, the principal point becomes `Width() / 2` and
`Height() / 2` (divisions of integers) and a fifth parameter, if there is one,
becomes 0. -/
def seedIntrinsics (tan_half_fov : Dbl) (width height : Nat) (params : List Dbl) : List Dbl :=
  let f_x := Dbl.div (Dbl.fin ((1 / 2 : ℚ) * (height : ℚ))) tan_half_fov
  let p := (((params.set 0 f_x).set 1 f_x).set 2 (Dbl.fin ((width / 2 : Nat) : ℚ))).set 3
    (Dbl.fin ((height / 2 : Nat) : ℚ))
  if params.length > 4 then p.set 4 (Dbl.fin 0) else p

/-- The perturbed extrinsics of lines 2699-2713: the rotation is set to the identity
quaternion, the pose is converted by `RoboticsToVision`, then the translation is set to
zero. -/
def seedExtrinsics (RoboticsToVision : List Dbl → List Dbl) (pose : List Dbl) : List Dbl :=
  (RoboticsToVision ([Dbl.fin 0, Dbl.fin 0, Dbl.fin 0, Dbl.fin 1] ++ pose.drop 4)).take 4 ++
    [Dbl.fin 0, Dbl.fin 0, Dbl.fin 0]

/-- The function `LoadCameras`.  With no camera in the loaded rig the accesses to
`rig.cameras_[0]` have no defined behaviour in the source; the rigs are left empty. -/
def LoadCameras (x : LoadInput) : Rigs :=
  match x.xml_rig with
  | [] => { rig := [], selfcal_rig := [], aac_rig := [], has_imu := x.imu_given }
  | cam0 :: rest =>
    let r1 : Rigs :=
      { rig := cam0 :: rest
        selfcal_rig := (cam0 :: rest).map (fun _ => cam0)
        aac_rig := (cam0 :: rest).map (fun _ => cam0)
        has_imu := x.imu_given }
    let r2 : Rigs :=
      if x.unknown_cam_calibration then
        { r1 with
          rig := setParams0 (seedIntrinsics x.tan_half_fov x.width x.height cam0.params) r1.rig
          selfcal_rig :=
            setParams0 (seedIntrinsics x.tan_half_fov x.width x.height cam0.params) r1.selfcal_rig
          aac_rig :=
            setParams0 (seedIntrinsics x.tan_half_fov x.width x.height cam0.params) r1.aac_rig }
      else r1
    if r2.has_imu && x.unknown_imu_calibration && x.use_imu_measurements then
      { r2 with
        rig := setPose0 (seedExtrinsics x.RoboticsToVision cam0.pose) r2.rig
        selfcal_rig :=
          copyPoses (setPose0 (seedExtrinsics x.RoboticsToVision cam0.pose) r2.rig) r2.selfcal_rig
        aac_rig := copyPoses r2.aac_rig r2.aac_rig }
    else r2

/-! ## Lock acquisition (`sd_selfcal.cpp`) -/

/-- The two mutexes: `aac_mutex` guards the pose graph and the rig,
`online_calibrator_mutex` the calibration bookkeeping. -/
inductive Mutex where
  | aac_mutex
  | online_calibrator_mutex
  deriving DecidableEq

/-- The functions of `sd_selfcal.cpp` that construct a `std::lock_guard`. -/
inductive LockingFunction where
  | DoBundleAdjustment
  | DoAAC
  | ApplyPriorityQueueResults
  | BaAndStartNewLandmarks
  | ProcessImage
  deriving DecidableEq

/-- A critical section: the function it is in, the line of its first `std::lock_guard`
and the mutexes of its guards in the order in which they are constructed. -/
structure CriticalSection where
  owner : LockingFunction
  line : Nat
  acquired : List Mutex
  deriving DecidableEq

/-- Every critical section of `sd_selfcal.cpp`, in the order of the source. -/
def criticalSections : List CriticalSection :=
  [{ owner := LockingFunction.DoBundleAdjustment, line := 446
     acquired := [Mutex.aac_mutex, Mutex.online_calibrator_mutex] },
   { owner := LockingFunction.DoBundleAdjustment, line := 480
     acquired := [Mutex.aac_mutex, Mutex.online_calibrator_mutex] },
   { owner := LockingFunction.DoBundleAdjustment, line := 516
     acquired := [Mutex.aac_mutex] },
   { owner := LockingFunction.DoBundleAdjustment, line := 647
     acquired := [Mutex.aac_mutex, Mutex.online_calibrator_mutex] },
   { owner := LockingFunction.DoAAC, line := 820
     acquired := [Mutex.aac_mutex] },
   { owner := LockingFunction.ApplyPriorityQueueResults, line := 863
     acquired := [Mutex.aac_mutex, Mutex.online_calibrator_mutex] },
   { owner := LockingFunction.BaAndStartNewLandmarks, line := 1112
     acquired := [Mutex.online_calibrator_mutex, Mutex.aac_mutex] },
   { owner := LockingFunction.BaAndStartNewLandmarks, line := 1140
     acquired := [Mutex.online_calibrator_mutex, Mutex.aac_mutex] },
   { owner := LockingFunction.BaAndStartNewLandmarks, line := 1202
     acquired := [Mutex.online_calibrator_mutex, Mutex.aac_mutex] },
   { owner := LockingFunction.BaAndStartNewLandmarks, line := 1241
     acquired := [Mutex.aac_mutex, Mutex.online_calibrator_mutex] },
   { owner := LockingFunction.BaAndStartNewLandmarks, line := 1544
     acquired := [Mutex.online_calibrator_mutex] },
   { owner := LockingFunction.BaAndStartNewLandmarks, line := 1581
     acquired := [Mutex.online_calibrator_mutex] },
   { owner := LockingFunction.ProcessImage, line := 1907
     acquired := [Mutex.aac_mutex, Mutex.online_calibrator_mutex] },
   { owner := LockingFunction.ProcessImage, line := 1984
     acquired := [Mutex.aac_mutex, Mutex.online_calibrator_mutex] },
   { owner := LockingFunction.ProcessImage, line := 2030
     acquired := [Mutex.aac_mutex] },
   { owner := LockingFunction.ProcessImage, line := 2051
     acquired := [Mutex.aac_mutex] }]

/-- The section holds both mutexes. -/
def CriticalSection.holdsBoth (cs : CriticalSection) : Bool :=
  decide (Mutex.aac_mutex ∈ cs.acquired) && decide (Mutex.online_calibrator_mutex ∈ cs.acquired)

/-- All sections that hold both mutexes acquire them in the same order. -/
def lockOrderConsistent (sections : List CriticalSection) : Bool :=
  sections.all fun a => sections.all fun b =>
    !(a.holdsBoth && b.holdsBoth) || decide (a.acquired = b.acquired)

/-- Two threads, each inside a critical section: the holder of each mutex (a thread
number, if any) and the mutexes each thread has still to acquire. -/
structure LockState where
  aac_holder : Option Nat
  oc_holder : Option Nat
  pending0 : List Mutex
  pending1 : List Mutex
  deriving DecidableEq

/-- The holder of a mutex. -/
def LockState.holder (s : LockState) : Mutex → Option Nat
  | Mutex.aac_mutex => s.aac_holder
  | Mutex.online_calibrator_mutex => s.oc_holder

/-- The mutexes a thread has still to acquire. -/
def LockState.pending (s : LockState) (thread : Nat) : List Mutex :=
  if thread = 0 then s.pending0 else s.pending1

/-- The construction of the next `std::lock_guard` of a thread: it succeeds if the mutex
is free and blocks (`none`) if the mutex is held; a thread with nothing left to acquire
does not move. -/
def LockState.acquire (s : LockState) (thread : Nat) : Option LockState :=
  match s.pending thread with
  | [] => none
  | m :: rest =>
    if (s.holder m).isSome then none
    else
      let s1 : LockState :=
        match m with
        | Mutex.aac_mutex => { s with aac_holder := some thread }
        | Mutex.online_calibrator_mutex => { s with oc_holder := some thread }
      some (if thread = 0 then { s1 with pending0 := rest } else { s1 with pending1 := rest })

/-- Two threads entering the critical sections `a` and `b` with both mutexes free. -/
def LockState.enter (a b : CriticalSection) : LockState :=
  { aac_holder := none, oc_holder := none, pending0 := a.acquired, pending1 := b.acquired }

/-- Both threads still have a mutex to acquire and neither can acquire it. -/
def LockState.deadlocked (s : LockState) : Bool :=
  !s.pending0.isEmpty && !s.pending1.isEmpty && (s.acquire 0).isNone && (s.acquire 1).isNone

/-! ## Candidate windows (`sd_selfcal.cpp`, lines 1368-1420) -/

/-- The literal `0.05` (its binary64 value). -/
def Dbl.c0_05 : Dbl := Dbl.fin (3602879701896397 / 72057594037927936)

/-- Modelled from the spec: the acceptance test of
`OnlineCalibrator::AnalyzeCalibrationWindow(window, margin)`, whose definition (in
`online_calibrator.cpp`) is not among the sources: the score of the candidate exceeds
the score of the incumbent by more than the relative margin. -/
def exceedsByMargin (margin incumbent candidate : Dbl) : Bool :=
  Dbl.gt (Dbl.div (Dbl.sub candidate incumbent) incumbent) margin

/-- Modelled from the spec: the weakest incumbent of a queue, the window with the lowest
score (the first one among equals). -/
def weakest : List CalibrationWindow → Option CalibrationWindow
  | [] => none
  | w :: ws =>
    match weakest ws with
    | none => some w
    | some v => if Dbl.lt v.score w.score then some v else some w

/-- The list with the first occurrence of `old` replaced by `new`. -/
def replaceFirst (old new : CalibrationWindow) : List CalibrationWindow → List CalibrationWindow
  | [] => []
  | w :: ws => if w = old then new :: ws else w :: replaceFirst old new ws

/-- Modelled from the spec: `OnlineCalibrator::AnalyzeCalibrationWindow(window, margin)`,
which offers a candidate window to the priority queue and returns whether the queue
changed.  The queue holds up to its capacity of windows; in a full queue the candidate
replaces the weakest incumbent only if its score exceeds the incumbent's by the
relative margin; a change of membership sets the dirty flag.  What happens to a
candidate that overlaps an incumbent is not described by the spec and is left out. -/
def OnlineCalibrator.AnalyzeCalibrationWindow (candidate : CalibrationWindow) (margin : Dbl)
    (oc : OnlineCalibrator) : OnlineCalibrator × Bool :=
  if oc.windows.length < oc.capacity then
    ({ oc with windows := oc.windows ++ [candidate], dirty := true }, true)
  else
    match weakest oc.windows with
    | none => (oc, false)
    | some w =>
      if exceedsByMargin margin w.score candidate.score then
        ({ oc with windows := replaceFirst w candidate oc.windows, dirty := true }, true)
      else (oc, false)

/-- Results of the external window estimation used by the analysis of candidate
windows: the candidate written by `AnalyzeCalibrationWindow<false, false>` for the
camera, and for the IMU the return value of `AnalyzeCalibrationWindow<true, true>` and
the candidate it writes. -/
structure AnalyzeExtern where
  cam_candidate : CalibrationWindow
  imu_use_candidate : Bool
  imu_candidate : CalibrationWindow

/-- The analysis of the camera candidate (lines 1374-1392): the candidate is estimated
and offered to the camera queue with margin `0.05`. -/
def analyzeCameraCandidate (x : AnalyzeExtern) (s : State) : State :=
  if SelfCalActive s s.cam_calib &&
      segmentExceeds s s.cam_calib s.cam_calib.self_cal_segment_length then
    { s with
      cam_calib :=
        { s.cam_calib with
          candidate_window := x.cam_candidate
          online_calibrator :=
            (s.cam_calib.online_calibrator.AnalyzeCalibrationWindow x.cam_candidate
              Dbl.c0_05).1 } }
  else s

/-- The analysis of the IMU candidate (lines 1396-1416): the candidate is estimated and,
if it is usable, offered to the IMU queue with margin `0.20`. -/
def analyzeImuCandidate (x : AnalyzeExtern) (s : State) : State :=
  if SelfCalActive s s.imu_calib &&
      segmentExceeds s s.imu_calib s.imu_calib.self_cal_segment_length then
    { s with
      imu_calib :=
        { s.imu_calib with
          candidate_window := x.imu_candidate
          online_calibrator :=
            if x.imu_use_candidate then
              (s.imu_calib.online_calibrator.AnalyzeCalibrationWindow x.imu_candidate
                Dbl.c0_2).1
            else s.imu_calib.online_calibrator } }
  else s

/-- The flag `should_do_self_cal` (lines 1359-1366): some sensor is active and its
segment exceeds its segment length. -/
def should_do_self_cal (s : State) : Bool :=
  (SelfCalActive s s.cam_calib &&
      segmentExceeds s s.cam_calib s.cam_calib.self_cal_segment_length) ||
    (SelfCalActive s s.imu_calib &&
      segmentExceeds s s.imu_calib s.imu_calib.self_cal_segment_length)

/-- The analysis of the candidate windows (lines 1368-1417), the camera first. -/
def analyzeCandidates (x : AnalyzeExtern) (s : State) : State :=
  if should_do_self_cal s && !s.use_batch_estimates then
    analyzeImuCandidate x (analyzeCameraCandidate x s)
  else s

/-! ## Update of the priority queues (`sd_selfcal.cpp`, lines 1494-1609) -/

/-- What the update of the priority queues reads besides the state: the variable
`do_async_pq` and, for each sensor, the value returned by `IsPriorityQueueRunning()` of
its calibrator when it is asked. -/
structure PqInput where
  do_async_pq : Bool
  cam_running : Bool
  imu_running : Bool

/-- The calls by which the update starts the fusion of a queue or applies its result:
the overwriting of the `PriorityQueueParams` of a sensor's worker (with the value stored
in `apply_results`), `NotifyConditionVariable`, the synchronous `AnalyzePriorityQueue`
and `ApplyPriorityQueueResults`. -/
inductive PqCall where
  | overwriteParameters (sensor : CalibrationType) (apply_results : Bool)
  | notify (sensor : CalibrationType)
  | analyze (sensor : CalibrationType) (apply_results : Bool)
  | applyResults (apply_results : Bool)
  deriving DecidableEq

/-- The sensor whose fusion a call starts; `none` for `ApplyPriorityQueueResults`. -/
def PqCall.sensor : PqCall → Option CalibrationType
  | PqCall.overwriteParameters sensor _ => some sensor
  | PqCall.notify sensor => some sensor
  | PqCall.analyze sensor _ => some sensor
  | PqCall.applyResults _ => none

/-- The test of the loop at lines 1497-1506 for one sensor. -/
def pqNeedsUpdate (s : State) (calib : Calibration) : Bool :=
  calib.online_calibrator.needs_update && !calib.unknown_calibration && SelfCalActive s calib &&
    decide (calib.online_calibrator.NumWindows > 1)

/-- The flag `queue_needs_update` (lines 1496-1506): the test holds for some sensor of
the map `calibrations`. -/
def queue_needs_update (s : State) : Bool :=
  pqNeedsUpdate s (GetCalibration s CalibrationType.Camera) ||
    pqNeedsUpdate s (GetCalibration s CalibrationType.IMU)

/-- The body of the loop at lines 1518-1526: the divergence is kept for plotting. -/
def storeAddedDivergence (calib : Calibration) : Calibration :=
  if calib.online_calibrator.needs_update && !calib.unknown_calibration then
    { calib with last_added_window_kl_divergence := calib.last_window_kl_divergence }
  else calib

/-- The test in front of the block of a sensor (lines 1529-1530 and 1571-1572). -/
def pqSensorTest (s : State) (calib : Calibration) : Bool :=
  SelfCalActive s calib && calib.online_calibrator.needs_update

/-- The block of the IMU (lines 1529-1569): in asynchronous mode the parameters of the
worker are overwritten and the worker is notified, unless its queue is still running;
in synchronous mode the queue is analysed. -/
def imuQueueCalls (x : PqInput) (s : State) : List PqCall :=
  if pqSensorTest s s.imu_calib then
    if x.do_async_pq then
      if !x.imu_running then
        [PqCall.overwriteParameters CalibrationType.IMU (capturedApply s s.imu_calib),
          PqCall.notify CalibrationType.IMU]
      else []
    else [PqCall.analyze CalibrationType.IMU (capturedApply s s.imu_calib)]
  else []

/-- The block of the camera (lines 1571-1604): in asynchronous mode the parameters of
the worker are overwritten and the worker is notified; in synchronous mode the queue is
analysed. -/
def camQueueCalls (x : PqInput) (s : State) : List PqCall :=
  if pqSensorTest s s.cam_calib then
    if x.do_async_pq then
      [PqCall.overwriteParameters CalibrationType.Camera (capturedApply s s.cam_calib),
        PqCall.notify CalibrationType.Camera]
    else [PqCall.analyze CalibrationType.Camera (capturedApply s s.cam_calib)]
  else []

/-- The local `apply_pq_results` after both blocks: `false` at first, then the value
captured for the IMU, then the value captured for the camera. -/
def apply_pq_results (s : State) : Bool :=
  if pqSensorTest s s.cam_calib then capturedApply s s.cam_calib
  else if pqSensorTest s s.imu_calib then capturedApply s s.imu_calib
  else false

/-- The update of the priority queues (lines 1494-1609): the state after it and the
calls it makes, in order.  What the synchronous `AnalyzePriorityQueue` of the IMU
calibrator writes (the IMU queue window and the scratch rig) is not read by the test in
front of the camera block, so the calls are computed from one state. -/
def updatePriorityQueues (x : PqInput) (s : State) : State × List PqCall :=
  if queue_needs_update s then
    let s1 : State :=
      { s with
        cam_calib := storeAddedDivergence s.cam_calib
        imu_calib := storeAddedDivergence s.imu_calib }
    (s1, imuQueueCalls x s1 ++ camQueueCalls x s1 ++
      (if !x.do_async_pq then [PqCall.applyResults (apply_pq_results s1)] else []))
  else (s, [])

/-! ## Size of the tracking bundle adjustment (`sd_selfcal.cpp`, lines 1313-1335) -/

/-- The flag `has_unknown_calibration` (lines 1316-1322): some sensor of the map
`calibrations` is Unknown and active. -/
def has_unknown_calibration (s : State) : Bool :=
  (s.cam_calib.unknown_calibration && SelfCalActive s s.cam_calib) ||
    (s.imu_calib.unknown_calibration && SelfCalActive s s.imu_calib)

/-- The local `ba_size` (lines 1324-1335); `num_ba_poses` is the variable of that name,
a `uint32_t`. -/
def ba_size (num_ba_poses : Nat) (s : State) : Nat :=
  if has_unknown_calibration s then
    max
      (if SelfCalActive s s.imu_calib && s.imu_calib.unknown_calibration then
        sub32 (batch_end s) s.imu_calib.unknown_calibration_start_pose
      else num_ba_poses)
      (if SelfCalActive s s.cam_calib && s.cam_calib.unknown_calibration then
        sub32 (batch_end s) s.cam_calib.unknown_calibration_start_pose
      else num_ba_poses)
  else num_ba_poses

/-! ## Adaptive window sizing (`sd_selfcal.cpp`, lines 742-783 and 807-848;
`sd_vitracker.cpp`, lines 307-391) -/

/-- The values read by the adaptive step of `DoBundleAdjustment` after the solve: the
arguments `use_imu` and `do_adaptive_conditioning`, the index of the conditioning edge,
the number of poses from which `end_pose_id` was computed, the dimension
`BaType::kPoseDim`, the counts and error sums of the solution summary
(`summary_cond_inertial_error` is `summary.cond_inertial_error`), the Mahalanobis
distance of the conditioning residual (the local `cond_inertial_error`) and the two
critical values returned by `chi2inv`. -/
structure AdaptiveInput where
  use_imu : Bool
  do_adaptive_conditioning : Bool
  imu_cond_start_pose_id : Int
  poses_size : Nat
  kPoseDim : Nat
  num_cond_inertial_residuals : Nat
  num_cond_proj_residuals : Nat
  summary_cond_inertial_error : Dbl
  cond_proj_error : Dbl
  cond_inertial_error : Dbl
  cond_v_chi2_dist : Dbl
  cond_i_chi2_dist : Dbl

namespace AdaptiveInput

/-- The local `end_pose_id = poses.size() - 1`. -/
def end_pose_id (x : AdaptiveInput) : Nat := sub32 x.poses_size 1

/-- The local `cond_dims`. -/
def cond_dims (x : AdaptiveInput) : Nat :=
  (x.num_cond_inertial_residuals * x.kPoseDim + x.num_cond_proj_residuals * 2) % U32

/-- The local `cond_error`. -/
def cond_error (x : AdaptiveInput) : Dbl := Dbl.add x.summary_cond_inertial_error x.cond_proj_error

/-- The test `cond_error == 0 || cond_dims == 0`, under which the size is not changed. -/
def noChange (x : AdaptiveInput) : Bool := Dbl.eq x.cond_error Dbl.zero || decide (x.cond_dims = 0)

/-- The test `use_imu && imu_cond_start_pose_id != -1`. -/
def edgeKnown (x : AdaptiveInput) : Bool := x.use_imu && decide (x.imu_cond_start_pose_id ≠ -1)

end AdaptiveInput

/-- The replacement of the marker `-1` in `prev_cond_error` by `DBL_MAX`. -/
def prevOrMax (prev_cond_error : Dbl) : Dbl :=
  if Dbl.eq prev_cond_error Dbl.minusOne then Dbl.DBL_MAX else prev_cond_error

namespace SelfCal

/-- The variables of `sd_selfcal.cpp` written by the adaptive step: the window size (the
reference parameter `num_active_poses`, bound to `num_aac_poses`), the baseline
`orig_num_aac_poses` and `prev_cond_error`. -/
structure Aac where
  num_active_poses : Nat
  orig_num_aac_poses : Int
  prev_cond_error : Dbl

/-- The local `cond_total_error`. -/
def cond_total_error (x : AdaptiveInput) : Dbl := Dbl.add x.cond_inertial_error x.cond_proj_error

/-- The local `inertial_ratio`. -/
def inertial_ratio (x : AdaptiveInput) : Dbl := Dbl.div x.cond_inertial_error x.cond_i_chi2_dist

/-- The local `visual_ratio`. -/
def visual_ratio (x : AdaptiveInput) : Dbl := Dbl.div x.cond_proj_error x.cond_v_chi2_dist

/-- The growth test of `sd_selfcal.cpp` (lines 773-775): a ratio exceeds `1.0`, the
total conditioning error did not increase, and its relative decrease exceeds
`0.00001`. -/
def grows (prev : Dbl) (x : AdaptiveInput) : Bool :=
  (Dbl.gt (inertial_ratio x) Dbl.one || Dbl.gt (visual_ratio x) Dbl.one) &&
  Dbl.le (cond_total_error x) prev &&
  Dbl.gt (Dbl.div (Dbl.sub prev (cond_total_error x)) prev) Dbl.c0_00001

/-- The size after the guard `if (num_active_poses > end_pose_id)`. -/
def clampToBaseline (x : AdaptiveInput) (a : Aac) : Nat :=
  if a.num_active_poses > x.end_pose_id then toU32 a.orig_num_aac_poses else a.num_active_poses

/-- The adaptive step at the end of `DoBundleAdjustment` in `sd_selfcal.cpp`
(lines 742-783). -/
def adaptiveStep (x : AdaptiveInput) (a : Aac) : Aac :=
  if x.edgeKnown && x.do_adaptive_conditioning then
    let prev := prevOrMax a.prev_cond_error
    let n := clampToBaseline x a
    if x.noChange then
      { a with num_active_poses := n, prev_cond_error := prev }
    else if grows prev x then
      { a with num_active_poses := (n + 30) % U32, prev_cond_error := cond_total_error x }
    else
      { a with num_active_poses := toU32 a.orig_num_aac_poses
               prev_cond_error := cond_total_error x }
  else a

/-- The assignment `orig_num_aac_poses = num_aac_poses` at the start of a cycle of
`DoAAC` (line 814), after which the window is at the baseline. -/
def startCycle (a : Aac) : Aac := { a with orig_num_aac_poses := toI32 a.num_active_poses }

/-- A run of adaptive steps in one cycle of `DoAAC`, one per solve. -/
def run (xs : List AdaptiveInput) (a : Aac) : Aac := xs.foldl (fun b x => adaptiveStep x b) a

end SelfCal

namespace ViTracker

/-- The variables of `sd_vitracker.cpp` used by the adaptive step: the window size
`num_ba_poses`, the baseline `orig_num_ba_poses`, the minimum `min_ba_poses`, the flag
`do_adaptive` and `prev_cond_error`.  The declarations of `num_ba_poses` and
`min_ba_poses` (in `vitrack-cvars.h`) are not among the sources; both are taken as
`uint32_t`, as `num_ba_poses` is in `ceres_tracker_cvars.h`. -/
structure Aac where
  num_ba_poses : Nat
  orig_num_ba_poses : Int
  min_ba_poses : Nat
  do_adaptive : Bool
  prev_cond_error : Dbl

/-- The local `inertial_ratio`. -/
def inertial_ratio (x : AdaptiveInput) : Dbl := Dbl.div x.cond_inertial_error x.cond_i_chi2_dist

/-- The growth test of `sd_vitracker.cpp` (lines 377-379): the inertial ratio exceeds
`1.0`, the relative decrease of the inertial conditioning error exceeds `0.01`, and the
error did not increase. -/
def grows (prev : Dbl) (x : AdaptiveInput) : Bool :=
  Dbl.gt (inertial_ratio x) Dbl.one &&
  Dbl.gt (Dbl.div (Dbl.sub prev x.cond_inertial_error) prev) Dbl.c0_01 &&
  Dbl.le x.cond_inertial_error prev

/-- The size after the guard `if (num_ba_poses >= poses.size())`. -/
def clampToBaseline (x : AdaptiveInput) (a : Aac) : Nat :=
  if a.num_ba_poses ≥ x.poses_size then toU32 a.orig_num_ba_poses else a.num_ba_poses

/-- The adaptive step at the end of `DoBundleAdjustment` in `sd_vitracker.cpp`
(lines 307-391). -/
def adaptiveStep (x : AdaptiveInput) (a : Aac) : Aac :=
  if x.edgeKnown then
    let prev := prevOrMax a.prev_cond_error
    if a.do_adaptive then
      let n := clampToBaseline x a
      if x.noChange then
        { a with num_ba_poses := n, prev_cond_error := prev }
      else if grows prev x then
        { a with num_ba_poses := max ((n + 30) % U32) a.min_ba_poses
                 prev_cond_error := x.cond_inertial_error }
      else
        { a with num_ba_poses := max (toU32 a.orig_num_ba_poses) a.min_ba_poses
                 prev_cond_error := x.cond_inertial_error }
    else { a with prev_cond_error := prev }
  else a

/-- The assignment `orig_num_ba_poses = num_ba_poses` at the start of `DoAAC`
(line 414). -/
def startCycle (a : Aac) : Aac := { a with orig_num_ba_poses := toI32 a.num_ba_poses }

/-- A run of adaptive steps in one call of `DoAAC`, one per solve. -/
def run (xs : List AdaptiveInput) (a : Aac) : Aac := xs.foldl (fun b x => adaptiveStep x b) a

end ViTracker

/-- A state in which both sensors are Unknown while the scratch rig holds an estimate
that differs from the live rig. -/
def sampleStaleState : State :=
  { sampleState with
    cam_calib := { sampleCalib with unknown_calibration := true }
    imu_calib := { sampleCalib with type := CalibrationType.IMU, unknown_calibration := true }
    selfcal_rig := { params := [Dbl.fin 2, Dbl.fin 2, Dbl.fin 2, Dbl.fin 2], pose := [Dbl.fin 2] } }

/-- The sample state with the camera counter at the threshold: the next qualifying
divergence declares a change. -/
def sampleChangeState : State := { sampleState with cam_calib := sampleCalibAtThreshold }

/-- A start-up with one camera of 640 by 480 pixels with five intrinsic parameters, an
IMU, both calibrations unknown, `tan(fov_rads / 2)` taken as 1 and a conversion that
leaves the coordinates as they are. -/
def sampleLoad : LoadInput :=
  { xml_rig := [{ params := [Dbl.fin 500, Dbl.fin 500, Dbl.fin 300, Dbl.fin 200, Dbl.fin 1]
                  pose := [Dbl.fin 0, Dbl.fin 1, Dbl.fin 0, Dbl.fin 0, Dbl.fin 1, Dbl.fin 2,
                           Dbl.fin 3] }]
    width := 640
    height := 480
    imu_given := true
    unknown_cam_calibration := true
    unknown_imu_calibration := true
    use_imu_measurements := true
    tan_half_fov := Dbl.fin 1
    RoboticsToVision := fun pose => pose }

/-- The exit test of the inner loop of `DoAAC` (`sd_selfcal.cpp`, line 834):
`(int)num_aac_poses == orig_num_aac_poses || !do_adaptive`. -/
def SelfCal.innerLoopExits (do_adaptive : Bool) (a : SelfCal.Aac) : Bool :=
  decide (toI32 a.num_active_poses = a.orig_num_aac_poses) || !do_adaptive

/-! ### Sample inputs -/

/-- Solver output for Scenario C with inertial ratio `1.5`: 101 poses, Mahalanobis
distance 15 against the critical value 10, projection error 1 against 10. -/
def scenarioC_high : AdaptiveInput :=
  { use_imu := true
    do_adaptive_conditioning := true
    imu_cond_start_pose_id := 40
    poses_size := 101
    kPoseDim := 15
    num_cond_inertial_residuals := 1
    num_cond_proj_residuals := 4
    summary_cond_inertial_error := Dbl.fin 15
    cond_proj_error := Dbl.fin 1
    cond_inertial_error := Dbl.fin 15
    cond_v_chi2_dist := Dbl.fin 10
    cond_i_chi2_dist := Dbl.fin 10 }

/-- Solver output for Scenario C with inertial ratio `0.8`. -/
def scenarioC_low : AdaptiveInput :=
  { scenarioC_high with summary_cond_inertial_error := Dbl.fin 8, cond_inertial_error := Dbl.fin 8 }

/-- Solver output with no conditioning residuals, so that `cond_dims = 0` and all
conditioning errors are zero. -/
def scenarioC_empty : AdaptiveInput :=
  { scenarioC_high with
    num_cond_inertial_residuals := 0
    num_cond_proj_residuals := 0
    summary_cond_inertial_error := Dbl.fin 0
    cond_proj_error := Dbl.fin 0
    cond_inertial_error := Dbl.fin 0 }

/-- The adaptive-conditioning variables of `sd_selfcal.cpp` with a window of `n` poses,
the baseline 20 and a previous conditioning error of 100. -/
def sampleAac (n : Nat) : SelfCal.Aac :=
  { num_active_poses := n, orig_num_aac_poses := 20, prev_cond_error := Dbl.fin 100 }

/-- The adaptive-conditioning variables of `sd_vitracker.cpp` with a window of `n`
poses, the baseline `n`, the minimum `m` and a previous conditioning error of 100. -/
def sampleViAac (n m : Nat) : ViTracker.Aac :=
  { num_ba_poses := n, orig_num_ba_poses := toI32 n, min_ba_poses := m, do_adaptive := true
    prev_cond_error := Dbl.fin 100 }

/-- Solver output as in Scenario C with inertial ratio `1.5`, with 40 poses in the
graph. -/
def scenarioC_small : AdaptiveInput := { scenarioC_high with poses_size := 40 }

/-- A keyframe with 25 poses in which the camera is active and Unknown since pose 0, with
segment length 10; the IMU is therefore not active. -/
def sampleBatchState : State :=
  { sampleState with
    cam_calib := { sampleCalib with unknown_calibration := true }
    poses_size := 25 }

/-- External results for the batch block: a camera window with score 100 for a rig with
four intrinsic parameters, whose covariance has rank `r`. -/
def sampleExtern (r : Nat) : BatchExtern :=
  { cam_window := sampleWindow
    cam_score := Dbl.fin 100
    cam_selfcal_rig := { params := [Dbl.one, Dbl.one, Dbl.one, Dbl.one], pose := [] }
    tvs_rotation_pose := []
    tvs_translation_pose := []
    imu_use_batch_candidate := true
    imu_window := sampleWindow
    imu_score := Dbl.fin 100
    imu_selfcal_rig := { params := [Dbl.one, Dbl.one, Dbl.one, Dbl.one], pose := [] }
    rank := fun _ => r }

/-- The adaptive-conditioning variables of `sd_selfcal.cpp` with a window of
`2 ^ 32 - 10` poses. -/
def sampleAacHuge : SelfCal.Aac :=
  { num_active_poses := 4294967286, orig_num_aac_poses := 0, prev_cond_error := Dbl.fin 100 }

/-- A camera candidate whose score is 4 % above the score of `sampleWindow`. -/
def sampleCandidate4 : AnalyzeExtern :=
  { cam_candidate := { sampleWindow with start_index := 90, end_index := 100,
                                         score := Dbl.fin (104 / 100) }
    imu_use_candidate := true
    imu_candidate := sampleWindow }

/-- A camera candidate whose score is 6 % above the score of `sampleWindow`. -/
def sampleCandidate6 : AnalyzeExtern :=
  { cam_candidate := { sampleWindow with start_index := 90, end_index := 100,
                                         score := Dbl.fin (106 / 100) }
    imu_use_candidate := true
    imu_candidate := sampleWindow }

/-- The sample state after a change of membership of both queues: both calibrators need
an update, both sensors are known and active and hold two windows. -/
def sampleDirtyState : State :=
  { sampleState with
    cam_calib :=
      { sampleCalib with
        online_calibrator := { sampleCalib.online_calibrator with dirty := true } }
    imu_calib :=
      { sampleCalib with
        type := CalibrationType.IMU
        self_cal_segment_length := 30
        online_calibrator := { sampleCalib.online_calibrator with dirty := true } } }

/-- Asynchronous mode in which both workers are still running. -/
def sampleBusy : PqInput := { do_async_pq := true, cam_running := true, imu_running := true }

/-- The sample state, with both sensors known, in which the scratch rig holds an
estimate that differs from the live rig. -/
def sampleApplyState : State :=
  { sampleState with
    selfcal_rig := { params := [Dbl.fin 2, Dbl.fin 2, Dbl.fin 2, Dbl.fin 2], pose := [Dbl.fin 2] } }

/-! ## Theorems -/

theorem qualifies_c0_1 : qualifies Dbl.c0_1 = true := by
  simp [qualifies, Dbl.lt, Dbl.ne, Dbl.eq, Dbl.c0_1, Dbl.c0_2, Dbl.zero]
  norm_num

theorem changeGuard_store (calib : Calibration) (kl : Dbl) :
    changeGuard { calib with last_window_kl_divergence := kl } =
      (qualifies kl &&
        decide (calib.online_calibrator.NumWindows = calib.online_calibrator.queue_length) &&
        !calib.unknown_calibration) := by
  simp [changeGuard, qualifies]

/-- A qualifying evaluation that does not push the counter above the threshold only
increments the counter. -/
theorem evaluate_below (calib : Calibration) (e : Nat × Dbl)
    (hq : qualifies e.2 = true) (hk : calib.unknown_calibration = false)
    (hfull : calib.online_calibrator.NumWindows = calib.online_calibrator.queue_length)
    (hc : calib.num_change_detected + 1 ≤ calib.num_change_needed)
    (hn : calib.num_change_needed < U32) :
    evaluate calib e =
      { calib with last_window_kl_divergence := e.2
                   num_change_detected := calib.num_change_detected + 1 } := by
  have hmod : (calib.num_change_detected + 1) % U32 = calib.num_change_detected + 1 :=
    Nat.mod_eq_of_lt (by omega)
  unfold evaluate CheckParameterChange
  rw [changeGuard_store]
  simp only [hq, hk, hfull, hmod, decide_True, Bool.not_false, Bool.and_self, if_true]
  rw [if_neg (by omega)]

/-- A qualifying evaluation that pushes the counter above the threshold declares a
change. -/
theorem evaluate_above (calib : Calibration) (e : Nat × Dbl)
    (hq : qualifies e.2 = true) (hk : calib.unknown_calibration = false)
    (hfull : calib.online_calibrator.NumWindows = calib.online_calibrator.queue_length)
    (hc : calib.num_change_needed < calib.num_change_detected + 1)
    (hn : calib.num_change_detected + 1 < U32) :
    evaluate calib e =
      { calib with last_window_kl_divergence := e.2
                   num_change_detected := calib.num_change_detected + 1
                   unknown_calibration := true
                   unknown_calibration_start_pose := sub32 e.1 calib.num_change_needed
                   online_calibrator := calib.online_calibrator.ClearQueue } := by
  have hmod : (calib.num_change_detected + 1) % U32 = calib.num_change_detected + 1 :=
    Nat.mod_eq_of_lt hn
  unfold evaluate CheckParameterChange
  rw [changeGuard_store]
  simp only [hq, hk, hfull, hmod, decide_True, Bool.not_false, Bool.and_self, if_true]
  rw [if_pos (by omega)]

/-- While the counter stays at or below the threshold, a run of qualifying
evaluations only counts. -/
theorem foldl_evaluate_below (es : List (Nat × Dbl)) :
    ∀ calib : Calibration,
      calib.unknown_calibration = false →
      calib.online_calibrator.NumWindows = calib.online_calibrator.queue_length →
      (∀ e ∈ es, qualifies e.2 = true) →
      calib.num_change_detected + es.length ≤ calib.num_change_needed →
      calib.num_change_needed < U32 →
      (es.foldl evaluate calib).unknown_calibration = false ∧
      (es.foldl evaluate calib).num_change_detected = calib.num_change_detected + es.length ∧
      (es.foldl evaluate calib).online_calibrator = calib.online_calibrator ∧
      (es.foldl evaluate calib).num_change_needed = calib.num_change_needed := by
  induction es with
  | nil => intro calib hk _ _ _ _; simp [hk]
  | cons e es ih =>
    intro calib hk hfull hq hc hn
    have he : qualifies e.2 = true := hq e (List.mem_cons_self e es)
    have hlen : (e :: es).length = es.length + 1 := List.length_cons e es
    have hstep := evaluate_below calib e he hk hfull (by omega) hn
    have hrec := ih (evaluate calib e) (by rw [hstep]; exact hk) (by rw [hstep]; exact hfull)
      (fun x hx => hq x (List.mem_cons_of_mem e hx)) (by rw [hstep]; simp only; omega)
      (by rw [hstep]; exact hn)
    rw [List.foldl_cons]
    refine ⟨hrec.1, ?_, ?_, ?_⟩
    · rw [hrec.2.1, hstep]; simp only; omega
    · rw [hrec.2.2.1, hstep]
    · rw [hrec.2.2.2, hstep]

theorem sampleEvals_qualify : ∀ e ∈ sampleEvals, qualifies e.2 = true := by
  intro e he
  simp only [sampleEvals, List.mem_cons, List.mem_singleton, List.not_mem_nil, or_false] at he
  rcases he with h | h | h <;> rw [h] <;> exact qualifies_c0_1

/-- C1, evaluated on the code: from a known calibration, a full queue and the counter at
zero, every run of at most `num_change_needed` consecutive qualifying evaluations
(divergence below `0.2` and non-zero) leaves the calibration known, the
`num_change_needed`-th included; the change is declared by qualifying evaluation
number `num_change_needed + 1`, because the counter is compared with `>`. -/
theorem C1_change_declared_one_evaluation_late (calib : Calibration)
    (es : List (Nat × Dbl)) (e : Nat × Dbl)
    (hk : calib.unknown_calibration = false)
    (hfull : calib.online_calibrator.NumWindows = calib.online_calibrator.queue_length)
    (h0 : calib.num_change_detected = 0)
    (hn : calib.num_change_needed + 1 < U32)
    (hq : ∀ x ∈ es, qualifies x.2 = true) (he : qualifies e.2 = true)
    (hlen : es.length = calib.num_change_needed) :
    (∀ k, k ≤ calib.num_change_needed →
        ((es.take k).foldl evaluate calib).unknown_calibration = false) ∧
    ((es ++ [e]).foldl evaluate calib).unknown_calibration = true := by
  constructor
  · intro k hkn
    have hlk : (es.take k).length = k := by
      rw [List.length_take]; omega
    exact (foldl_evaluate_below (es.take k) calib hk hfull
      (fun x hx => hq x (List.mem_of_mem_take hx)) (by omega) (by omega)).1
  · have hrun := foldl_evaluate_below es calib hk hfull hq (by omega) (by omega)
    obtain ⟨h1, h2, h3, h4⟩ := hrun
    rw [List.foldl_append, List.foldl_cons, List.foldl_nil]
    rw [evaluate_above (es.foldl evaluate calib) e he h1 (by rw [h3]; exact hfull)
      (by omega) (by omega)]

/-- C1, at the default threshold 3: three consecutive evaluations with divergence `0.1`
leave the sample sensor known, the fourth declares the change. -/
theorem C1_change_declared_one_evaluation_late_witness :
    (∀ k, k ≤ sampleCalib.num_change_needed →
        ((sampleEvals.take k).foldl evaluate sampleCalib).unknown_calibration = false) ∧
    ((sampleEvals ++ [(103, Dbl.c0_1)]).foldl evaluate sampleCalib).unknown_calibration = true :=
  C1_change_declared_one_evaluation_late sampleCalib sampleEvals (103, Dbl.c0_1) rfl rfl rfl
    (by decide) sampleEvals_qualify qualifies_c0_1 rfl

/-- A zero divergence takes the resetting branch of `CheckParameterChange`. -/
theorem CheckParameterChange_zero_divergence (poses_size : Nat) (calib : Calibration)
    (h : calib.last_window_kl_divergence = Dbl.zero) :
    CheckParameterChange poses_size calib = { calib with num_change_detected := 0 } := by
  have hg : changeGuard calib = false := by
    unfold changeGuard
    rw [h]
    simp [Dbl.ne, Dbl.eq, Dbl.zero]
  unfold CheckParameterChange
  simp [hg]

/-- C2: a single non-qualifying evaluation (divergence not below `0.2`, or equal to
zero, or the queue not full, or the calibration already Unknown) sets
`num_change_detected` to 0 and changes nothing else: `unknown_calibration`,
`unknown_calibration_start_pose` and the priority queue are as before, whatever the
counter was; in particular no change is declared while the queue is not full. -/
theorem C2_non_qualifying_resets_counter (poses_size : Nat) (calib : Calibration)
    (h : Dbl.lt calib.last_window_kl_divergence Dbl.c0_2 = false ∨
         Dbl.eq calib.last_window_kl_divergence Dbl.zero = true ∨
         calib.online_calibrator.NumWindows ≠ calib.online_calibrator.queue_length ∨
         calib.unknown_calibration = true) :
    CheckParameterChange poses_size calib = { calib with num_change_detected := 0 } ∧
    (CheckParameterChange poses_size calib).num_change_detected = 0 ∧
    (CheckParameterChange poses_size calib).unknown_calibration = calib.unknown_calibration ∧
    (CheckParameterChange poses_size calib).unknown_calibration_start_pose =
      calib.unknown_calibration_start_pose ∧
    (CheckParameterChange poses_size calib).online_calibrator = calib.online_calibrator := by
  have hg : changeGuard calib = false := by
    unfold changeGuard
    rcases h with h | h | h | h
    · simp [h]
    · simp [Dbl.ne, h]
    · simp [h]
    · simp [h]
  have hr : CheckParameterChange poses_size calib = { calib with num_change_detected := 0 } := by
    unfold CheckParameterChange
    simp [hg]
  refine ⟨hr, ?_, ?_, ?_, ?_⟩ <;> rw [hr]

/-- C2 at a sensor whose queue holds one window of two and whose counter is 3: the
evaluation resets the counter and declares nothing. -/
theorem C2_non_qualifying_resets_counter_witness :
    let calib : Calibration :=
      { sampleCalib with
        online_calibrator := { windows := [sampleWindow], capacity := 2, dirty := false }
        last_window_kl_divergence := Dbl.c0_1
        num_change_detected := 3 }
    CheckParameterChange 100 calib = { calib with num_change_detected := 0 } ∧
    (CheckParameterChange 100 calib).num_change_detected = 0 ∧
    (CheckParameterChange 100 calib).unknown_calibration = calib.unknown_calibration ∧
    (CheckParameterChange 100 calib).unknown_calibration_start_pose =
      calib.unknown_calibration_start_pose ∧
    (CheckParameterChange 100 calib).online_calibrator = calib.online_calibrator :=
  C2_non_qualifying_resets_counter 100
    { sampleCalib with
      online_calibrator := { windows := [sampleWindow], capacity := 2, dirty := false }
      last_window_kl_divergence := Dbl.c0_1
      num_change_detected := 3 }
    (Or.inr (Or.inr (Or.inl (by decide))))

theorem sub32_of_le (a b : Nat) (hb : b ≤ a) (ha : a < U32) : sub32 a b = a - b := by
  unfold sub32 U32 at *
  omega

theorem sub32_le_of_le (a b : Nat) (hb : b ≤ a) : sub32 a b ≤ a := by
  unfold sub32 U32
  omega

/-- C3 (Scenario A): with `num_change_needed = 3`, the counter at 0, a known calibration
and a full queue, four successive checks with divergence `0.1` (at pose counts `p1` to
`p4`) leave the sensor known after the first, second and third check and make it
Unknown on the fourth, where the counter is `4 > 3`; the queue is then empty and
`unknown_calibration_start_pose` is `poses.size() - 3` (as a `uint32_t`, which is the
number `p4 - 3` once there are at least three poses). -/
theorem C3_scenario_A_fourth_check (calib : Calibration) (p1 p2 p3 p4 : Nat)
    (hneed : calib.num_change_needed = 3)
    (h0 : calib.num_change_detected = 0)
    (hk : calib.unknown_calibration = false)
    (hfull : calib.online_calibrator.NumWindows = calib.online_calibrator.queue_length) :
    (evaluate calib (p1, Dbl.c0_1)).unknown_calibration = false ∧
    (evaluate (evaluate calib (p1, Dbl.c0_1)) (p2, Dbl.c0_1)).unknown_calibration = false ∧
    (evaluate (evaluate (evaluate calib (p1, Dbl.c0_1)) (p2, Dbl.c0_1))
      (p3, Dbl.c0_1)).unknown_calibration = false ∧
    (evaluate (evaluate (evaluate (evaluate calib (p1, Dbl.c0_1)) (p2, Dbl.c0_1))
      (p3, Dbl.c0_1)) (p4, Dbl.c0_1)).unknown_calibration = true ∧
    (evaluate (evaluate (evaluate (evaluate calib (p1, Dbl.c0_1)) (p2, Dbl.c0_1))
      (p3, Dbl.c0_1)) (p4, Dbl.c0_1)).num_change_detected = 4 ∧
    (evaluate (evaluate (evaluate (evaluate calib (p1, Dbl.c0_1)) (p2, Dbl.c0_1))
      (p3, Dbl.c0_1)) (p4, Dbl.c0_1)).online_calibrator.NumWindows = 0 ∧
    (evaluate (evaluate (evaluate (evaluate calib (p1, Dbl.c0_1)) (p2, Dbl.c0_1))
      (p3, Dbl.c0_1)) (p4, Dbl.c0_1)).unknown_calibration_start_pose = sub32 p4 3 ∧
    (3 ≤ p4 → p4 < U32 →
      (evaluate (evaluate (evaluate (evaluate calib (p1, Dbl.c0_1)) (p2, Dbl.c0_1))
        (p3, Dbl.c0_1)) (p4, Dbl.c0_1)).unknown_calibration_start_pose = p4 - 3) := by
  have hU : calib.num_change_needed < U32 := by rw [hneed]; decide
  have e1 := evaluate_below calib (p1, Dbl.c0_1) qualifies_c0_1 hk hfull (by omega) hU
  rw [e1]
  have e2 := evaluate_below _ (p2, Dbl.c0_1) qualifies_c0_1
    (show ({ calib with last_window_kl_divergence := Dbl.c0_1
                        num_change_detected := calib.num_change_detected + 1 } :
      Calibration).unknown_calibration = false from hk) hfull
    (show calib.num_change_detected + 1 + 1 ≤ calib.num_change_needed by omega) hU
  rw [e2]
  have e3 := evaluate_below _ (p3, Dbl.c0_1) qualifies_c0_1
    (show ({ calib with last_window_kl_divergence := Dbl.c0_1
                        num_change_detected := calib.num_change_detected + 1 + 1 } :
      Calibration).unknown_calibration = false from hk) hfull
    (show calib.num_change_detected + 1 + 1 + 1 ≤ calib.num_change_needed by omega) hU
  rw [e3]
  have e4 := evaluate_above _ (p4, Dbl.c0_1) qualifies_c0_1
    (show ({ calib with last_window_kl_divergence := Dbl.c0_1
                        num_change_detected := calib.num_change_detected + 1 + 1 + 1 } :
      Calibration).unknown_calibration = false from hk) hfull
    (show calib.num_change_needed < calib.num_change_detected + 1 + 1 + 1 + 1 by omega)
    (show calib.num_change_detected + 1 + 1 + 1 + 1 < U32 by rw [h0]; decide)
  rw [e4]
  refine ⟨hk, hk, hk, rfl, ?_, rfl, ?_, ?_⟩
  · show calib.num_change_detected + 1 + 1 + 1 + 1 = 4
    omega
  · show sub32 p4 calib.num_change_needed = sub32 p4 3
    rw [hneed]
  · intro h3 hp
    show sub32 p4 calib.num_change_needed = p4 - 3
    rw [hneed]
    exact sub32_of_le p4 3 h3 hp

/-- C3 at the sample sensor, with 100 to 103 poses at the four checks: the rollback
index after the fourth check is 100. -/
theorem C3_scenario_A_fourth_check_witness :
    (evaluate (evaluate (evaluate sampleCalib (100, Dbl.c0_1)) (101, Dbl.c0_1))
      (102, Dbl.c0_1)).unknown_calibration = false ∧
    (evaluate (evaluate (evaluate (evaluate sampleCalib (100, Dbl.c0_1)) (101, Dbl.c0_1))
      (102, Dbl.c0_1)) (103, Dbl.c0_1)).unknown_calibration = true ∧
    (evaluate (evaluate (evaluate (evaluate sampleCalib (100, Dbl.c0_1)) (101, Dbl.c0_1))
      (102, Dbl.c0_1)) (103, Dbl.c0_1)).unknown_calibration_start_pose = 100 := by
  have h := C3_scenario_A_fourth_check sampleCalib 100 101 102 103 rfl rfl rfl rfl
  exact ⟨h.2.2.1, h.2.2.2.1, h.2.2.2.2.2.2.2 (by decide) (by decide)⟩

theorem CheckParameterChange_eq_evaluate (poses_size : Nat) (calib : Calibration) :
    CheckParameterChange poses_size calib =
      evaluate calib (poses_size, calib.last_window_kl_divergence) := rfl

/-- When `CheckParameterChange` turns a known calibration into an unknown one, it took
the branch that declares a change. -/
theorem CheckParameterChange_declared (poses_size : Nat) (calib : Calibration)
    (hk : calib.unknown_calibration = false)
    (hd : (CheckParameterChange poses_size calib).unknown_calibration = true) :
    CheckParameterChange poses_size calib =
      { calib with
        num_change_detected := (calib.num_change_detected + 1) % U32
        unknown_calibration := true
        unknown_calibration_start_pose := sub32 poses_size calib.num_change_needed
        online_calibrator := calib.online_calibrator.ClearQueue } := by
  unfold CheckParameterChange at hd ⊢
  by_cases hg : changeGuard calib = true
  · rw [if_pos hg] at hd ⊢
    by_cases hc : (calib.num_change_detected + 1) % U32 > calib.num_change_needed
    · simp only [hc, if_true]
    · simp only [hc, if_false] at hd
      rw [hk] at hd
      exact absurd hd (by decide)
  · rw [if_neg hg] at hd
    simp only at hd
    rw [hk] at hd
    exact absurd hd (by decide)

theorem CheckParameterChange_sampleCalibAtThreshold (poses_size : Nat) :
    CheckParameterChange poses_size sampleCalibAtThreshold =
      { sampleCalibAtThreshold with
        num_change_detected := 4
        unknown_calibration := true
        unknown_calibration_start_pose := sub32 poses_size 3
        online_calibrator := sampleCalibAtThreshold.online_calibrator.ClearQueue } := by
  have h := evaluate_above sampleCalibAtThreshold (poses_size, Dbl.c0_1)
    qualifies_c0_1 rfl rfl (by decide) (by decide)
  have hr : CheckParameterChange poses_size sampleCalibAtThreshold =
      evaluate sampleCalibAtThreshold (poses_size, Dbl.c0_1) := rfl
  rw [hr, h]
  rfl

/-- C4, as stated, fails: with two poses in the graph and `num_change_needed = 3`, the
check that declares the change stores the rollback index `2 ^ 32 - 1`, which is not at
most `poses.size() = 2`. -/
theorem C4_rollback_index_counterexample :
    sampleCalibAtThreshold.unknown_calibration = false ∧
    (CheckParameterChange 2 sampleCalibAtThreshold).unknown_calibration = true ∧
    (CheckParameterChange 2 sampleCalibAtThreshold).unknown_calibration_start_pose
      = 4294967295 ∧
    ¬ (CheckParameterChange 2 sampleCalibAtThreshold).unknown_calibration_start_pose ≤ 2 := by
  rw [CheckParameterChange_sampleCalibAtThreshold]
  refine ⟨rfl, rfl, ?_, ?_⟩
  · decide
  · decide

/-- C4, amended: whenever `CheckParameterChange` declares a change (a known calibration
becomes Unknown), the resulting state has `unknown_calibration = true`, an empty
priority queue and `unknown_calibration_start_pose = poses.size() - num_change_needed`
in 32-bit unsigned arithmetic; this is a valid rollback index (at most `poses.size()`)
whenever there are at least `num_change_needed` poses, and then it is the number
`poses.size() - num_change_needed`; `num_change_needed`, `self_cal_segment_length`,
`do_self_cal` and the pq, candidate and current windows are unchanged. -/
theorem C4_declared_change_effect (poses_size : Nat) (calib : Calibration)
    (hk : calib.unknown_calibration = false)
    (hd : (CheckParameterChange poses_size calib).unknown_calibration = true) :
    (CheckParameterChange poses_size calib).unknown_calibration = true ∧
    (CheckParameterChange poses_size calib).online_calibrator =
      calib.online_calibrator.ClearQueue ∧
    (CheckParameterChange poses_size calib).online_calibrator.NumWindows = 0 ∧
    (CheckParameterChange poses_size calib).unknown_calibration_start_pose =
      sub32 poses_size calib.num_change_needed ∧
    (calib.num_change_needed ≤ poses_size →
      (CheckParameterChange poses_size calib).unknown_calibration_start_pose ≤ poses_size) ∧
    (calib.num_change_needed ≤ poses_size → poses_size < U32 →
      (CheckParameterChange poses_size calib).unknown_calibration_start_pose =
        poses_size - calib.num_change_needed) ∧
    (CheckParameterChange poses_size calib).num_change_needed = calib.num_change_needed ∧
    (CheckParameterChange poses_size calib).self_cal_segment_length =
      calib.self_cal_segment_length ∧
    (CheckParameterChange poses_size calib).do_self_cal = calib.do_self_cal ∧
    (CheckParameterChange poses_size calib).pq_window = calib.pq_window ∧
    (CheckParameterChange poses_size calib).candidate_window = calib.candidate_window ∧
    (CheckParameterChange poses_size calib).current_window = calib.current_window := by
  rw [CheckParameterChange_declared poses_size calib hk hd]
  refine ⟨rfl, rfl, rfl, rfl, ?_, ?_, rfl, rfl, rfl, rfl, rfl, rfl⟩
  · intro hle
    exact sub32_le_of_le poses_size calib.num_change_needed hle
  · intro hle hlt
    exact sub32_of_le poses_size calib.num_change_needed hle hlt

/-- C4, amended, at the sample sensor with the counter at 3 and 103 poses: the change is
declared, the queue is emptied and the rollback index is 100. -/
theorem C4_declared_change_effect_witness :
    (CheckParameterChange 103 sampleCalibAtThreshold).online_calibrator.NumWindows = 0 ∧
    (CheckParameterChange 103 sampleCalibAtThreshold).unknown_calibration_start_pose = 100 := by
  have hd : (CheckParameterChange 103 sampleCalibAtThreshold).unknown_calibration = true := by
    rw [CheckParameterChange_sampleCalibAtThreshold]
  have h := C4_declared_change_effect 103 sampleCalibAtThreshold rfl hd
  exact ⟨h.2.2.1, h.2.2.2.2.2.1 (by decide) (by decide)⟩

/-- A divergence that is NaN or infinite makes the loop body store 0 and take the
resetting branch of `CheckParameterChange`. -/
theorem changeCheckBody_non_finite (poses_size : Nat) (calib : Calibration)
    (h : Dbl.isnan calib.last_window_kl_divergence = true ∨
         Dbl.isinf calib.last_window_kl_divergence = true) :
    changeCheckBody poses_size calib =
      { calib with
        current_window :=
          if calib.candidate_window.mean.length ≠ 0 then calib.candidate_window
          else calib.current_window
        last_window_kl_divergence := Dbl.zero
        num_change_detected := 0 } := by
  have hor : (Dbl.isnan calib.last_window_kl_divergence ||
      Dbl.isinf calib.last_window_kl_divergence) = true := by
    rcases h with h | h <;> simp [h]
  unfold changeCheckBody
  by_cases hm : calib.candidate_window.mean.length ≠ 0
  · simp only [hm, if_true, hor, ne_eq, not_false_eq_true]
    exact (CheckParameterChange_zero_divergence poses_size _ rfl)
  · simp only [hm, if_false, hor, if_true]
    exact (CheckParameterChange_zero_divergence poses_size _ rfl)

theorem SelfCalActive_congr (s t : State) (c d : Calibration)
    (h1 : s.has_imu = t.has_imu) (h2 : s.use_imu_measurements = t.use_imu_measurements)
    (h3 : s.cam_calib.unknown_calibration = t.cam_calib.unknown_calibration)
    (h4 : c.type = d.type) (h5 : c.do_self_cal = d.do_self_cal) :
    SelfCalActive s c = SelfCalActive t d := by
  unfold SelfCalActive GetCalibration
  rw [h1, h2, h3, h4, h5]

theorem cameraDivergence_frame (rank : List (List Dbl) → Nat)
    (ComputeYao1965 : CalibrationWindow → CalibrationWindow → Dbl) (calib : Calibration) :
    (cameraDivergence rank ComputeYao1965 calib).type = calib.type ∧
    (cameraDivergence rank ComputeYao1965 calib).do_self_cal = calib.do_self_cal ∧
    (cameraDivergence rank ComputeYao1965 calib).unknown_calibration =
      calib.unknown_calibration ∧
    (cameraDivergence rank ComputeYao1965 calib).num_change_detected =
      calib.num_change_detected ∧
    (cameraDivergence rank ComputeYao1965 calib).online_calibrator = calib.online_calibrator := by
  unfold cameraDivergence
  split_ifs <;> exact ⟨rfl, rfl, rfl, rfl, rfl⟩

/-- In the change-detection section an active camera goes through the divergence step
and then through the loop body. -/
theorem changeDetection_cam_calib (rank : List (List Dbl) → Nat)
    (ComputeYao1965 : CalibrationWindow → CalibrationWindow → Dbl) (s : State)
    (ha : SelfCalActive s s.cam_calib = true) :
    (changeDetection rank ComputeYao1965 s).cam_calib =
      changeCheckBody s.poses_size (cameraDivergence rank ComputeYao1965 s.cam_calib) := by
  have hf := cameraDivergence_frame rank ComputeYao1965 s.cam_calib
  have ha1 : SelfCalActive { s with cam_calib := cameraDivergence rank ComputeYao1965 s.cam_calib }
      (cameraDivergence rank ComputeYao1965 s.cam_calib) = true := by
    rw [← ha]
    exact SelfCalActive_congr _ _ _ _ rfl rfl hf.2.2.1 hf.1 hf.2.1
  unfold changeDetection
  simp only [ha, if_true]
  split_ifs with h1 h2
  all_goals first
    | rfl
    | exact absurd (by rw [← ha1]; exact SelfCalActive_congr _ _ _ _ rfl rfl rfl rfl rfl) h2

/-- C5: for every sensor, a divergence that is NaN or infinite is replaced by 0 before
the change check, so the check neither increments the counter nor declares a change:
the counter becomes 0 and `unknown_calibration`, the rollback index and the queue are
unchanged; the check returns normally.  The same holds for an active camera in the
change-detection section, whose divergence is the value computed by `ComputeYao1965`. -/
theorem C5_non_finite_divergence_treated_as_zero (poses_size : Nat) (calib : Calibration)
    (rank : List (List Dbl) → Nat)
    (ComputeYao1965 : CalibrationWindow → CalibrationWindow → Dbl) (s : State)
    (h : Dbl.isnan calib.last_window_kl_divergence = true ∨
         Dbl.isinf calib.last_window_kl_divergence = true) :
    ((changeCheckBody poses_size calib).last_window_kl_divergence = Dbl.zero ∧
      (changeCheckBody poses_size calib).num_change_detected = 0 ∧
      (changeCheckBody poses_size calib).unknown_calibration = calib.unknown_calibration ∧
      (changeCheckBody poses_size calib).unknown_calibration_start_pose =
        calib.unknown_calibration_start_pose ∧
      (changeCheckBody poses_size calib).online_calibrator = calib.online_calibrator) ∧
    (SelfCalActive s s.cam_calib = true →
      (Dbl.isnan (cameraDivergence rank ComputeYao1965 s.cam_calib).last_window_kl_divergence
          = true ∨
        Dbl.isinf (cameraDivergence rank ComputeYao1965 s.cam_calib).last_window_kl_divergence
          = true) →
      (changeDetection rank ComputeYao1965 s).cam_calib.last_window_kl_divergence = Dbl.zero ∧
      (changeDetection rank ComputeYao1965 s).cam_calib.num_change_detected = 0 ∧
      (changeDetection rank ComputeYao1965 s).cam_calib.unknown_calibration =
        s.cam_calib.unknown_calibration ∧
      (changeDetection rank ComputeYao1965 s).cam_calib.online_calibrator =
        s.cam_calib.online_calibrator) := by
  constructor
  · rw [changeCheckBody_non_finite poses_size calib h]
    exact ⟨rfl, rfl, rfl, rfl, rfl⟩
  · intro ha h2
    have hf := cameraDivergence_frame rank ComputeYao1965 s.cam_calib
    rw [changeDetection_cam_calib rank ComputeYao1965 s ha,
      changeCheckBody_non_finite s.poses_size _ h2]
    exact ⟨rfl, rfl, hf.2.2.1, hf.2.2.2.2⟩

/-- C5 at the sample sensor with the counter at 3 and a negative infinite divergence
(which is below `0.2` and non-zero): the counter is reset and the calibration stays
known; and at the sample state with a divergence computed as positive infinity. -/
theorem C5_non_finite_divergence_treated_as_zero_witness :
    (changeCheckBody 100 { sampleCalibAtThreshold with
      last_window_kl_divergence := Dbl.negInf }).num_change_detected = 0 ∧
    (changeCheckBody 100 { sampleCalibAtThreshold with
      last_window_kl_divergence := Dbl.negInf }).unknown_calibration = false ∧
    (changeDetection (fun _ => 1) (fun _ _ => Dbl.posInf) sampleState).cam_calib.num_change_detected
      = 0 :=
  ⟨(C5_non_finite_divergence_treated_as_zero 100
      { sampleCalibAtThreshold with last_window_kl_divergence := Dbl.negInf }
      (fun _ => 1) (fun _ _ => Dbl.posInf) sampleState (Or.inr rfl)).1.2.1,
   (C5_non_finite_divergence_treated_as_zero 100
      { sampleCalibAtThreshold with last_window_kl_divergence := Dbl.negInf }
      (fun _ => 1) (fun _ _ => Dbl.posInf) sampleState (Or.inr rfl)).1.2.2.1,
   ((C5_non_finite_divergence_treated_as_zero 100
      { sampleCalibAtThreshold with last_window_kl_divergence := Dbl.negInf }
      (fun _ => 1) (fun _ _ => Dbl.posInf) sampleState (Or.inr rfl)).2 rfl (Or.inr rfl)).2.1⟩

/-- C6: in every state whose calibration map is keyed by sensor type,
`SelfCalActive(IMU)` is `has_imu && use_imu_measurements && imu.do_self_cal &&
!camera.unknown_calibration`, so it implies that the camera's `unknown_calibration` is
false; `SelfCalActive(Camera)` is `camera.do_self_cal`, whatever the IMU sensor's
state. -/
theorem C6_imu_activity_gated_by_camera (s : State) (ht : s.wellTyped) :
    (SelfCalActive s (GetCalibration s CalibrationType.IMU) = true →
      (GetCalibration s CalibrationType.Camera).unknown_calibration = false) ∧
    SelfCalActive s (GetCalibration s CalibrationType.IMU) =
      (s.has_imu && s.use_imu_measurements &&
        (GetCalibration s CalibrationType.IMU).do_self_cal &&
        !(GetCalibration s CalibrationType.Camera).unknown_calibration) ∧
    SelfCalActive s (GetCalibration s CalibrationType.Camera) =
      (GetCalibration s CalibrationType.Camera).do_self_cal ∧
    (∀ imu : Calibration,
      SelfCalActive { s with imu_calib := imu }
        (GetCalibration { s with imu_calib := imu } CalibrationType.Camera) =
      SelfCalActive s (GetCalibration s CalibrationType.Camera)) := by
  obtain ⟨hc, hi⟩ := ht
  have hI : SelfCalActive s (GetCalibration s CalibrationType.IMU) =
      (s.has_imu && s.use_imu_measurements &&
        (GetCalibration s CalibrationType.IMU).do_self_cal &&
        !(GetCalibration s CalibrationType.Camera).unknown_calibration) := by
    simp only [SelfCalActive, GetCalibration, hi]
  have hC : SelfCalActive s (GetCalibration s CalibrationType.Camera) =
      (GetCalibration s CalibrationType.Camera).do_self_cal := by
    simp only [SelfCalActive, GetCalibration, hc]
  refine ⟨?_, hI, hC, ?_⟩
  · intro h
    rw [hI] at h
    simp only [Bool.and_eq_true, Bool.not_eq_true'] at h
    exact h.2
  · intro imu
    exact SelfCalActive_congr _ _ _ _ rfl rfl rfl rfl rfl

/-- C6 at the sample state, where the camera is known and the IMU is active, and at the
same state with the camera Unknown, where the IMU is not active. -/
theorem C6_imu_activity_gated_by_camera_witness :
    sampleState.wellTyped ∧
    SelfCalActive sampleState (GetCalibration sampleState CalibrationType.IMU) = true ∧
    (GetCalibration sampleState CalibrationType.Camera).unknown_calibration = false ∧
    SelfCalActive { sampleState with cam_calib := { sampleCalib with unknown_calibration := true } }
      (GetCalibration
        { sampleState with cam_calib := { sampleCalib with unknown_calibration := true } }
        CalibrationType.IMU) = false :=
  ⟨⟨rfl, rfl⟩, rfl,
   (C6_imu_activity_gated_by_camera sampleState ⟨rfl, rfl⟩).1 rfl,
   by
    rw [(C6_imu_activity_gated_by_camera
      { sampleState with cam_calib := { sampleCalib with unknown_calibration := true } }
      ⟨rfl, rfl⟩).2.1]
    rfl⟩

theorem toU32_toI32 (n : Nat) (h : n < U32) : toU32 (toI32 n) = n := by
  unfold toU32 toI32 U32 at *
  split_ifs <;> omega

theorem prevOrMax_100 : prevOrMax (Dbl.fin 100) = Dbl.fin 100 := by
  simp [prevOrMax, Dbl.eq, Dbl.minusOne]
  norm_num

theorem scenarioC_high_noChange : scenarioC_high.noChange = false := by
  simp [AdaptiveInput.noChange, AdaptiveInput.cond_error, AdaptiveInput.cond_dims, scenarioC_high,
    Dbl.add, Dbl.eq, Dbl.zero, U32]
  norm_num

theorem scenarioC_low_noChange : scenarioC_low.noChange = false := by
  simp [AdaptiveInput.noChange, AdaptiveInput.cond_error, AdaptiveInput.cond_dims, scenarioC_low,
    scenarioC_high, Dbl.add, Dbl.eq, Dbl.zero, U32]
  norm_num

theorem scenarioC_empty_noChange : scenarioC_empty.noChange = true := by
  simp [AdaptiveInput.noChange, AdaptiveInput.cond_dims, scenarioC_empty, scenarioC_high]

theorem scenarioC_high_grows : SelfCal.grows (Dbl.fin 100) scenarioC_high = true := by
  simp [SelfCal.grows, SelfCal.inertial_ratio, SelfCal.visual_ratio, SelfCal.cond_total_error,
    scenarioC_high, Dbl.gt, Dbl.lt, Dbl.le, Dbl.div, Dbl.sub, Dbl.add, Dbl.neg, Dbl.one,
    Dbl.c0_00001]
  norm_num

theorem scenarioC_low_grows : SelfCal.grows (Dbl.fin 100) scenarioC_low = false := by
  simp [SelfCal.grows, SelfCal.inertial_ratio, SelfCal.visual_ratio, SelfCal.cond_total_error,
    scenarioC_low, scenarioC_high, Dbl.gt, Dbl.lt, Dbl.le, Dbl.div, Dbl.sub, Dbl.add, Dbl.neg,
    Dbl.one, Dbl.c0_00001]
  norm_num

theorem scenarioC_empty_grows : SelfCal.grows (Dbl.fin 100) scenarioC_empty = false := by
  simp [SelfCal.grows, SelfCal.inertial_ratio, SelfCal.visual_ratio, SelfCal.cond_total_error,
    scenarioC_empty, scenarioC_high, Dbl.gt, Dbl.lt, Dbl.le, Dbl.div, Dbl.sub,
    Dbl.add, Dbl.neg, Dbl.one, Dbl.c0_00001]

/-- The three outcomes of a taken adaptive step of `sd_selfcal.cpp`. -/
theorem selfcal_adaptiveStep_num (x : AdaptiveInput) (a : SelfCal.Aac)
    (ht : (x.edgeKnown && x.do_adaptive_conditioning) = true) :
    (SelfCal.adaptiveStep x a).num_active_poses =
      if x.noChange then SelfCal.clampToBaseline x a
      else if SelfCal.grows (prevOrMax a.prev_cond_error) x then
        (SelfCal.clampToBaseline x a + 30) % U32
      else toU32 a.orig_num_aac_poses := by
  unfold SelfCal.adaptiveStep
  rw [if_pos ht]
  by_cases h1 : x.noChange = true
  · simp only [h1, if_true]
  · by_cases h2 : SelfCal.grows (prevOrMax a.prev_cond_error) x = true
    · simp only [h1, h2, if_true, if_false, Bool.false_eq_true]
    · simp only [h1, h2, if_false, Bool.false_eq_true]

/-- C7, as stated, fails in two ways.  First, a taken step in which no ratio exceeds
`1.0` but the conditioning dimension is zero leaves a window of 50 poses at 50, not at
the baseline 20.  Second, a taken step that meets the growth condition but is entered
with 120 poses, above `end_pose_id = 100`, ends with 50 poses (baseline plus 30), not
with 150. -/
theorem C7_window_rule_counterexample :
    ((scenarioC_empty.edgeKnown && scenarioC_empty.do_adaptive_conditioning) = true ∧
      Dbl.gt (SelfCal.inertial_ratio scenarioC_empty) Dbl.one = false ∧
      Dbl.gt (SelfCal.visual_ratio scenarioC_empty) Dbl.one = false ∧
      (SelfCal.adaptiveStep scenarioC_empty (sampleAac 50)).num_active_poses = 50 ∧
      toU32 (sampleAac 50).orig_num_aac_poses = 20) ∧
    ((scenarioC_high.edgeKnown && scenarioC_high.do_adaptive_conditioning) = true ∧
      Dbl.gt (SelfCal.inertial_ratio scenarioC_high) Dbl.one = true ∧
      SelfCal.grows (prevOrMax (sampleAac 120).prev_cond_error) scenarioC_high = true ∧
      (SelfCal.adaptiveStep scenarioC_high (sampleAac 120)).num_active_poses = 50 ∧
      (sampleAac 120).num_active_poses + 30 = 150) := by
  refine ⟨⟨by decide, ?_, ?_, ?_, by decide⟩, ⟨by decide, ?_, ?_, ?_, rfl⟩⟩
  · simp [SelfCal.inertial_ratio, scenarioC_empty, scenarioC_high, Dbl.gt, Dbl.lt,
      Dbl.div, Dbl.one]
  · simp [SelfCal.visual_ratio, scenarioC_empty, scenarioC_high, Dbl.gt, Dbl.lt,
      Dbl.div, Dbl.one]
  · rw [selfcal_adaptiveStep_num _ _ (by decide), scenarioC_empty_noChange]
    decide
  · simp [SelfCal.inertial_ratio, scenarioC_high, Dbl.gt, Dbl.lt, Dbl.div, Dbl.one]
    norm_num
  · exact (congrArg (fun p => SelfCal.grows p scenarioC_high) prevOrMax_100).trans
      scenarioC_high_grows
  · rw [selfcal_adaptiveStep_num _ _ (by decide), scenarioC_high_noChange]
    have hg : SelfCal.grows (prevOrMax (sampleAac 120).prev_cond_error) scenarioC_high = true :=
      (congrArg (fun p => SelfCal.grows p scenarioC_high) prevOrMax_100).trans
        scenarioC_high_grows
    rw [hg]
    decide

/-- C7, amended: in an adaptive step of `sd_selfcal.cpp` that is taken (`use_imu`,
adaptive conditioning on, conditioning edge known), the window size is first reset to
the baseline if it exceeds `end_pose_id`; if the conditioning error or the conditioning
dimension is zero it is then left as it is; otherwise, if the inertial or the visual
ratio exceeds `1.0` and the total conditioning error decreased relative to the previous
iteration by more than `0.00001`, the size becomes that size plus 30 (modulo `2 ^ 32`),
and in every other case the baseline `orig_num_aac_poses`.  In particular, entered with
a size of at most `end_pose_id` and with non-zero conditioning error and dimension, the
step ends with the size before plus exactly 30 under the growth condition. -/
theorem C7_window_size_rule (x : AdaptiveInput) (a : SelfCal.Aac)
    (ht : (x.edgeKnown && x.do_adaptive_conditioning) = true) :
    (a.num_active_poses > x.end_pose_id →
      SelfCal.clampToBaseline x a = toU32 a.orig_num_aac_poses) ∧
    (a.num_active_poses ≤ x.end_pose_id →
      SelfCal.clampToBaseline x a = a.num_active_poses) ∧
    (x.noChange = true →
      (SelfCal.adaptiveStep x a).num_active_poses = SelfCal.clampToBaseline x a) ∧
    (x.noChange = false → SelfCal.grows (prevOrMax a.prev_cond_error) x = true →
      (SelfCal.adaptiveStep x a).num_active_poses = (SelfCal.clampToBaseline x a + 30) % U32) ∧
    (x.noChange = false → SelfCal.grows (prevOrMax a.prev_cond_error) x = false →
      (SelfCal.adaptiveStep x a).num_active_poses = toU32 a.orig_num_aac_poses) ∧
    (x.noChange = false → SelfCal.grows (prevOrMax a.prev_cond_error) x = true →
      a.num_active_poses ≤ x.end_pose_id → a.num_active_poses + 30 < U32 →
      (SelfCal.adaptiveStep x a).num_active_poses = a.num_active_poses + 30) := by
  have hhi : a.num_active_poses > x.end_pose_id →
      SelfCal.clampToBaseline x a = toU32 a.orig_num_aac_poses := by
    intro h
    unfold SelfCal.clampToBaseline
    rw [if_pos h]
  have hlo : a.num_active_poses ≤ x.end_pose_id →
      SelfCal.clampToBaseline x a = a.num_active_poses := by
    intro h
    unfold SelfCal.clampToBaseline
    rw [if_neg (by omega)]
  refine ⟨hhi, hlo, ?_, ?_, ?_, ?_⟩
  · intro h1
    rw [selfcal_adaptiveStep_num x a ht, h1]
    rfl
  · intro h1 h2
    rw [selfcal_adaptiveStep_num x a ht, h1, h2]
    rfl
  · intro h1 h2
    rw [selfcal_adaptiveStep_num x a ht, h1, h2]
    rfl
  · intro h1 h2 h3 h4
    rw [selfcal_adaptiveStep_num x a ht, h1, h2, hlo h3]
    exact Nat.mod_eq_of_lt h4

/-- C7, amended, on Scenario C: with 101 poses, baseline 20 and a previous error of 100,
an inertial ratio of `1.5` with total error 16 grows a window of 20 poses to 50, and an
inertial ratio of `0.8` resets a window of 50 poses to the baseline 20. -/
theorem C7_window_size_rule_witness :
    (SelfCal.adaptiveStep scenarioC_high (sampleAac 20)).num_active_poses = 20 + 30 ∧
    (SelfCal.adaptiveStep scenarioC_low (sampleAac 50)).num_active_poses = 20 :=
  ⟨(C7_window_size_rule scenarioC_high (sampleAac 20) (by decide)).2.2.2.2.2
      scenarioC_high_noChange
      ((congrArg (fun p => SelfCal.grows p scenarioC_high) prevOrMax_100).trans
        scenarioC_high_grows)
      (by decide) (by decide),
   (C7_window_size_rule scenarioC_low (sampleAac 50) (by decide)).2.2.2.2.1
      scenarioC_low_noChange
      ((congrArg (fun p => SelfCal.grows p scenarioC_low) prevOrMax_100).trans
        scenarioC_low_grows)⟩

/-- The outcomes of a taken adaptive step of `sd_vitracker.cpp` with `do_adaptive`. -/
theorem vitracker_adaptiveStep_num (x : AdaptiveInput) (a : ViTracker.Aac)
    (ht : x.edgeKnown = true) (hd : a.do_adaptive = true) :
    (ViTracker.adaptiveStep x a).num_ba_poses =
      if x.noChange then ViTracker.clampToBaseline x a
      else if ViTracker.grows (prevOrMax a.prev_cond_error) x then
        max ((ViTracker.clampToBaseline x a + 30) % U32) a.min_ba_poses
      else max (toU32 a.orig_num_ba_poses) a.min_ba_poses := by
  unfold ViTracker.adaptiveStep
  rw [if_pos ht]
  simp only [hd, if_true]
  by_cases h1 : x.noChange = true
  · simp only [h1, if_true]
  · by_cases h2 : ViTracker.grows (prevOrMax a.prev_cond_error) x = true
    · simp only [h1, h2, if_true, if_false, Bool.false_eq_true]
    · simp only [h1, h2, if_false, Bool.false_eq_true]

theorem selfcal_clampToBaseline_le (x : AdaptiveInput) (a : SelfCal.Aac) :
    SelfCal.clampToBaseline x a ≤ max x.end_pose_id (toU32 a.orig_num_aac_poses) := by
  unfold SelfCal.clampToBaseline
  split_ifs <;> omega

theorem vitracker_clampToBaseline_le (x : AdaptiveInput) (a : ViTracker.Aac) :
    ViTracker.clampToBaseline x a ≤ max (x.poses_size - 1) (toU32 a.orig_num_ba_poses) := by
  unfold ViTracker.clampToBaseline
  split_ifs <;> omega

theorem scenarioC_small_noChange : scenarioC_small.noChange = false := by
  simp [AdaptiveInput.noChange, AdaptiveInput.cond_error, AdaptiveInput.cond_dims,
    scenarioC_small, scenarioC_high, Dbl.add, Dbl.eq, Dbl.zero, U32]
  norm_num

theorem scenarioC_small_grows : SelfCal.grows (Dbl.fin 100) scenarioC_small = true := by
  simp [SelfCal.grows, SelfCal.inertial_ratio, SelfCal.visual_ratio, SelfCal.cond_total_error,
    scenarioC_small, scenarioC_high, Dbl.gt, Dbl.lt, Dbl.le, Dbl.div, Dbl.sub, Dbl.add, Dbl.neg,
    Dbl.one, Dbl.c0_00001]
  norm_num

theorem scenarioC_small_grows_vi : ViTracker.grows (Dbl.fin 100) scenarioC_small = true := by
  simp [ViTracker.grows, ViTracker.inertial_ratio, scenarioC_small, scenarioC_high, Dbl.gt,
    Dbl.lt, Dbl.le, Dbl.div, Dbl.sub, Dbl.add, Dbl.neg, Dbl.one, Dbl.c0_01]
  norm_num

/-- C8, as stated, fails in both programs: with 40 poses in the graph, a window of 20
poses at the baseline 20 and a step that meets the growth condition, the window size
after the step is 50, which exceeds `poses.size() = 40`. -/
theorem C8_upper_bound_counterexample :
    (scenarioC_small.edgeKnown && scenarioC_small.do_adaptive_conditioning) = true ∧
    scenarioC_small.poses_size = 40 ∧
    (SelfCal.adaptiveStep scenarioC_small (sampleAac 20)).num_active_poses = 50 ∧
    (ViTracker.adaptiveStep scenarioC_small (sampleViAac 20 10)).num_ba_poses = 50 := by
  refine ⟨by decide, rfl, ?_, ?_⟩
  · rw [selfcal_adaptiveStep_num _ _ (by decide), scenarioC_small_noChange]
    have hg : SelfCal.grows (prevOrMax (sampleAac 20).prev_cond_error) scenarioC_small = true :=
      (congrArg (fun p => SelfCal.grows p scenarioC_small) prevOrMax_100).trans
        scenarioC_small_grows
    rw [hg]
    decide
  · rw [vitracker_adaptiveStep_num _ _ (by decide) rfl, scenarioC_small_noChange]
    have hg : ViTracker.grows (prevOrMax (sampleViAac 20 10).prev_cond_error) scenarioC_small
        = true :=
      (congrArg (fun p => ViTracker.grows p scenarioC_small) prevOrMax_100).trans
        scenarioC_small_grows_vi
    rw [hg]
    decide

/-- C8, amended: a window larger than the pose graph is reset to the baseline at the
start of the next adaptive step, before any growth, so after every taken adaptive step,
whatever the state before it, the window size exceeds the larger of the last pose index
and the baseline by at most 30: it is at most `max(end_pose_id, orig_num_aac_poses) + 30`
in `sd_selfcal` and at most
`max(max(poses.size() - 1, orig_num_ba_poses) + 30, min_ba_poses)` in `sd_vitracker`. -/
theorem C8_upper_bound_after_step (x : AdaptiveInput) (a : SelfCal.Aac) (b : ViTracker.Aac)
    (ht : x.edgeKnown = true) :
    (x.do_adaptive_conditioning = true →
      (SelfCal.adaptiveStep x a).num_active_poses ≤
        max x.end_pose_id (toU32 a.orig_num_aac_poses) + 30) ∧
    (b.do_adaptive = true →
      (ViTracker.adaptiveStep x b).num_ba_poses ≤
        max (max (x.poses_size - 1) (toU32 b.orig_num_ba_poses) + 30) b.min_ba_poses) := by
  constructor
  · intro hd
    have hc := selfcal_clampToBaseline_le x a
    have hm : (SelfCal.clampToBaseline x a + 30) % U32 ≤ SelfCal.clampToBaseline x a + 30 :=
      Nat.mod_le _ _
    rw [selfcal_adaptiveStep_num x a (by rw [ht, hd]; rfl)]
    split_ifs <;> omega
  · intro hd
    have hc := vitracker_clampToBaseline_le x b
    have hm : (ViTracker.clampToBaseline x b + 30) % U32 ≤ ViTracker.clampToBaseline x b + 30 :=
      Nat.mod_le _ _
    rw [vitracker_adaptiveStep_num x b ht hd]
    split_ifs <;> omega

/-- C8, amended, with 40 poses and a window of 20 at the baseline 20: the size after the
step is at most `max 39 20 + 30 = 69` in both programs. -/
theorem C8_upper_bound_after_step_witness :
    (SelfCal.adaptiveStep scenarioC_small (sampleAac 20)).num_active_poses ≤ 69 ∧
    (ViTracker.adaptiveStep scenarioC_small (sampleViAac 20 10)).num_ba_poses ≤ 69 :=
  ⟨(C8_upper_bound_after_step scenarioC_small (sampleAac 20) (sampleViAac 20 10)
      (by decide)).1 rfl,
   (C8_upper_bound_after_step scenarioC_small (sampleAac 20) (sampleViAac 20 10)
      (by decide)).2 rfl⟩

theorem selfcal_adaptiveStep_orig (x : AdaptiveInput) (a : SelfCal.Aac) :
    (SelfCal.adaptiveStep x a).orig_num_aac_poses = a.orig_num_aac_poses := by
  unfold SelfCal.adaptiveStep
  simp only []
  split_ifs <;> rfl

theorem vitracker_adaptiveStep_frame (x : AdaptiveInput) (a : ViTracker.Aac) :
    (ViTracker.adaptiveStep x a).orig_num_ba_poses = a.orig_num_ba_poses ∧
    (ViTracker.adaptiveStep x a).min_ba_poses = a.min_ba_poses ∧
    (ViTracker.adaptiveStep x a).do_adaptive = a.do_adaptive := by
  unfold ViTracker.adaptiveStep
  simp only []
  split_ifs <;> exact ⟨rfl, rfl, rfl⟩

/-- One adaptive step of `sd_selfcal.cpp` keeps the window at or above the baseline. -/
theorem selfcal_adaptiveStep_ge (x : AdaptiveInput) (a : SelfCal.Aac)
    (hI : toU32 a.orig_num_aac_poses ≤ a.num_active_poses)
    (ho : toU32 a.orig_num_aac_poses + 30 < U32)
    (hx : x.end_pose_id + 30 < U32) :
    toU32 a.orig_num_aac_poses ≤ (SelfCal.adaptiveStep x a).num_active_poses := by
  by_cases ht : (x.edgeKnown && x.do_adaptive_conditioning) = true
  · rw [selfcal_adaptiveStep_num x a ht]
    have hc : toU32 a.orig_num_aac_poses ≤ SelfCal.clampToBaseline x a ∧
        SelfCal.clampToBaseline x a + 30 < U32 := by
      unfold SelfCal.clampToBaseline
      split_ifs <;> omega
    have hm : (SelfCal.clampToBaseline x a + 30) % U32 = SelfCal.clampToBaseline x a + 30 :=
      Nat.mod_eq_of_lt hc.2
    split_ifs <;> omega
  · unfold SelfCal.adaptiveStep
    rw [if_neg ht]
    exact hI

/-- One adaptive step of `sd_vitracker.cpp` keeps the window at or above the baseline. -/
theorem vitracker_adaptiveStep_ge (x : AdaptiveInput) (a : ViTracker.Aac)
    (hI : toU32 a.orig_num_ba_poses ≤ a.num_ba_poses)
    (ho : toU32 a.orig_num_ba_poses + 30 < U32)
    (hx : x.poses_size + 29 < U32) :
    toU32 a.orig_num_ba_poses ≤ (ViTracker.adaptiveStep x a).num_ba_poses := by
  by_cases ht : x.edgeKnown = true
  · by_cases hd : a.do_adaptive = true
    · rw [vitracker_adaptiveStep_num x a ht hd]
      have hc : toU32 a.orig_num_ba_poses ≤ ViTracker.clampToBaseline x a ∧
          ViTracker.clampToBaseline x a + 30 < U32 := by
        unfold ViTracker.clampToBaseline
        split_ifs <;> omega
      have hm : (ViTracker.clampToBaseline x a + 30) % U32 = ViTracker.clampToBaseline x a + 30 :=
        Nat.mod_eq_of_lt hc.2
      split_ifs <;> omega
    · unfold ViTracker.adaptiveStep
      simp only [ht, hd, if_true, if_false, Bool.false_eq_true]
      exact hI
  · unfold ViTracker.adaptiveStep
    rw [if_neg ht]
    exact hI

theorem selfcal_run_ge (xs : List AdaptiveInput) :
    ∀ a : SelfCal.Aac,
      toU32 a.orig_num_aac_poses ≤ a.num_active_poses →
      toU32 a.orig_num_aac_poses + 30 < U32 →
      (∀ y ∈ xs, y.end_pose_id + 30 < U32) →
      toU32 a.orig_num_aac_poses ≤ (SelfCal.run xs a).num_active_poses := by
  induction xs with
  | nil => intro a hI _ _; exact hI
  | cons x xs ih =>
    intro a hI ho hx
    have h1 := selfcal_adaptiveStep_ge x a hI ho (hx x (List.mem_cons_self x xs))
    have h2 := ih (SelfCal.adaptiveStep x a) (by rw [selfcal_adaptiveStep_orig]; exact h1)
      (by rw [selfcal_adaptiveStep_orig]; exact ho)
      (fun y hy => hx y (List.mem_cons_of_mem x hy))
    rw [selfcal_adaptiveStep_orig] at h2
    exact h2

theorem vitracker_run_ge (xs : List AdaptiveInput) :
    ∀ a : ViTracker.Aac,
      toU32 a.orig_num_ba_poses ≤ a.num_ba_poses →
      toU32 a.orig_num_ba_poses + 30 < U32 →
      (∀ y ∈ xs, y.poses_size + 29 < U32) →
      toU32 a.orig_num_ba_poses ≤ (ViTracker.run xs a).num_ba_poses := by
  induction xs with
  | nil => intro a hI _ _; exact hI
  | cons x xs ih =>
    intro a hI ho hx
    have h1 := vitracker_adaptiveStep_ge x a hI ho (hx x (List.mem_cons_self x xs))
    have hf := (vitracker_adaptiveStep_frame x a).1
    have h2 := ih (ViTracker.adaptiveStep x a) (by rw [hf]; exact h1)
      (by rw [hf]; exact ho)
      (fun y hy => hx y (List.mem_cons_of_mem x hy))
    rw [hf] at h2
    exact h2

/-- C9, as stated, fails.  In `sd_vitracker`, starting a cycle at the baseline of 5
poses with `min_ba_poses = 10`, a taken adaptive step whose conditioning dimension is
zero leaves the window at 5 poses, below the minimum; `max(num_ba_poses, min_ba_poses)`
is not reached on that path.  In `sd_selfcal`, starting a cycle at a baseline of
`2 ^ 32 - 10` poses, a growing step wraps the 32-bit size around to 20. -/
theorem C9_lower_bound_counterexample :
    (scenarioC_empty.edgeKnown = true ∧
      (ViTracker.startCycle (sampleViAac 5 10)).do_adaptive = true ∧
      (ViTracker.startCycle (sampleViAac 5 10)).min_ba_poses = 10 ∧
      (ViTracker.adaptiveStep scenarioC_empty
        (ViTracker.startCycle (sampleViAac 5 10))).num_ba_poses = 5) ∧
    (toU32 (SelfCal.startCycle sampleAacHuge).orig_num_aac_poses = 4294967286 ∧
      (SelfCal.adaptiveStep scenarioC_high
        (SelfCal.startCycle sampleAacHuge)).num_active_poses = 20) := by
  refine ⟨⟨by decide, rfl, rfl, ?_⟩, ⟨by decide, ?_⟩⟩
  · rw [vitracker_adaptiveStep_num _ _ (by decide) rfl, scenarioC_empty_noChange]
    decide
  · rw [selfcal_adaptiveStep_num _ _ (by decide), scenarioC_high_noChange]
    have hg : SelfCal.grows (prevOrMax (SelfCal.startCycle sampleAacHuge).prev_cond_error)
        scenarioC_high = true :=
      (congrArg (fun p => SelfCal.grows p scenarioC_high) prevOrMax_100).trans
        scenarioC_high_grows
    rw [hg]
    decide

/-- C9, amended: starting a cycle at the baseline (`orig_num_aac_poses = num_aac_poses`
in `sd_selfcal`, `orig_num_ba_poses = num_ba_poses` in `sd_vitracker`), after every
adaptive step of the cycle the window size is at least that baseline, as long as the
sizes stay within 32 bits; in `sd_vitracker` the size is in addition at least
`min_ba_poses` after every taken step whose conditioning error and dimension are
non-zero, the only steps that apply `max(num_ba_poses, min_ba_poses)`. -/
theorem C9_lower_bound_baseline (xs : List AdaptiveInput) (a : SelfCal.Aac)
    (b : ViTracker.Aac) (x : AdaptiveInput)
    (ha : a.num_active_poses + 30 < U32) (hb : b.num_ba_poses + 30 < U32)
    (hx : ∀ y ∈ xs, 1 ≤ y.poses_size ∧ y.poses_size + 29 < U32) :
    (∀ k, a.num_active_poses ≤
      (SelfCal.run (xs.take k) (SelfCal.startCycle a)).num_active_poses) ∧
    (∀ k, b.num_ba_poses ≤
      (ViTracker.run (xs.take k) (ViTracker.startCycle b)).num_ba_poses) ∧
    (x.edgeKnown = true → b.do_adaptive = true → x.noChange = false →
      b.min_ba_poses ≤ (ViTracker.adaptiveStep x b).num_ba_poses) := by
  have hoa : toU32 (SelfCal.startCycle a).orig_num_aac_poses = a.num_active_poses :=
    toU32_toI32 a.num_active_poses (by omega)
  have hob : toU32 (ViTracker.startCycle b).orig_num_ba_poses = b.num_ba_poses :=
    toU32_toI32 b.num_ba_poses (by omega)
  refine ⟨?_, ?_, ?_⟩
  · intro k
    have h := selfcal_run_ge (xs.take k) (SelfCal.startCycle a)
      (by rw [hoa]; exact Nat.le_refl _) (by rw [hoa]; exact ha)
      (fun y hy => by
        have hy2 := hx y (List.mem_of_mem_take hy)
        unfold AdaptiveInput.end_pose_id sub32 U32 at *
        omega)
    rw [hoa] at h
    exact h
  · intro k
    have h := vitracker_run_ge (xs.take k) (ViTracker.startCycle b)
      (by rw [hob]; exact Nat.le_refl _) (by rw [hob]; exact hb)
      (fun y hy => (hx y (List.mem_of_mem_take hy)).2)
    rw [hob] at h
    exact h
  · intro ht hd hn
    rw [vitracker_adaptiveStep_num x b ht hd, hn]
    simp only [Bool.false_eq_true, if_false]
    split_ifs
    · exact Nat.le_max_right _ _
    · exact Nat.le_max_right _ _

/-- C9, amended, on a cycle of two steps (inertial ratio `1.5`, then `0.8`) started at
20 poses: the window never falls below 20 in either program, and the growing step of
`sd_vitracker` ends at or above `min_ba_poses = 10`. -/
theorem C9_lower_bound_baseline_witness :
    (∀ k, 20 ≤ (SelfCal.run ([scenarioC_high, scenarioC_low].take k)
      (SelfCal.startCycle (sampleAac 20))).num_active_poses) ∧
    (∀ k, 20 ≤ (ViTracker.run ([scenarioC_high, scenarioC_low].take k)
      (ViTracker.startCycle (sampleViAac 20 10))).num_ba_poses) ∧
    10 ≤ (ViTracker.adaptiveStep scenarioC_high (sampleViAac 20 10)).num_ba_poses := by
  have h := C9_lower_bound_baseline [scenarioC_high, scenarioC_low] (sampleAac 20)
    (sampleViAac 20 10) scenarioC_high (by decide) (by decide)
    (by
      intro y hy
      simp only [List.mem_cons, List.mem_singleton, List.not_mem_nil, or_false] at hy
      rcases hy with h | h <;> rw [h] <;> decide)
  exact ⟨h.1, h.2.1, h.2.2 (by decide) rfl scenarioC_high_noChange⟩

theorem SelfCalActive_of_view (s t : State) (c d : Calibration)
    (hs : scheduleView s = scheduleView t) (hc : calView c = calView d) :
    SelfCalActive s c = SelfCalActive t d := by
  simp only [scheduleView, calView, Prod.mk.injEq] at hs hc
  exact SelfCalActive_congr s t c d hs.1 hs.2.1 hs.2.2.2.1.2.2.1 hc.1 hc.2.1

theorem leavesBatch_of_view (s t : State) (c d : Calibration) (score : Dbl)
    (hs : scheduleView s = scheduleView t) (hc : calView c = calView d) :
    leavesBatch s c score = leavesBatch t d score := by
  have ha := SelfCalActive_of_view s t c d hs hc
  simp only [scheduleView, calView, Prod.mk.injEq] at hs hc
  unfold leavesBatch segmentExceeds batch_end
  rw [ha, hs.2.2.1, hc.2.2.2.1, hc.2.2.2.2]

theorem cameraBatch_view (x : BatchExtern) (sl : State × BatchLocals) :
    scheduleView (cameraBatch x sl).1 = scheduleView sl.1 := by
  unfold cameraBatch
  simp only []
  split_ifs <;> rfl

theorem tvsInit_view (x : BatchExtern) (s : State) :
    scheduleView (tvsInit x s) = scheduleView s := by
  unfold tvsInit
  simp only []
  split_ifs <;> rfl

theorem imuBatch_view (x : BatchExtern) (sl : State × BatchLocals) :
    scheduleView (imuBatch x sl).1 = scheduleView sl.1 := by
  have h := tvsInit_view x sl.1
  unfold imuBatch
  simp only []
  split_ifs
  all_goals first
    | rfl
    | exact h

theorem batchEstimate_view (x : BatchExtern) (s : State) :
    scheduleView (batchEstimate x s).1 = scheduleView s := by
  unfold batchEstimate
  rw [imuBatch_view, cameraBatch_view]

theorem camLeave_frame (score : Dbl) (s : State) :
    (camLeave score s).imu_calib = s.imu_calib ∧ (camLeave score s).has_imu = s.has_imu ∧
    (camLeave score s).use_imu_measurements = s.use_imu_measurements ∧
    (camLeave score s).poses_size = s.poses_size ∧
    (camLeave score s).cam_calib.unknown_calibration =
      (if leavesBatch s s.cam_calib score then false else s.cam_calib.unknown_calibration) := by
  unfold camLeave
  split_ifs <;> exact ⟨rfl, rfl, rfl, rfl, rfl⟩

theorem imuLeave_frame (score : Dbl) (s : State) :
    (imuLeave score s).cam_calib = s.cam_calib ∧
    (imuLeave score s).imu_calib.unknown_calibration =
      (if leavesBatch s s.imu_calib score then false else s.imu_calib.unknown_calibration) := by
  unfold imuLeave
  split_ifs <;> exact ⟨rfl, rfl⟩

/-- The Unknown flag of the camera after the application part of the batch block. -/
theorem batchApply_cam_unknown (x : BatchExtern) (sl : State × BatchLocals) :
    (batchApply x sl).cam_calib.unknown_calibration =
      if rankGate x sl && leavesBatch sl.1 sl.1.cam_calib sl.2.score then false
      else sl.1.cam_calib.unknown_calibration := by
  unfold batchApply
  by_cases hg : rankGate x sl = true
  · have hl : leavesBatch (copyRig sl.1) (copyRig sl.1).cam_calib sl.2.score =
        leavesBatch sl.1 sl.1.cam_calib sl.2.score :=
      leavesBatch_of_view _ _ _ _ _ rfl rfl
    rw [if_pos hg, (imuLeave_frame _ _).1, (camLeave_frame _ _).2.2.2.2, hl, hg, Bool.true_and]
    rfl
  · rw [if_neg hg]
    simp only [hg, Bool.false_and, Bool.false_eq_true, if_false]

/-- The Unknown flag of the IMU after the application part of the batch block, when the
IMU is active on entry. -/
theorem batchApply_imu_unknown (x : BatchExtern) (sl : State × BatchLocals)
    (ha : SelfCalActive sl.1 sl.1.imu_calib = true) :
    (batchApply x sl).imu_calib.unknown_calibration =
      if rankGate x sl && leavesBatch sl.1 sl.1.imu_calib sl.2.score then false
      else sl.1.imu_calib.unknown_calibration := by
  unfold batchApply
  by_cases hg : rankGate x sl = true
  · obtain ⟨f1, f2, f3, f4, f5⟩ := camLeave_frame sl.2.score (copyRig sl.1)
    have hact : SelfCalActive (camLeave sl.2.score (copyRig sl.1)) sl.1.imu_calib =
        SelfCalActive sl.1 sl.1.imu_calib := by
      cases hty : sl.1.imu_calib.type with
      | Camera => unfold SelfCalActive; rw [hty]
      | IMU =>
        have hcam : sl.1.cam_calib.unknown_calibration = false := by
          unfold SelfCalActive GetCalibration at ha
          rw [hty] at ha
          simp only [Bool.and_eq_true, Bool.not_eq_true'] at ha
          exact ha.2
        have hcam2 : (camLeave sl.2.score (copyRig sl.1)).cam_calib.unknown_calibration =
            false := by
          rw [f5]
          split_ifs
          · rfl
          · exact hcam
        exact SelfCalActive_congr _ _ _ _ f2 f3 (hcam2.trans hcam.symm) rfl rfl
    have hl : leavesBatch (camLeave sl.2.score (copyRig sl.1))
        (camLeave sl.2.score (copyRig sl.1)).imu_calib sl.2.score =
        leavesBatch sl.1 sl.1.imu_calib sl.2.score := by
      rw [f1]
      show leavesBatch (camLeave sl.2.score (copyRig sl.1)) sl.1.imu_calib sl.2.score = _
      unfold leavesBatch segmentExceeds batch_end
      rw [hact, f4]
      rfl
    rw [if_pos hg, (imuLeave_frame _ _).2, hl, f1, hg, Bool.true_and]
    rfl
  · rw [if_neg hg]
    simp only [hg, Bool.false_and, Bool.false_eq_true, if_false]

theorem batchEstimate_calView (x : BatchExtern) (s : State) :
    calView (batchEstimate x s).1.cam_calib = calView s.cam_calib ∧
    calView (batchEstimate x s).1.imu_calib = calView s.imu_calib := by
  have h := batchEstimate_view x s
  simp only [scheduleView, Prod.mk.injEq] at h
  exact ⟨h.2.2.2.1, h.2.2.2.2⟩

theorem calView_unknown (c d : Calibration) (h : calView c = calView d) :
    c.unknown_calibration = d.unknown_calibration := by
  simp only [calView, Prod.mk.injEq] at h
  exact h.2.2.1

theorem leavesBatch_active (s : State) (c : Calibration) (score : Dbl)
    (ha : SelfCalActive s c = true) :
    leavesBatch s c score =
      (scoreGood score || segmentExceeds s c ((c.self_cal_segment_length * 2) % U32)) := by
  unfold leavesBatch
  rw [ha, Bool.true_and]

theorem sampleBatch_score (r : Nat) :
    (batchEstimate (sampleExtern r) sampleBatchState).2.score = Dbl.fin 100 := rfl

theorem scoreGood_100 : scoreGood (Dbl.fin 100) = true := by
  simp [scoreGood, Dbl.lt, Dbl.ne, Dbl.eq, Dbl.isnan, Dbl.isinf, Dbl.c1e7, Dbl.zero]
  norm_num

/-- C10, as stated, fails: the camera is active and Unknown, the batch score 100 is below
`1e7`, non-zero and finite, and the segment of 25 poses exceeds twice the segment
length 10; but the covariance of the batch window has rank 3 for 4 parameters, so the
rank gate fails and the camera is still Unknown after the batch block. -/
theorem C10_batch_transition_counterexample :
    SelfCalActive sampleBatchState sampleBatchState.cam_calib = true ∧
    sampleBatchState.cam_calib.unknown_calibration = true ∧
    scoreGood (batchEstimate (sampleExtern 3) sampleBatchState).2.score = true ∧
    segmentExceeds sampleBatchState sampleBatchState.cam_calib
      ((sampleBatchState.cam_calib.self_cal_segment_length * 2) % U32) = true ∧
    (batchBlock (sampleExtern 3) sampleBatchState).cam_calib.unknown_calibration = true := by
  refine ⟨by decide, rfl, ?_, by decide, by decide⟩
  rw [sampleBatch_score]
  exact scoreGood_100

/-- C10, amended: in the batch block of `BaAndStartNewLandmarks`, a sensor that is
active and Unknown on entry leaves Unknown in that keyframe exactly when the rank gate
passes (the rank of the batch window's covariance equals `num_params`, `num_params` is
non-zero and the batch candidate was not rejected) and, in addition, either the batch
score is below `1e7`, non-zero and finite, or the segment length
`batch_end - unknown_calibration_start_pose` exceeds twice `self_cal_segment_length`;
in every other case it stays Unknown. -/
theorem C10_batch_to_online_transition (x : BatchExtern) (s : State) :
    (SelfCalActive s s.cam_calib = true → s.cam_calib.unknown_calibration = true →
      ((batchBlock x s).cam_calib.unknown_calibration = false ↔
        (rankGate x (batchEstimate x s) = true ∧
          (scoreGood (batchEstimate x s).2.score = true ∨
            segmentExceeds s s.cam_calib
              ((s.cam_calib.self_cal_segment_length * 2) % U32) = true)))) ∧
    (SelfCalActive s s.imu_calib = true → s.imu_calib.unknown_calibration = true →
      ((batchBlock x s).imu_calib.unknown_calibration = false ↔
        (rankGate x (batchEstimate x s) = true ∧
          (scoreGood (batchEstimate x s).2.score = true ∨
            segmentExceeds s s.imu_calib
              ((s.imu_calib.self_cal_segment_length * 2) % U32) = true)))) := by
  have hv := batchEstimate_view x s
  obtain ⟨hvc, hvi⟩ := batchEstimate_calView x s
  constructor
  · intro ha hu
    have hentry : (have_unknown_calib s || s.use_batch_estimates) = true := by
      unfold have_unknown_calib
      rw [ha, hu]
      rfl
    have hl : leavesBatch (batchEstimate x s).1 (batchEstimate x s).1.cam_calib
        (batchEstimate x s).2.score =
        (scoreGood (batchEstimate x s).2.score ||
          segmentExceeds s s.cam_calib ((s.cam_calib.self_cal_segment_length * 2) % U32)) := by
      rw [leavesBatch_of_view _ s _ s.cam_calib _ hv hvc, leavesBatch_active s _ _ ha]
    unfold batchBlock
    rw [if_pos hentry, batchApply_cam_unknown, hl, calView_unknown _ _ hvc, hu]
    cases rankGate x (batchEstimate x s) <;>
      cases scoreGood (batchEstimate x s).2.score <;>
      cases segmentExceeds s s.cam_calib ((s.cam_calib.self_cal_segment_length * 2) % U32) <;>
      simp
  · intro ha hu
    have hentry : (have_unknown_calib s || s.use_batch_estimates) = true := by
      unfold have_unknown_calib
      rw [ha, hu]
      simp
    have ha2 : SelfCalActive (batchEstimate x s).1 (batchEstimate x s).1.imu_calib = true := by
      rw [SelfCalActive_of_view _ s _ s.imu_calib hv hvi]
      exact ha
    have hl : leavesBatch (batchEstimate x s).1 (batchEstimate x s).1.imu_calib
        (batchEstimate x s).2.score =
        (scoreGood (batchEstimate x s).2.score ||
          segmentExceeds s s.imu_calib ((s.imu_calib.self_cal_segment_length * 2) % U32)) := by
      rw [leavesBatch_of_view _ s _ s.imu_calib _ hv hvi, leavesBatch_active s _ _ ha]
    unfold batchBlock
    rw [if_pos hentry, batchApply_imu_unknown _ _ ha2, hl, calView_unknown _ _ hvi, hu]
    cases rankGate x (batchEstimate x s) <;>
      cases scoreGood (batchEstimate x s).2.score <;>
      cases segmentExceeds s s.imu_calib ((s.imu_calib.self_cal_segment_length * 2) % U32) <;>
      simp

/-- C10, amended, on the keyframe with 25 poses: with a covariance of full rank 4 the
rank gate passes and the camera leaves Unknown. -/
theorem C10_batch_to_online_transition_witness :
    (batchBlock (sampleExtern 4) sampleBatchState).cam_calib.unknown_calibration = false :=
  ((C10_batch_to_online_transition (sampleExtern 4) sampleBatchState).1 (by decide) rfl).mpr
    ⟨by decide, Or.inr (by decide)⟩

/-! ### Rank gate -/

theorem cameraBatch_rig (x : BatchExtern) (sl : State × BatchLocals) :
    (cameraBatch x sl).1.rig = sl.1.rig := by
  unfold cameraBatch
  simp only []
  split_ifs <;> rfl

theorem tvsInit_rig (x : BatchExtern) (s : State) :
    (tvsInit x s).rig.params = s.rig.params ∧
    ((tvsInit x s).rig.pose = s.rig.pose ∨ (tvsInit x s).rig.pose = x.tvs_rotation_pose ∨
      (tvsInit x s).rig.pose = x.tvs_translation_pose) := by
  unfold tvsInit
  simp only []
  split_ifs
  all_goals first
    | exact ⟨rfl, Or.inl rfl⟩
    | exact ⟨rfl, Or.inr (Or.inl rfl)⟩
    | exact ⟨rfl, Or.inr (Or.inr rfl)⟩

theorem imuBatch_rig (x : BatchExtern) (sl : State × BatchLocals) :
    (imuBatch x sl).1.rig = sl.1.rig ∨ (imuBatch x sl).1.rig = (tvsInit x sl.1).rig := by
  unfold imuBatch
  simp only []
  split_ifs
  all_goals first
    | exact Or.inl rfl
    | exact Or.inr rfl

theorem imuBatch_rig_inactive (x : BatchExtern) (sl : State × BatchLocals)
    (h : ((sl.1.use_batch_estimates || sl.1.imu_calib.unknown_calibration) &&
      SelfCalActive sl.1 sl.1.imu_calib) = false) :
    (imuBatch x sl).1.rig = sl.1.rig := by
  unfold imuBatch
  simp only [h, Bool.false_eq_true, if_false]

/-- The estimation part of the batch block never writes the intrinsic parameters of the
live rig, and writes its pose only with the guesses of the staged initialisation. -/
theorem batchEstimate_rig (x : BatchExtern) (s : State) :
    (batchEstimate x s).1.rig.params = s.rig.params ∧
    ((batchEstimate x s).1.rig.pose = s.rig.pose ∨
      (batchEstimate x s).1.rig.pose = x.tvs_rotation_pose ∨
      (batchEstimate x s).1.rig.pose = x.tvs_translation_pose) := by
  unfold batchEstimate
  have hc := cameraBatch_rig x
    (s, { score := Dbl.zero, num_params := 0, use_batch_candidate := true })
  have ht := tvsInit_rig x
    (cameraBatch x (s, { score := Dbl.zero, num_params := 0, use_batch_candidate := true })).1
  rcases imuBatch_rig x
    (cameraBatch x (s, { score := Dbl.zero, num_params := 0, use_batch_candidate := true }))
    with h | h
  · rw [h, hc]
    exact ⟨rfl, Or.inl rfl⟩
  · rw [h, ← hc]
    exact ht

/-- C11: in batch mode the parameters of the self-calibration scratch rig are copied to
the live rig only if the rank of the batch window's covariance equals `num_params`,
`num_params` is non-zero and the batch candidate was not rejected.  When this gate fails
the batch block ends in the state reached by the estimation, without the copy: the
intrinsics of the live rig are those on entry, its pose is the one on entry or a guess
of the staged initialisation, and neither sensor's `unknown_calibration` is cleared.  In
particular a covariance of rank 3 for 4 parameters fails the gate, whatever the score. -/
theorem C11_rank_gate_blocks_copy (x : BatchExtern) (s : State)
    (hg : ¬ ((x.rank (batchEstimate x s).1.global_pq_window.covariance : Int) =
          (batchEstimate x s).2.num_params ∧
        (batchEstimate x s).2.num_params ≠ 0 ∧
        (batchEstimate x s).2.use_batch_candidate = true)) :
    batchBlock x s =
      (if have_unknown_calib s || s.use_batch_estimates then (batchEstimate x s).1 else s) ∧
    (batchBlock x s).rig.params = s.rig.params ∧
    ((batchBlock x s).rig.pose = s.rig.pose ∨
      (batchBlock x s).rig.pose = x.tvs_rotation_pose ∨
      (batchBlock x s).rig.pose = x.tvs_translation_pose) ∧
    (batchBlock x s).cam_calib.unknown_calibration = s.cam_calib.unknown_calibration ∧
    (batchBlock x s).imu_calib.unknown_calibration = s.imu_calib.unknown_calibration ∧
    (∀ (y : BatchExtern) (t : State),
      y.rank (batchEstimate y t).1.global_pq_window.covariance = 3 →
      (batchEstimate y t).2.num_params = 4 →
      rankGate y (batchEstimate y t) = false) := by
  have hgate : rankGate x (batchEstimate x s) = false := by
    unfold rankGate
    by_contra hne
    simp only [Bool.not_eq_false, Bool.and_eq_true, decide_eq_true_eq] at hne
    exact hg ⟨hne.1.1, hne.1.2, hne.2⟩
  have hb : batchBlock x s =
      (if have_unknown_calib s || s.use_batch_estimates then (batchEstimate x s).1 else s) := by
    unfold batchBlock batchApply
    simp only [hgate, Bool.false_eq_true, if_false]
  obtain ⟨hvc, hvi⟩ := batchEstimate_calView x s
  obtain ⟨hp, hpose⟩ := batchEstimate_rig x s
  refine ⟨hb, ?_, ?_, ?_, ?_, ?_⟩
  · rw [hb]
    split_ifs
    · exact hp
    · rfl
  · rw [hb]
    split_ifs
    · exact hpose
    · exact Or.inl rfl
  · rw [hb]
    split_ifs
    · exact calView_unknown _ _ hvc
    · rfl
  · rw [hb]
    split_ifs
    · exact calView_unknown _ _ hvi
    · rfl
  · intro y t h3 h4
    unfold rankGate
    rw [h3, h4]
    rfl

/-- C11 on the keyframe with 25 poses, where the batch window has a covariance of rank 3
for the 4 intrinsic parameters and a score of 100: the live rig keeps its parameters and
the camera stays Unknown. -/
theorem C11_rank_gate_blocks_copy_witness :
    (batchBlock (sampleExtern 3) sampleBatchState).rig.params = sampleBatchState.rig.params ∧
    (batchBlock (sampleExtern 3) sampleBatchState).cam_calib.unknown_calibration = true :=
  ⟨(C11_rank_gate_blocks_copy (sampleExtern 3) sampleBatchState (by decide)).2.1,
   (C11_rank_gate_blocks_copy (sampleExtern 3) sampleBatchState (by decide)).2.2.2.1⟩

/-! ### Timestamp monotonicity -/

theorem Dbl.lt_of_not_le (a b : Dbl) (ha : Dbl.isnan a = false) (hb : Dbl.isnan b = false)
    (h : Dbl.le a b = false) : Dbl.lt b a = true := by
  cases a <;> cases b <;>
    simp_all [Dbl.le, Dbl.lt, Dbl.eq, Dbl.isnan]
  rename_i p q
  exact lt_of_le_of_ne h.1 (fun e => h.2 e.symm)

theorem timestampViolation_concat (p : List Dbl) (t : Dbl) :
    timestampViolation (p ++ [t]) =
      (match p.getLast? with
       | some previous => Dbl.le t previous
       | none => false) := by
  unfold timestampViolation
  rw [List.getLast?_append, List.dropLast_concat]
  cases p with
  | nil => rfl
  | cons a l =>
    have hl : (a :: l).getLast? = some ((a :: l).getLast (List.cons_ne_nil a l)) :=
      List.getLast?_eq_getLast _ _
    rw [hl]
    simp

theorem timestampViolation_iff (ts : List Dbl) :
    timestampViolation ts = true ↔
      (2 ≤ ts.length ∧ ∃ newest previous, ts.getLast? = some newest ∧
        ts.dropLast.getLast? = some previous ∧ Dbl.le newest previous = true) := by
  unfold timestampViolation
  cases h1 : ts.getLast? <;> cases h2 : ts.dropLast.getLast? <;>
    simp [Nat.lt_iff_add_one_le]

/-- Appending a time that passes the test of line 1922 keeps the times increasing, as
long as no time is NaN. -/
theorem increasingTimes_concat (p : List Dbl) (t : Dbl)
    (hinc : increasingTimes p) (hnan : ∀ x ∈ p, Dbl.isnan x = false)
    (ht : Dbl.isnan t = false) (hv : timestampViolation (p ++ [t]) = false) :
    increasingTimes (p ++ [t]) := by
  unfold increasingTimes at *
  rw [List.chain'_append]
  refine ⟨hinc, List.chain'_singleton t, ?_⟩
  intro x hx y hy
  rw [timestampViolation_concat] at hv
  simp only [List.head?_cons, Option.mem_def, Option.some.injEq] at hy
  rw [Option.mem_def] at hx
  rw [hx] at hv
  subst hy
  exact Dbl.lt_of_not_le t x ht (hnan x (List.mem_of_getLast?_eq_some hx)) hv

/-- C12, as stated, fails: with one pose at time 1 and a new keyframe frame whose
timestamp is NaN, the test of line 1922 is false, the frame is processed further, and
the pose times `[1, NaN]` are not strictly increasing. -/
theorem C12_timestamp_counterexample :
    increasingTimes [Dbl.fin 1] ∧
    stampAndCheck true Dbl.nan Dbl.zero [Dbl.fin 1] = some [Dbl.fin 1, Dbl.nan] ∧
    ¬ increasingTimes [Dbl.fin 1, Dbl.nan] := by
  refine ⟨List.chain'_singleton _, by decide, ?_⟩
  unfold increasingTimes
  rw [List.chain'_pair]
  decide

/-- C12, amended: `ProcessImage` terminates the process with a failure exit if and only
if, after the newest pose is stamped with `timestamp + imu_time_offset`, there are at
least two poses and the newest pose's time is less than or equal to the previous pose's
time; hence, as long as no pose time is NaN, on every frame that is processed further
the pose times stay strictly increasing along the pose sequence. -/
theorem C12_timestamp_monotonicity (is_prev_keyframe : Bool) (timestamp imu_time_offset : Dbl)
    (times : List Dbl)
    (hinc : increasingTimes times) (hnan : ∀ t ∈ times, Dbl.isnan t = false)
    (ht : Dbl.isnan (Dbl.add timestamp imu_time_offset) = false) :
    (stampAndCheck is_prev_keyframe timestamp imu_time_offset times = none ↔
      (2 ≤ (stampNewest is_prev_keyframe timestamp imu_time_offset times).length ∧
        ∃ newest previous,
          (stampNewest is_prev_keyframe timestamp imu_time_offset times).getLast?
            = some newest ∧
          (stampNewest is_prev_keyframe timestamp imu_time_offset times).dropLast.getLast?
            = some previous ∧
          Dbl.le newest previous = true)) ∧
    (∀ ts, stampAndCheck is_prev_keyframe timestamp imu_time_offset times = some ts →
      ts = stampNewest is_prev_keyframe timestamp imu_time_offset times ∧
      increasingTimes ts ∧ ∀ t ∈ ts, Dbl.isnan t = false) := by
  constructor
  · rw [← timestampViolation_iff]
    unfold stampAndCheck
    split_ifs with h
    · simp [h]
    · simp [h]
  · intro ts hts
    unfold stampAndCheck at hts
    split_ifs at hts with hv
    simp only [Option.some.injEq] at hts
    have hvf : timestampViolation
        (stampNewest is_prev_keyframe timestamp imu_time_offset times) = false := by
      simpa using hv
    refine ⟨hts.symm, ?_, ?_⟩
    · rw [← hts]
      unfold stampNewest at hvf ⊢
      split_ifs at hvf ⊢ with h1 h2
      · exact increasingTimes_concat times _ hinc hnan ht hvf
      · exact List.chain'_nil
      · exact increasingTimes_concat times.dropLast _
          ( List.Chain'.prefix hinc ( List.dropLast_prefix times))
          (fun x hx => hnan x (List.mem_of_mem_dropLast hx)) ht hvf
    · rw [← hts]
      intro t htm
      unfold stampNewest at htm
      split_ifs at htm with h1 h2
      · rcases List.mem_append.mp htm with h | h
        · exact hnan t h
        · rw [List.mem_singleton] at h
          rw [h]
          exact ht
      · exact absurd htm (List.not_mem_nil t)
      · rcases List.mem_append.mp htm with h | h
        · exact hnan t (List.mem_of_mem_dropLast h)
        · rw [List.mem_singleton] at h
          rw [h]
          exact ht

theorem stampAndCheck_sample :
    stampAndCheck true (Dbl.fin 2) Dbl.zero [Dbl.fin 1] = some [Dbl.fin 1, Dbl.fin 2] := by
  simp [stampAndCheck, stampNewest, timestampViolation, Dbl.add, Dbl.le, Dbl.lt, Dbl.eq,
    Dbl.zero]

/-- C12, amended, on one pose at time 1 and a keyframe frame with timestamp 2: the frame
is processed further and the times `[1, 2]` are strictly increasing; with timestamp 1
the process exits. -/
theorem C12_timestamp_monotonicity_witness :
    increasingTimes [Dbl.fin 1, Dbl.fin 2] ∧
    (stampAndCheck true (Dbl.fin 1) Dbl.zero [Dbl.fin 1] = none ↔
      (2 ≤ (stampNewest true (Dbl.fin 1) Dbl.zero [Dbl.fin 1]).length ∧
        ∃ newest previous,
          (stampNewest true (Dbl.fin 1) Dbl.zero [Dbl.fin 1]).getLast? = some newest ∧
          (stampNewest true (Dbl.fin 1) Dbl.zero [Dbl.fin 1]).dropLast.getLast?
            = some previous ∧
          Dbl.le newest previous = true)) :=
  ⟨((C12_timestamp_monotonicity true (Dbl.fin 2) Dbl.zero [Dbl.fin 1]
      (List.chain'_singleton _) (by decide) rfl).2 _ stampAndCheck_sample).2.1,
   (C12_timestamp_monotonicity true (Dbl.fin 1) Dbl.zero [Dbl.fin 1]
      (List.chain'_singleton _) (by decide) rfl).1⟩

/-! ### Construction of the bundle adjustment problem -/

/-- The landmarks added by the loop over the tracks of a pose are those of the tracks
that are not excluded, in order. -/
theorem addLandmarks_landmarks (c : BaConfig) (ii opt_id : Nat) (tracks : List DenseTrack) :
    ∀ landmarks : List BaLandmark,
      (SelfCal.addLandmarks c ii opt_id tracks landmarks).1 =
        landmarks ++
          (tracks.filter (fun t => !SelfCal.excluded c ii t)).map (SelfCal.landmarkOf c opt_id) := by
  induction tracks with
  | nil => intro landmarks; simp [SelfCal.addLandmarks]
  | cons t rest ih =>
    intro landmarks
    unfold SelfCal.addLandmarks
    by_cases he : SelfCal.excluded c ii t = true
    · simp only [he, if_true]
      rw [ih, List.filter_cons_of_neg (by simp [he])]
    · simp only [he, if_false, Bool.false_eq_true]
      rw [ih, List.filter_cons_of_pos (by simp [he]), List.map_cons, List.append_assoc]
      rfl

/-- The loop over the tracks keeps the tracks in place and changes only their
`external_id`: an excluded track gets `UINT_MAX`. -/
theorem addLandmarks_tracks (c : BaConfig) (ii opt_id : Nat) (tracks : List DenseTrack) :
    ∀ landmarks : List BaLandmark,
      List.Forall₂
        (fun (t u : DenseTrack) =>
          u = { t with external_id := u.external_id } ∧
          (SelfCal.excluded c ii t = true → u.external_id = UINT_MAX))
        tracks (SelfCal.addLandmarks c ii opt_id tracks landmarks).2 := by
  induction tracks with
  | nil => intro landmarks; exact List.Forall₂.nil
  | cons t rest ih =>
    intro landmarks
    unfold SelfCal.addLandmarks
    by_cases he : SelfCal.excluded c ii t = true
    · simp only [he, if_true]
      exact List.Forall₂.cons ⟨rfl, fun _ => rfl⟩ (ih _)
    · simp only [he, if_false, Bool.false_eq_true]
      exact List.Forall₂.cons ⟨rfl, fun h => absurd h he⟩ (ih _)

theorem excluded_eq_false_iff (c : BaConfig) (ii : Nat) (t : DenseTrack) :
    SelfCal.excluded c ii t = false ↔
      (2 ≤ t.num_good_tracked_frames ∧ t.is_outlier = false ∧
        t.keypoints.length + ii > c.start_active_pose) := by
  unfold SelfCal.excluded SelfCal.constraints_active
  cases t.is_outlier
  · simp
    omega
  · simp

/-- A projection residual of a track refers to the landmark of that track, and the
track has a landmark. -/
theorem trackResiduals_mem (c : BaConfig) (num_poses opt_id : Nat) (u : DenseTrack)
    (r : BaResidual) (hr : r ∈ SelfCal.trackResiduals c num_poses opt_id u) :
    u.external_id ≠ UINT_MAX ∧ r.landmark_id = u.external_id := by
  unfold SelfCal.trackResiduals at hr
  by_cases hu : u.external_id = UINT_MAX
  · rw [if_pos hu] at hr
    exact absurd hr (List.not_mem_nil r)
  · rw [if_neg hu] at hr
    refine ⟨hu, ?_⟩
    rw [List.mem_flatMap] at hr
    obtain ⟨cam_id, _, hmem⟩ := hr
    rw [List.mem_filterMap] at hmem
    obtain ⟨jj, _, hjj⟩ := hmem
    split_ifs at hjj
    simp only [Option.some.injEq] at hjj
    rw [← hjj]

theorem addResiduals_mem (c : BaConfig) (num_poses : Nat) (poses : List TrackerPose)
    (r : BaResidual) (hr : r ∈ SelfCal.addResiduals c num_poses poses) :
    ∃ pose ∈ poses, ∃ u ∈ pose.tracks, u.external_id ≠ UINT_MAX ∧
      r.landmark_id = u.external_id := by
  unfold SelfCal.addResiduals at hr
  rw [List.mem_flatMap] at hr
  obtain ⟨pose, hp, hr2⟩ := hr
  rw [List.mem_flatMap] at hr2
  obtain ⟨u, hu, hr3⟩ := hr2
  exact ⟨pose, hp, u, hu, trackResiduals_mem c num_poses pose.opt_id u r hr3⟩

/-- C14: in the loop that adds the tracks of a pose to the problem, every track with
fewer than 2 good tracked frames (`num_good_tracked_frames <= 1`) or with `is_outlier`
set is excluded: its `external_id` is set to `UINT_MAX`, no landmark is added for it
and no projection residual refers to it; a track is added as a landmark if and only if
`num_good_tracked_frames >= 2`, it is not an outlier and
`keypoints.size() + ii > start_active_pose`. -/
theorem C14_landmark_exclusion (c : BaConfig) (ii opt_id num_poses : Nat)
    (tracks : List DenseTrack) (landmarks : List BaLandmark) :
    (∀ t : DenseTrack, (t.num_good_tracked_frames ≤ 1 ∨ t.is_outlier = true) →
      SelfCal.excluded c ii t = true) ∧
    (∀ t : DenseTrack, SelfCal.excluded c ii t = false ↔
      (2 ≤ t.num_good_tracked_frames ∧ t.is_outlier = false ∧
        t.keypoints.length + ii > c.start_active_pose)) ∧
    (SelfCal.addLandmarks c ii opt_id tracks landmarks).1 =
      landmarks ++
        (tracks.filter (fun t => !SelfCal.excluded c ii t)).map (SelfCal.landmarkOf c opt_id) ∧
    List.Forall₂
      (fun (t u : DenseTrack) =>
        SelfCal.excluded c ii t = true →
          u.external_id = UINT_MAX ∧ SelfCal.trackResiduals c num_poses opt_id u = [])
      tracks (SelfCal.addLandmarks c ii opt_id tracks landmarks).2 ∧
    (∀ (poses : List TrackerPose) (r : BaResidual),
      r ∈ SelfCal.addResiduals c num_poses poses → r.landmark_id ≠ UINT_MAX) := by
  refine ⟨?_, excluded_eq_false_iff c ii, addLandmarks_landmarks c ii opt_id tracks landmarks,
    ?_, ?_⟩
  · intro t ht
    by_contra hne
    have hf : SelfCal.excluded c ii t = false := by simpa using hne
    have h := (excluded_eq_false_iff c ii t).mp hf
    rcases ht with h1 | h1
    · omega
    · rw [h.2.1] at h1
      exact absurd h1 (by decide)
  · refine List.Forall₂.imp ?_ (addLandmarks_tracks c ii opt_id tracks landmarks)
    intro t u htu he
    refine ⟨htu.2 he, ?_⟩
    unfold SelfCal.trackResiduals
    rw [if_pos (htu.2 he)]
  · intro poses r hr
    obtain ⟨pose, _, u, _, hu, hl⟩ := addResiduals_mem c num_poses poses r hr
    rw [hl]
    exact hu

/-- The poses added by the first loop are the poses of the range, in order, each with
the activity computed on line 531. -/
theorem addPoses_poses (c : BaConfig) (ps : List TrackerPose) :
    ∀ (ii : Nat) (problem : BaProblem),
      (SelfCal.addPoses c ii ps problem).1.poses =
        problem.poses ++
          (List.range' ii ps.length).map
            (fun k => ({ index := k, is_active := SelfCal.poseActive c k } : BaPose)) := by
  induction ps with
  | nil => intro ii problem; simp [SelfCal.addPoses]
  | cons pose rest ih =>
    intro ii problem
    unfold SelfCal.addPoses
    simp only []
    rw [ih]
    simp [List.range'_succ]

/-- Every landmark of the problem built by the first loop was there before or is the
landmark of a track that is not excluded. -/
theorem addPoses_landmarks_mem (c : BaConfig) (ps : List TrackerPose) :
    ∀ (ii : Nat) (problem : BaProblem) (lm : BaLandmark),
      lm ∈ (SelfCal.addPoses c ii ps problem).1.landmarks →
      lm ∈ problem.landmarks ∨
        ∃ pose ∈ ps, ∃ t ∈ pose.tracks, ∃ k o,
          SelfCal.excluded c k t = false ∧ lm = SelfCal.landmarkOf c o t := by
  induction ps with
  | nil => intro ii problem lm h; exact Or.inl h
  | cons pose rest ih =>
    intro ii problem lm h
    unfold SelfCal.addPoses at h
    simp only [] at h
    rcases ih _ _ lm h with h1 | ⟨q, hq, t, ht, k, o, hk, hlm⟩
    · simp only [addLandmarks_landmarks, List.mem_append, List.mem_map, List.mem_filter] at h1
      rcases h1 with h2 | ⟨t, ⟨ht, hex⟩, hlm⟩
      · exact Or.inl h2
      · refine Or.inr ⟨pose, List.mem_cons_self _ _, t, ht, ii, _, ?_, hlm.symm⟩
        simpa using hex
    · exact Or.inr ⟨q, List.mem_cons_of_mem _ hq, t, ht, k, o, hk, hlm⟩

/-- C16, as stated, fails for `sd_selfcal`: in a bundle adjustment over poses 0 to 2 with
the active window starting at pose 0, pose 0 lies inside the active window but is added
as fixed. -/
theorem C16_pose_activation_counterexample :
    sampleBa.first_pose ≤ 0 ∧ 0 ≤ sampleBa.end_pose_id ∧ 0 ≥ sampleBa.start_active_pose ∧
    SelfCal.poseActive sampleBa 0 = false ∧
    (SelfCal.buildProblem sampleBa true samplePoses).map (fun r => r.1.poses) =
      some [{ index := 0, is_active := false }, { index := 1, is_active := true },
            { index := 2, is_active := true }] := by
  refine ⟨by decide, by decide, by decide, by decide, by decide⟩

/-- C16, amended: the first loop adds the poses of the range in order; in `sd_selfcal` a
pose `ii` is added as free if and only if `ii != 0` and `ii >= start_active_pose`, so
pose 0 is always fixed and every other pose is free exactly when it lies inside the
active window; in `sd_vitracker` a pose is added as free if and only if
`ii >= start_active_pose`. -/
theorem C16_pose_activation (c : BaConfig) (ps : List TrackerPose) (ii : Nat)
    (problem : BaProblem) (start_pose start_active_pose poses_size : Nat) :
    (SelfCal.addPoses c ii ps problem).1.poses =
      problem.poses ++
        (List.range' ii ps.length).map
          (fun k => ({ index := k, is_active := SelfCal.poseActive c k } : BaPose)) ∧
    (∀ k, SelfCal.poseActive c k = true ↔ (k ≠ 0 ∧ k ≥ c.start_active_pose)) ∧
    (∀ k, k ≠ 0 → (SelfCal.poseActive c k = true ↔ k ≥ c.start_active_pose)) ∧
    SelfCal.poseActive c 0 = false ∧
    (∀ p ∈ ViTracker.addedPoses start_pose start_active_pose poses_size,
      (p.is_active = true ↔ p.index ≥ start_active_pose) ∧
      start_pose ≤ p.index ∧ p.index < poses_size) := by
  refine ⟨addPoses_poses c ps ii problem, ?_, ?_, ?_, ?_⟩
  · intro k
    simp [SelfCal.poseActive]
  · intro k hk
    simp [SelfCal.poseActive, hk]
  · simp [SelfCal.poseActive]
  · intro p hp
    unfold ViTracker.addedPoses at hp
    rw [List.mem_map] at hp
    obtain ⟨k, hk, hpk⟩ := hp
    rw [List.mem_range'_1] at hk
    rw [← hpk]
    simp only [ViTracker.poseActive, decide_eq_true_eq]
    exact ⟨trivial, by omega, by omega⟩

/-- The problem built on the sample pose graph: pose 0 fixed, the longest track 7 held
fixed, track 8 free, the outlier track 9 left out, and one residual per tracked keypoint
of tracks 7 and 8. -/
theorem buildProblem_sample :
    (SelfCal.buildProblem sampleBa true samplePoses).map (fun r => r.1) =
      some
        { poses := [{ index := 0, is_active := false }, { index := 1, is_active := true },
                    { index := 2, is_active := true }]
          landmarks := [{ track_id := 7, pose_id := 0, active := false },
                        { track_id := 8, pose_id := 0, active := true }]
          residuals := [{ pose_id := 0, landmark_id := 0, cam_id := 0 },
                        { pose_id := 1, landmark_id := 0, cam_id := 0 },
                        { pose_id := 2, landmark_id := 0, cam_id := 0 },
                        { pose_id := 0, landmark_id := 1, cam_id := 0 },
                        { pose_id := 1, landmark_id := 1, cam_id := 0 },
                        { pose_id := 2, landmark_id := 1, cam_id := 0 }] } := by
  decide

theorem landmarkActive_eq_false_iff (c : BaConfig) (t : DenseTrack) :
    SelfCal.landmarkActive c t = false ↔
      (t.id = c.longest_track_id ∧ c.start_active_pose = c.first_pose ∧ c.use_imu = false) := by
  unfold SelfCal.landmarkActive BaConfig.all_poses_active
  simp [and_assoc]

/-- C20: a landmark added to the problem is held fixed (inactive) if and only if its
track is the globally longest track (`track->id == tracker.longest_track_id()`), all
poses of the range are active (`start_active_pose == start_pose_id`) and no inertial
residuals are used (`use_imu` is false); whenever `use_imu` is true every added landmark
is active. -/
theorem C20_gauge_fixing (c : BaConfig) (ii opt_id : Nat) (ps : List TrackerPose) :
    (∀ t : DenseTrack, (SelfCal.landmarkOf c opt_id t).active = false ↔
      (t.id = c.longest_track_id ∧ c.start_active_pose = c.first_pose ∧ c.use_imu = false)) ∧
    (c.use_imu = false → c.first_pose = c.start_pose_id) ∧
    (∀ lm ∈ (SelfCal.addPoses c ii ps { poses := [], landmarks := [], residuals := [] }).1.landmarks,
      ∃ pose ∈ ps, ∃ t ∈ pose.tracks,
        lm.track_id = t.id ∧
        (lm.active = false ↔
          (t.id = c.longest_track_id ∧ c.start_active_pose = c.start_pose_id ∧
            c.use_imu = false))) ∧
    (c.use_imu = true →
      ∀ lm ∈ (SelfCal.addPoses c ii ps
          { poses := [], landmarks := [], residuals := [] }).1.landmarks,
        lm.active = true) := by
  have hfirst : c.use_imu = false → c.first_pose = c.start_pose_id := by
    intro h
    unfold BaConfig.first_pose
    simp [h]
  have hmem : ∀ lm ∈ (SelfCal.addPoses c ii ps
      { poses := [], landmarks := [], residuals := [] }).1.landmarks,
      ∃ pose ∈ ps, ∃ t ∈ pose.tracks, ∃ o, lm = SelfCal.landmarkOf c o t := by
    intro lm hlm
    rcases addPoses_landmarks_mem c ps ii _ lm hlm with h | ⟨pose, hp, t, ht, _, o, _, hl⟩
    · exact absurd h (List.not_mem_nil lm)
    · exact ⟨pose, hp, t, ht, o, hl⟩
  refine ⟨fun t => landmarkActive_eq_false_iff c t, hfirst, ?_, ?_⟩
  · intro lm hlm
    obtain ⟨pose, hp, t, ht, o, hl⟩ := hmem lm hlm
    refine ⟨pose, hp, t, ht, by rw [hl]; rfl, ?_⟩
    rw [hl]
    show SelfCal.landmarkActive c t = false ↔ _
    rw [landmarkActive_eq_false_iff]
    constructor
    · rintro ⟨h1, h2, h3⟩
      exact ⟨h1, by rw [h2, hfirst h3], h3⟩
    · rintro ⟨h1, h2, h3⟩
      exact ⟨h1, by rw [h2, hfirst h3], h3⟩
  · intro hu lm hlm
    obtain ⟨pose, hp, t, ht, o, hl⟩ := hmem lm hlm
    rw [hl]
    show SelfCal.landmarkActive c t = true
    unfold SelfCal.landmarkActive
    simp [hu]

/-! ### Read-back -/

theorem readbackTrack_is_outlier (r : ReadbackConfig) (ratio solved_rho : Nat → Dbl)
    (t : DenseTrack) (hx : t.external_id ≠ UINT_MAX) :
    (SelfCal.readbackTrack r ratio solved_rho t).is_outlier =
      if SelfCal.reflagGate r then SelfCal.outlierTest r (ratio t.external_id) t
      else t.is_outlier := by
  unfold SelfCal.readbackTrack
  rw [if_neg hx]
  simp only []
  split_ifs <;> rfl

theorem gt_half_c0_3 : Dbl.gt (Dbl.fin (1 / 2)) Dbl.c0_3 = true := by
  simp [Dbl.gt, Dbl.lt, Dbl.c0_3]
  norm_num

/-- C15: in the read-back of `DoBundleAdjustment` (`sd_selfcal`), for a track that has a
landmark in the solver, the flag `is_outlier` is modified only if outlier rejection is
enabled, the camera calibration is not Unknown and `poses.size() > 30`; under those
conditions the flag is set to true if and only if the landmark outlier ratio exceeds
`0.3`, the track is not currently tracked and (`end_pose_id >= min_poses_for_imu - 1` or
no IMU is used), and to false otherwise.  A track without a landmark is not touched. -/
theorem C15_outlier_reflagging_gate (r : ReadbackConfig) (ratio solved_rho : Nat → Dbl)
    (t : DenseTrack) (hx : t.external_id ≠ UINT_MAX) :
    ((SelfCal.readbackTrack r ratio solved_rho t).is_outlier ≠ t.is_outlier →
      r.do_outlier_rejection = true ∧ r.cam_unknown_calibration = false ∧
        r.poses_size > 30) ∧
    (r.do_outlier_rejection = true → r.cam_unknown_calibration = false → r.poses_size > 30 →
      ((SelfCal.readbackTrack r ratio solved_rho t).is_outlier = true ↔
        (Dbl.gt (ratio t.external_id) Dbl.c0_3 = true ∧ t.tracked = false ∧
          (r.end_pose_id ≥ sub32 r.min_poses_for_imu 1 ∨ r.use_imu = false)))) ∧
    (∀ u : DenseTrack, u.external_id = UINT_MAX →
      SelfCal.readbackTrack r ratio solved_rho u = u) := by
  refine ⟨?_, ?_, ?_⟩
  · intro hne
    rw [readbackTrack_is_outlier r ratio solved_rho t hx] at hne
    by_cases hg : SelfCal.reflagGate r = true
    · unfold SelfCal.reflagGate POSES_TO_INIT at hg
      simp only [Bool.and_eq_true, Bool.not_eq_true', decide_eq_true_eq] at hg
      exact ⟨hg.1.1, hg.1.2, hg.2⟩
    · rw [if_neg hg] at hne
      exact absurd rfl hne
  · intro h1 h2 h3
    have hg : SelfCal.reflagGate r = true := by
      unfold SelfCal.reflagGate POSES_TO_INIT
      simp [h1, h2, h3]
    rw [readbackTrack_is_outlier r ratio solved_rho t hx, if_pos hg]
    unfold SelfCal.outlierTest
    simp [and_assoc]
  · intro u hu
    unfold SelfCal.readbackTrack
    rw [if_pos hu]

/-- C15 on a lost track with landmark 1 and outlier ratio `0.5`, with 40 poses and a
known calibration: the track is flagged; with 30 poses the flag is not touched. -/
theorem C15_outlier_reflagging_gate_witness :
    (SelfCal.readbackTrack sampleReadback (fun _ => Dbl.fin (1 / 2)) (fun _ => Dbl.one)
      sampleLostTrack).is_outlier = true ∧
    ¬ ((SelfCal.readbackTrack { sampleReadback with poses_size := 30 }
      (fun _ => Dbl.fin (1 / 2)) (fun _ => Dbl.one) sampleLostTrack).is_outlier
        ≠ sampleLostTrack.is_outlier) :=
  ⟨((C15_outlier_reflagging_gate sampleReadback (fun _ => Dbl.fin (1 / 2)) (fun _ => Dbl.one)
      sampleLostTrack (by decide)).2.1 rfl rfl (by decide)).mpr
      ⟨gt_half_c0_3, rfl, Or.inr rfl⟩,
   fun h => absurd
     ((C15_outlier_reflagging_gate { sampleReadback with poses_size := 30 }
       (fun _ => Dbl.fin (1 / 2)) (fun _ => Dbl.one) sampleLostTrack (by decide)).1 h).2.2
     (by decide)⟩

/-! ### Application of the priority queue results -/

theorem ApplyPriorityQueueResults_rig (unproject : List Dbl → List Dbl → List Dbl)
    (s : State) (poses : List TrackerPose) (hb : s.use_batch_estimates = false) :
    (ApplyPriorityQueueResults unproject true s poses).1.rig =
      { params := s.selfcal_rig.params, pose := s.selfcal_rig.pose } := by
  unfold ApplyPriorityQueueResults
  simp only [hb, Bool.not_false, Bool.and_self, if_true]
  split_ifs <;> rfl

/-- C13, as stated, fails: called with `apply_results = true` in a state where both
sensors are Unknown, `ApplyPriorityQueueResults` overwrites the parameters and the pose
of the live rig with those of the scratch rig. -/
theorem C13_stale_result_counterexample :
    sampleStaleState.cam_calib.unknown_calibration = true ∧
    sampleStaleState.imu_calib.unknown_calibration = true ∧
    (ApplyPriorityQueueResults (fun _ px => px) true sampleStaleState samplePoses).1.rig.params
      = [Dbl.fin 2, Dbl.fin 2, Dbl.fin 2, Dbl.fin 2] ∧
    (ApplyPriorityQueueResults (fun _ px => px) true sampleStaleState samplePoses).1.rig.pose
      = [Dbl.fin 2] ∧
    sampleStaleState.rig.params = [Dbl.one, Dbl.one, Dbl.one, Dbl.one] ∧
    sampleStaleState.rig.pose = [] := by
  rw [ApplyPriorityQueueResults_rig _ _ _ rfl]
  exact ⟨rfl, rfl, rfl, rfl, rfl, rfl⟩

/-- C13, amended: `ApplyPriorityQueueResults` writes to the live rig only if the value
`apply_results` it is given is true and `use_batch_estimates` is false; otherwise the
state and the pose graph are unchanged.  The value `apply_results` is computed when the
work is queued, as `!unknown_calibration && !use_batch_estimates` of the analysed
sensor, so it is false for a sensor that is Unknown at that time.  At the time of
application `unknown_calibration` is not read again: with `apply_results` true and
`use_batch_estimates` false the live rig receives the scratch rig's parameters and pose
in every state. -/
theorem C13_apply_guard (unproject : List Dbl → List Dbl → List Dbl) (apply_results : Bool)
    (s : State) (poses : List TrackerPose) (calib : Calibration)
    (h : apply_results = false ∨ s.use_batch_estimates = true) :
    ApplyPriorityQueueResults unproject apply_results s poses = (s, poses) ∧
    (capturedApply s calib = true ↔
      (calib.unknown_calibration = false ∧ s.use_batch_estimates = false)) ∧
    (calib.unknown_calibration = true →
      ApplyPriorityQueueResults unproject (capturedApply s calib) s poses = (s, poses)) ∧
    (∀ (t : State) (ps : List TrackerPose), t.use_batch_estimates = false →
      (ApplyPriorityQueueResults unproject true t ps).1.rig =
        { params := t.selfcal_rig.params, pose := t.selfcal_rig.pose }) := by
  refine ⟨?_, ?_, ?_, ?_⟩
  · unfold ApplyPriorityQueueResults
    rcases h with h | h <;> simp [h]
  · unfold capturedApply
    simp
  · intro hu
    unfold ApplyPriorityQueueResults capturedApply
    simp [hu]
  · intro t ps hb
    exact ApplyPriorityQueueResults_rig unproject t ps hb

/-- C13, amended, on the state with both sensors Unknown: with the value captured for
the Unknown camera the call changes nothing. -/
theorem C13_apply_guard_witness :
    ApplyPriorityQueueResults (fun _ px => px)
      (capturedApply sampleStaleState sampleStaleState.cam_calib) sampleStaleState samplePoses
      = (sampleStaleState, samplePoses) :=
  (C13_apply_guard (fun _ px => px) false sampleStaleState samplePoses
    sampleStaleState.cam_calib (Or.inl rfl)).2.2.1 rfl

/-! ### Seeding of the calibration -/

/-- The change-detection section does not write the live rig. -/
theorem changeDetection_rig (rank : List (List Dbl) → Nat)
    (ComputeYao1965 : CalibrationWindow → CalibrationWindow → Dbl) (s : State) :
    (changeDetection rank ComputeYao1965 s).rig = s.rig ∧
    (changeDetection rank ComputeYao1965 s).selfcal_rig = s.selfcal_rig := by
  unfold changeDetection
  simp only []
  split_ifs <;> exact ⟨rfl, rfl⟩

theorem changeDetection_sampleChangeState :
    (changeDetection (fun _ => 1) (fun _ _ => Dbl.c0_1) sampleChangeState).cam_calib =
      CheckParameterChange 100 sampleCalibAtThreshold := by
  rw [changeDetection_cam_calib _ _ _ (by decide)]
  rfl

theorem seedIntrinsics_sample :
    seedIntrinsics (Dbl.fin 1) 640 480 [Dbl.one, Dbl.one, Dbl.one, Dbl.one] =
      [Dbl.fin 240, Dbl.fin 240, Dbl.fin 320, Dbl.fin 240] := by
  simp [seedIntrinsics, Dbl.div, Dbl.one]
  norm_num

/-- C17, as stated, fails: when the change-detection check declares a change of the
camera calibration, the camera enters Unknown but the live rig keeps its parameters,
which are not the seed. -/
theorem C17_seed_on_change_counterexample :
    sampleChangeState.cam_calib.unknown_calibration = false ∧
    (changeDetection (fun _ => 1) (fun _ _ => Dbl.c0_1)
      sampleChangeState).cam_calib.unknown_calibration = true ∧
    (changeDetection (fun _ => 1) (fun _ _ => Dbl.c0_1) sampleChangeState).rig.params =
      [Dbl.one, Dbl.one, Dbl.one, Dbl.one] ∧
    seedIntrinsics (Dbl.fin 1) 640 480 [Dbl.one, Dbl.one, Dbl.one, Dbl.one] =
      [Dbl.fin 240, Dbl.fin 240, Dbl.fin 320, Dbl.fin 240] ∧
    (changeDetection (fun _ => 1) (fun _ _ => Dbl.c0_1) sampleChangeState).rig.params ≠
      seedIntrinsics (Dbl.fin 1) 640 480 [Dbl.one, Dbl.one, Dbl.one, Dbl.one] := by
  have hr := (changeDetection_rig (fun _ => 1) (fun _ _ => Dbl.c0_1) sampleChangeState).1
  refine ⟨rfl, ?_, ?_, seedIntrinsics_sample, ?_⟩
  · rw [changeDetection_sampleChangeState, CheckParameterChange_sampleCalibAtThreshold]
  · rw [hr]
    rfl
  · rw [hr, seedIntrinsics_sample]
    simp [sampleChangeState, sampleState, Dbl.one]

theorem LoadCameras_rig (x : LoadInput) (cam0 : Rig) (rest : List Rig)
    (hx : x.xml_rig = cam0 :: rest) :
    (LoadCameras x).rig =
      { params :=
          if x.unknown_cam_calibration then
            seedIntrinsics x.tan_half_fov x.width x.height cam0.params
          else cam0.params
        pose :=
          if x.imu_given && x.unknown_imu_calibration && x.use_imu_measurements then
            seedExtrinsics x.RoboticsToVision cam0.pose
          else cam0.pose } :: rest := by
  unfold LoadCameras
  rw [hx]
  cases hc : x.unknown_cam_calibration <;> cases hi : x.imu_given <;>
    cases hu : x.unknown_imu_calibration <;> cases hm : x.use_imu_measurements <;>
    simp [setParams0, setPose0, hc, hi, hu, hm]

theorem seedIntrinsics_entries (tan_half_fov : Dbl) (width height : Nat) (params : List Dbl)
    (h4 : 4 ≤ params.length) :
    (seedIntrinsics tan_half_fov width height params)[0]? =
      some (Dbl.div (Dbl.fin ((1 / 2 : ℚ) * (height : ℚ))) tan_half_fov) ∧
    (seedIntrinsics tan_half_fov width height params)[1]? =
      some (Dbl.div (Dbl.fin ((1 / 2 : ℚ) * (height : ℚ))) tan_half_fov) ∧
    (seedIntrinsics tan_half_fov width height params)[2]? =
      some (Dbl.fin ((width / 2 : Nat) : ℚ)) ∧
    (seedIntrinsics tan_half_fov width height params)[3]? =
      some (Dbl.fin ((height / 2 : Nat) : ℚ)) ∧
    (4 < params.length →
      (seedIntrinsics tan_half_fov width height params)[4]? = some (Dbl.fin 0)) := by
  unfold seedIntrinsics
  simp only []
  by_cases h5 : params.length > 4
  · rw [if_pos h5]
    simp [List.getElem?_set]
    refine ⟨?_, by omega, by omega, by omega⟩
    intro h
    rw [h] at h4
    exact absurd h4 (by decide)
  · rw [if_neg h5]
    simp [List.getElem?_set]
    refine ⟨?_, by omega, by omega, by omega, fun h => absurd h h5⟩
    intro h
    rw [h] at h4
    exact absurd h4 (by decide)

/-- C17, amended: at start-up `LoadCameras` resets the live rig to the known-bad seed:
with unknown camera calibration the intrinsics become
`fx = fy = 0.5 * height / tan(fov / 2)` for a field of view of 90 degrees,
`cx = width / 2`, `cy = height / 2` (integer divisions) and a fifth parameter, if
present, 0; with an IMU, unknown IMU calibration and inertial measurements in use the
extrinsic pose becomes the identity rotation converted by `RoboticsToVision`, with zero
translation.  When `CheckParameterChange` declares a change during change detection,
the live rig is not written: the sensor enters Unknown with the parameters it had. -/
theorem C17_start_up_seed (x : LoadInput) (cam0 : Rig) (rest : List Rig)
    (hx : x.xml_rig = cam0 :: rest) :
    (x.unknown_cam_calibration = true →
      (LoadCameras x).rig.head?.map (fun cam => cam.params) =
        some (seedIntrinsics x.tan_half_fov x.width x.height cam0.params)) ∧
    (4 ≤ cam0.params.length →
      (seedIntrinsics x.tan_half_fov x.width x.height cam0.params)[0]? =
        some (Dbl.div (Dbl.fin ((1 / 2 : ℚ) * (x.height : ℚ))) x.tan_half_fov) ∧
      (seedIntrinsics x.tan_half_fov x.width x.height cam0.params)[1]? =
        some (Dbl.div (Dbl.fin ((1 / 2 : ℚ) * (x.height : ℚ))) x.tan_half_fov) ∧
      (seedIntrinsics x.tan_half_fov x.width x.height cam0.params)[2]? =
        some (Dbl.fin ((x.width / 2 : Nat) : ℚ)) ∧
      (seedIntrinsics x.tan_half_fov x.width x.height cam0.params)[3]? =
        some (Dbl.fin ((x.height / 2 : Nat) : ℚ)) ∧
      (4 < cam0.params.length →
        (seedIntrinsics x.tan_half_fov x.width x.height cam0.params)[4]? = some (Dbl.fin 0))) ∧
    (x.imu_given = true → x.unknown_imu_calibration = true → x.use_imu_measurements = true →
      (LoadCameras x).rig.head?.map (fun cam => cam.pose) =
        some (seedExtrinsics x.RoboticsToVision cam0.pose)) ∧
    (4 ≤ (x.RoboticsToVision
        ([Dbl.fin 0, Dbl.fin 0, Dbl.fin 0, Dbl.fin 1] ++ cam0.pose.drop 4)).length →
      (seedExtrinsics x.RoboticsToVision cam0.pose).take 4 =
        (x.RoboticsToVision
          ([Dbl.fin 0, Dbl.fin 0, Dbl.fin 0, Dbl.fin 1] ++ cam0.pose.drop 4)).take 4 ∧
      (seedExtrinsics x.RoboticsToVision cam0.pose).drop 4 =
        [Dbl.fin 0, Dbl.fin 0, Dbl.fin 0]) ∧
    (∀ (rank : List (List Dbl) → Nat)
      (ComputeYao1965 : CalibrationWindow → CalibrationWindow → Dbl) (s : State),
      (changeDetection rank ComputeYao1965 s).rig = s.rig) := by
  have hr := LoadCameras_rig x cam0 rest hx
  refine ⟨?_, seedIntrinsics_entries x.tan_half_fov x.width x.height cam0.params, ?_, ?_, ?_⟩
  · intro hc
    rw [hr, hc]
    rfl
  · intro hi hu hm
    rw [hr, hi, hu, hm]
    rfl
  · intro hlen
    unfold seedExtrinsics
    have h4 : ((x.RoboticsToVision
        ([Dbl.fin 0, Dbl.fin 0, Dbl.fin 0, Dbl.fin 1] ++ cam0.pose.drop 4)).take 4).length
        = 4 := by
      rw [List.length_take]
      omega
    constructor
    · rw [List.take_append_of_le_length (by omega), List.take_of_length_le (by omega)]
    · rw [List.drop_append_of_le_length (by omega), List.drop_of_length_le (by omega)]
      rfl
  · intro rank ComputeYao1965 s
    exact (changeDetection_rig rank ComputeYao1965 s).1

/-- C17, amended, on a camera of 640 by 480 pixels with five parameters and an IMU: the
live rig starts with the intrinsics `240, 240, 320, 240, 0` and the pose of identity
rotation and zero translation. -/
theorem C17_start_up_seed_witness :
    (LoadCameras sampleLoad).rig.head?.map (fun cam => cam.params) =
      some (seedIntrinsics (Dbl.fin 1) 640 480
        [Dbl.fin 500, Dbl.fin 500, Dbl.fin 300, Dbl.fin 200, Dbl.fin 1]) ∧
    (seedIntrinsics (Dbl.fin 1) 640 480
        [Dbl.fin 500, Dbl.fin 500, Dbl.fin 300, Dbl.fin 200, Dbl.fin 1])[2]? =
      some (Dbl.fin ((640 / 2 : Nat) : ℚ)) ∧
    (LoadCameras sampleLoad).rig.head?.map (fun cam => cam.pose) =
      some (seedExtrinsics (fun pose => pose)
        [Dbl.fin 0, Dbl.fin 1, Dbl.fin 0, Dbl.fin 0, Dbl.fin 1, Dbl.fin 2, Dbl.fin 3]) ∧
    seedExtrinsics (fun pose => pose)
        [Dbl.fin 0, Dbl.fin 1, Dbl.fin 0, Dbl.fin 0, Dbl.fin 1, Dbl.fin 2, Dbl.fin 3] =
      [Dbl.fin 0, Dbl.fin 0, Dbl.fin 0, Dbl.fin 1, Dbl.fin 0, Dbl.fin 0, Dbl.fin 0] :=
  ⟨(C17_start_up_seed sampleLoad _ _ rfl).1 rfl,
   ((C17_start_up_seed sampleLoad _ _ rfl).2.1 (by decide)).2.2.1,
   (C17_start_up_seed sampleLoad _ _ rfl).2.2.1 rfl rfl rfl,
   rfl⟩

/-! ### Lock order -/

/-- C18, evaluated on the code: the critical sections of `sd_selfcal.cpp` that hold both
mutexes do not acquire them in one order.  The sections at lines 446, 480, 647, 863,
1241, 1907 and 1984 take `aac_mutex` first; the sections at lines 1112, 1140 and 1202 of
`BaAndStartNewLandmarks` take `online_calibrator_mutex` first.  With the AAC thread in
the section at line 480 and the main thread in the section at line 1202, one
acquisition by each thread leads to a state in which each waits for the mutex the other
holds. -/
theorem C18_lock_order_inversion :
    lockOrderConsistent criticalSections = false ∧
    (criticalSections.filter
        (fun cs => decide (cs.acquired = [Mutex.aac_mutex, Mutex.online_calibrator_mutex]))).map
      (fun cs => cs.line) = [446, 480, 647, 863, 1241, 1907, 1984] ∧
    (criticalSections.filter
        (fun cs => decide (cs.acquired = [Mutex.online_calibrator_mutex, Mutex.aac_mutex]))).map
      (fun cs => cs.line) = [1112, 1140, 1202] ∧
    ((LockState.enter
        { owner := LockingFunction.DoBundleAdjustment, line := 480
          acquired := [Mutex.aac_mutex, Mutex.online_calibrator_mutex] }
        { owner := LockingFunction.BaAndStartNewLandmarks, line := 1202
          acquired := [Mutex.online_calibrator_mutex, Mutex.aac_mutex] }).acquire 0).bind
      (fun s => s.acquire 1) =
      some { aac_holder := some 0, oc_holder := some 1
             pending0 := [Mutex.online_calibrator_mutex], pending1 := [Mutex.aac_mutex] } ∧
    LockState.deadlocked
      { aac_holder := some 0, oc_holder := some 1
        pending0 := [Mutex.online_calibrator_mutex], pending1 := [Mutex.aac_mutex] } = true := by
  refine ⟨by decide, by decide, by decide, by decide, by decide⟩

/-! ### C19: queue acceptance margins -/

/-- With a positive finite incumbent score `q`, the acceptance test compares the
relative improvement `(c - q) / q` with the margin. -/
theorem exceedsByMargin_fin (m q c : ℚ) (hq : 0 < q) :
    exceedsByMargin (Dbl.fin m) (Dbl.fin q) (Dbl.fin c) = decide (m < (c - q) / q) := by
  have h0 : q ≠ 0 := ne_of_gt hq
  simp [exceedsByMargin, Dbl.gt, Dbl.lt, Dbl.sub, Dbl.add, Dbl.neg, Dbl.div, h0, sub_eq_add_neg]

/-- The analysis of the camera candidate writes neither the IMU sensor nor the globals
read by `SelfCalActive` and `segmentExceeds`. -/
theorem analyzeCameraCandidate_imu (x : AnalyzeExtern) (s : State) :
    (analyzeCameraCandidate x s).imu_calib = s.imu_calib ∧
    SelfCalActive (analyzeCameraCandidate x s) s.imu_calib = SelfCalActive s s.imu_calib ∧
    batch_end (analyzeCameraCandidate x s) = batch_end s := by
  unfold analyzeCameraCandidate
  split_ifs <;> simp [SelfCalActive, GetCalibration, batch_end]

/-- C19 (queue acceptance margins): in the analysis of the candidate windows the camera
candidate is offered to the camera queue with margin 0.05 and a usable IMU candidate to
the IMU queue with margin 0.20, and 0.05 < 0.20; with the acceptance test as the
specification describes it, on a full camera queue whose weakest incumbent has a positive
finite score `q`, a candidate of score `1.04 q` leaves the queue as it is and a candidate
of score `1.06 q` replaces the weakest incumbent and sets the dirty flag. -/
theorem C19_queue_acceptance_margins (x4 x6 : AnalyzeExtern) (s : State) (q : ℚ)
    (w : CalibrationWindow)
    (hb : s.use_batch_estimates = false)
    (ha : SelfCalActive s s.cam_calib = true)
    (hl : segmentExceeds s s.cam_calib s.cam_calib.self_cal_segment_length = true)
    (hfull : s.cam_calib.online_calibrator.capacity ≤
      s.cam_calib.online_calibrator.windows.length)
    (hw : weakest s.cam_calib.online_calibrator.windows = some w)
    (hs : w.score = Dbl.fin q) (hq : 0 < q)
    (h4 : x4.cam_candidate.score = Dbl.fin (q * 104 / 100))
    (h6 : x6.cam_candidate.score = Dbl.fin (q * 106 / 100)) :
    (analyzeCandidates x4 s).cam_calib.online_calibrator =
        (s.cam_calib.online_calibrator.AnalyzeCalibrationWindow x4.cam_candidate
          Dbl.c0_05).1 ∧
      (analyzeCandidates x4 s).imu_calib.online_calibrator =
        (if SelfCalActive s s.imu_calib &&
            segmentExceeds s s.imu_calib s.imu_calib.self_cal_segment_length &&
            x4.imu_use_candidate then
          (s.imu_calib.online_calibrator.AnalyzeCalibrationWindow x4.imu_candidate
            Dbl.c0_2).1
        else s.imu_calib.online_calibrator) ∧
      Dbl.lt Dbl.c0_05 Dbl.c0_2 = true ∧
      (analyzeCandidates x4 s).cam_calib.online_calibrator =
        s.cam_calib.online_calibrator ∧
      (analyzeCandidates x6 s).cam_calib.online_calibrator =
        { s.cam_calib.online_calibrator with
          windows := replaceFirst w x6.cam_candidate s.cam_calib.online_calibrator.windows
          dirty := true } := by
  have hq0 : q ≠ 0 := ne_of_gt hq
  have hcam : ∀ x : AnalyzeExtern, (analyzeCandidates x s).cam_calib.online_calibrator =
      (s.cam_calib.online_calibrator.AnalyzeCalibrationWindow x.cam_candidate
        Dbl.c0_05).1 := by
    intro x
    simp [analyzeCandidates, should_do_self_cal, analyzeImuCandidate, analyzeCameraCandidate,
      ha, hl, hb]
    split_ifs <;> rfl
  have hr4 : exceedsByMargin Dbl.c0_05 w.score x4.cam_candidate.score = false := by
    rw [hs, h4, Dbl.c0_05, exceedsByMargin_fin _ _ _ hq]
    have e : (q * 104 / 100 - q) / q = 4 / 100 := by field_simp; ring
    rw [e]; norm_num
  have hr6 : exceedsByMargin Dbl.c0_05 w.score x6.cam_candidate.score = true := by
    rw [hs, h6, Dbl.c0_05, exceedsByMargin_fin _ _ _ hq]
    have e : (q * 106 / 100 - q) / q = 6 / 100 := by field_simp; ring
    rw [e]; norm_num
  refine ⟨hcam x4, ?_, ?_, ?_, ?_⟩
  · have hi := analyzeCameraCandidate_imu x4 s
    have hstep : analyzeCandidates x4 s = analyzeImuCandidate x4 (analyzeCameraCandidate x4 s) := by
      simp [analyzeCandidates, should_do_self_cal, ha, hl, hb]
    have hseg : ∀ n, segmentExceeds (analyzeCameraCandidate x4 s) s.imu_calib n =
        segmentExceeds s s.imu_calib n := by
      intro n; simp [segmentExceeds, hi.2.2]
    rw [hstep]
    unfold analyzeImuCandidate
    rw [hi.1, hi.2.1, hseg]
    cases h1 : SelfCalActive s s.imu_calib <;>
      cases h2 : segmentExceeds s s.imu_calib s.imu_calib.self_cal_segment_length <;>
      cases h3 : x4.imu_use_candidate <;> simp [hi.1]
  · simp [Dbl.lt, Dbl.c0_05, Dbl.c0_2]; norm_num
  · rw [hcam x4]
    simp [OnlineCalibrator.AnalyzeCalibrationWindow, Nat.not_lt.mpr hfull, hw, hr4]
  · rw [hcam x6]
    simp [OnlineCalibrator.AnalyzeCalibrationWindow, Nat.not_lt.mpr hfull, hw, hr6]

/-- C19 on the sample state: the full camera queue holds two windows of score 1; the
candidate of score 1.04 is rejected, the candidate of score 1.06 replaces the first. -/
theorem C19_queue_acceptance_margins_witness :
    (analyzeCandidates sampleCandidate4 sampleState).cam_calib.online_calibrator =
        sampleState.cam_calib.online_calibrator ∧
      (analyzeCandidates sampleCandidate6 sampleState).cam_calib.online_calibrator =
        { sampleState.cam_calib.online_calibrator with
          windows := replaceFirst sampleWindow sampleCandidate6.cam_candidate
            sampleState.cam_calib.online_calibrator.windows
          dirty := true } :=
  have h := C19_queue_acceptance_margins sampleCandidate4 sampleCandidate6 sampleState 1
    sampleWindow rfl rfl (by decide) (by decide)
    (by simp [sampleState, sampleCalib, weakest, sampleWindow, Dbl.lt, Dbl.one])
    rfl (by norm_num)
    (by simp [sampleCandidate4]) (by simp [sampleCandidate6])
  ⟨h.2.2.2.1, h.2.2.2.2⟩

/-! ### Update of the priority queues -/

/-- The loop that keeps the divergence for plotting changes nothing that the tests of
the update read. -/
theorem storeAddedDivergence_frame (calib : Calibration) :
    (storeAddedDivergence calib).online_calibrator = calib.online_calibrator ∧
    (storeAddedDivergence calib).unknown_calibration = calib.unknown_calibration ∧
    (storeAddedDivergence calib).type = calib.type ∧
    (storeAddedDivergence calib).do_self_cal = calib.do_self_cal := by
  unfold storeAddedDivergence
  split_ifs <;> exact ⟨rfl, rfl, rfl, rfl⟩

/-- The tests in front of the sensor blocks and the captured values are the same before
and after the loop that keeps the divergence for plotting. -/
theorem storeAddedDivergence_tests (s : State) :
    pqSensorTest
        { s with cam_calib := storeAddedDivergence s.cam_calib
                 imu_calib := storeAddedDivergence s.imu_calib }
        (storeAddedDivergence s.cam_calib) = pqSensorTest s s.cam_calib ∧
    pqSensorTest
        { s with cam_calib := storeAddedDivergence s.cam_calib
                 imu_calib := storeAddedDivergence s.imu_calib }
        (storeAddedDivergence s.imu_calib) = pqSensorTest s s.imu_calib ∧
    capturedApply
        { s with cam_calib := storeAddedDivergence s.cam_calib
                 imu_calib := storeAddedDivergence s.imu_calib }
        (storeAddedDivergence s.cam_calib) = capturedApply s s.cam_calib ∧
    capturedApply
        { s with cam_calib := storeAddedDivergence s.cam_calib
                 imu_calib := storeAddedDivergence s.imu_calib }
        (storeAddedDivergence s.imu_calib) = capturedApply s s.imu_calib := by
  have hc := storeAddedDivergence_frame s.cam_calib
  have hi := storeAddedDivergence_frame s.imu_calib
  refine ⟨?_, ?_, ?_, ?_⟩
  · unfold pqSensorTest
    rw [hc.1]
    congr 1
    exact SelfCalActive_congr _ _ _ _ rfl rfl hc.2.1 hc.2.2.1 hc.2.2.2
  · unfold pqSensorTest
    rw [hi.1]
    congr 1
    exact SelfCalActive_congr _ _ _ _ rfl rfl hc.2.1 hi.2.2.1 hi.2.2.2
  · unfold capturedApply
    rw [hc.2.1]
  · unfold capturedApply
    rw [hi.2.1]

/-- The calls made by the update of the priority queues, in terms of the state before
it. -/
theorem updatePriorityQueues_calls (x : PqInput) (s : State) :
    (updatePriorityQueues x s).2 =
      if queue_needs_update s then
        (if pqSensorTest s s.imu_calib then
          if x.do_async_pq then
            if !x.imu_running then
              [PqCall.overwriteParameters CalibrationType.IMU (capturedApply s s.imu_calib),
                PqCall.notify CalibrationType.IMU]
            else []
          else [PqCall.analyze CalibrationType.IMU (capturedApply s s.imu_calib)]
        else []) ++
        (if pqSensorTest s s.cam_calib then
          if x.do_async_pq then
            [PqCall.overwriteParameters CalibrationType.Camera (capturedApply s s.cam_calib),
              PqCall.notify CalibrationType.Camera]
          else [PqCall.analyze CalibrationType.Camera (capturedApply s s.cam_calib)]
        else []) ++
        (if !x.do_async_pq then [PqCall.applyResults (apply_pq_results s)] else [])
      else [] := by
  have h := storeAddedDivergence_tests s
  unfold updatePriorityQueues
  by_cases hq : queue_needs_update s = true
  · simp only [hq, if_true, imuQueueCalls, camQueueCalls, apply_pq_results, h.1, h.2.1, h.2.2.1,
      h.2.2.2]
  · simp only [hq, if_false, Bool.false_eq_true]

/-- C21, evaluated on the code: in asynchronous mode the block of the IMU asks
`IsPriorityQueueRunning()` and makes no call for the IMU while its queue is running, but
the block of the camera does not ask: whenever the update runs and the camera is active
with a queue that needs an update, the parameters of the camera worker are overwritten
and the worker is notified, also while the camera queue is running.  On the sample
state with both workers running the calls are exactly those two for the camera. -/
theorem C21_camera_notified_while_running :
    sampleBusy.do_async_pq = true ∧ sampleBusy.cam_running = true ∧
    sampleBusy.imu_running = true ∧
    (updatePriorityQueues sampleBusy sampleDirtyState).2 =
      [PqCall.overwriteParameters CalibrationType.Camera true,
        PqCall.notify CalibrationType.Camera] ∧
    (∀ (x : PqInput) (s : State), x.do_async_pq = true → x.imu_running = true →
      ∀ call ∈ (updatePriorityQueues x s).2, call.sensor ≠ some CalibrationType.IMU) ∧
    (∀ (x : PqInput) (s : State), x.do_async_pq = true → queue_needs_update s = true →
      pqSensorTest s s.cam_calib = true →
      PqCall.overwriteParameters CalibrationType.Camera (capturedApply s s.cam_calib) ∈
          (updatePriorityQueues x s).2 ∧
        PqCall.notify CalibrationType.Camera ∈ (updatePriorityQueues x s).2) := by
  refine ⟨rfl, rfl, rfl, by decide, ?_, ?_⟩
  · intro x s ha hr call hc
    rw [updatePriorityQueues_calls] at hc
    by_cases hq : queue_needs_update s = true <;>
      by_cases h1 : pqSensorTest s s.imu_calib = true <;>
      by_cases h2 : pqSensorTest s s.cam_calib = true <;>
      simp [hq, h1, h2, ha, hr] at hc
    all_goals
      rcases hc with h | h <;> rw [h] <;> simp [PqCall.sensor]
  · intro x s ha hq hc
    rw [updatePriorityQueues_calls]
    by_cases h1 : pqSensorTest s s.imu_calib = true <;>
      cases hr : x.imu_running <;> simp [hq, h1, hc, ha, hr]

/-- C22: every call by which the update of the priority queues starts the fusion for a
sensor (the synchronous `AnalyzePriorityQueue`, or in asynchronous mode the overwriting
of the worker parameters and the notification) is made only if `needs_update()` of that
sensor's calibrator is true and the sensor is active; and a call is made at all only if
some sensor has at once `needs_update()` true, a known calibration, active
self-calibration and more than one window in its queue. -/
theorem C22_dirty_flag_gating (x : PqInput) (s : State) (call : PqCall)
    (h : call ∈ (updatePriorityQueues x s).2) :
    (∀ sensor : CalibrationType, call.sensor = some sensor →
      (GetCalibration s sensor).online_calibrator.needs_update = true ∧
        SelfCalActive s (GetCalibration s sensor) = true) ∧
    (∃ sensor : CalibrationType,
      (GetCalibration s sensor).online_calibrator.needs_update = true ∧
      (GetCalibration s sensor).unknown_calibration = false ∧
      SelfCalActive s (GetCalibration s sensor) = true ∧
      (GetCalibration s sensor).online_calibrator.NumWindows > 1) := by
  rw [updatePriorityQueues_calls] at h
  by_cases hq : queue_needs_update s = true
  · refine ⟨?_, ?_⟩
    · intro sensor hs
      simp only [hq, if_true, List.mem_append] at h
      rcases h with (h | h) | h
      · by_cases h1 : pqSensorTest s s.imu_calib = true
        · have hsen : call.sensor = some CalibrationType.IMU := by
            cases ha : x.do_async_pq <;> cases hr : x.imu_running <;>
              simp [h1, ha, hr] at h
            · rw [h]; rfl
            · rw [h]; rfl
            · rcases h with h | h <;> rw [h] <;> rfl
          rw [hsen] at hs
          cases hs
          simp only [pqSensorTest, Bool.and_eq_true] at h1
          exact ⟨h1.2, h1.1⟩
        · simp [h1] at h
      · by_cases h2 : pqSensorTest s s.cam_calib = true
        · have hsen : call.sensor = some CalibrationType.Camera := by
            cases ha : x.do_async_pq <;> simp [h2, ha] at h
            · rw [h]; rfl
            · rcases h with h | h <;> rw [h] <;> rfl
          rw [hsen] at hs
          cases hs
          simp only [pqSensorTest, Bool.and_eq_true] at h2
          exact ⟨h2.2, h2.1⟩
        · simp [h2] at h
      · cases ha : x.do_async_pq <;> simp [ha] at h
        rw [h] at hs
        cases hs
    · simp only [queue_needs_update, pqNeedsUpdate, Bool.or_eq_true, Bool.and_eq_true,
        Bool.not_eq_true', decide_eq_true_eq] at hq
      rcases hq with hq | hq
      · exact ⟨CalibrationType.Camera, hq.1.1.1, hq.1.1.2, hq.1.2, hq.2⟩
      · exact ⟨CalibrationType.IMU, hq.1.1.1, hq.1.1.2, hq.1.2, hq.2⟩
  · simp [hq] at h

/-- C22 on the sample state in asynchronous mode: the notification of the camera worker
is among the calls, and the camera calibrator needs an update. -/
theorem C22_dirty_flag_gating_witness :
    PqCall.notify CalibrationType.Camera ∈ (updatePriorityQueues sampleBusy sampleDirtyState).2 ∧
    (GetCalibration sampleDirtyState CalibrationType.Camera).online_calibrator.needs_update
      = true :=
  ⟨by decide,
    ((C22_dirty_flag_gating sampleBusy sampleDirtyState (PqCall.notify CalibrationType.Camera)
      (by decide)).1 CalibrationType.Camera rfl).1⟩

/-! ### Termination of the inner loop of `DoAAC` -/

/-- An `int` within the range of 32 bits survives the conversion to `uint32_t` and
back. -/
theorem toI32_toU32 (i : Int) (h0 : -2 ^ 31 ≤ i) (h1 : i < 2 ^ 31) : toI32 (toU32 i) = i := by
  unfold toU32 toI32 U32
  split_ifs <;> omega

/-- C23, as stated, fails: with 40 poses in the graph the step is entered with a window
of 50 poses, above `end_pose_id = 39`, and the baseline 20; the size is reset to 20, the
growth test passes, and the size after the step is 50, not the baseline, so the inner
loop of `DoAAC` does not exit on its next test. -/
theorem C23_full_size_counterexample :
    (scenarioC_small.edgeKnown && scenarioC_small.do_adaptive_conditioning) = true ∧
    (sampleAac 50).num_active_poses > scenarioC_small.end_pose_id ∧
    (sampleAac 50).orig_num_aac_poses = 20 ∧
    (SelfCal.adaptiveStep scenarioC_small (sampleAac 50)).num_active_poses = 50 ∧
    SelfCal.innerLoopExits true (SelfCal.adaptiveStep scenarioC_small (sampleAac 50)) = false := by
  have hn : (SelfCal.adaptiveStep scenarioC_small (sampleAac 50)).num_active_poses = 50 := by
    rw [selfcal_adaptiveStep_num _ _ (by decide), scenarioC_small_noChange]
    have hg : SelfCal.grows (prevOrMax (sampleAac 50).prev_cond_error) scenarioC_small = true :=
      (congrArg (fun p => SelfCal.grows p scenarioC_small) prevOrMax_100).trans
        scenarioC_small_grows
    rw [hg]
    decide
  refine ⟨by decide, by decide, rfl, hn, ?_⟩
  unfold SelfCal.innerLoopExits
  rw [hn, selfcal_adaptiveStep_orig]
  decide

/-- C23, amended: an adaptive step that is taken with the window size above
`end_pose_id` first resets the size to the baseline `orig_num_aac_poses`.  If the
conditioning error or dimension is zero, or the growth test fails, the size after the
step is the baseline and the inner loop of `DoAAC` exits on its next test.  If the
growth test passes, the size after the step is the baseline plus 30 (modulo `2 ^ 32`)
and the inner loop exits only if adaptive mode is off. -/
theorem C23_full_size_step (x : AdaptiveInput) (a : SelfCal.Aac) (do_adaptive : Bool)
    (ht : (x.edgeKnown && x.do_adaptive_conditioning) = true)
    (hfull : a.num_active_poses > x.end_pose_id)
    (h0 : -2 ^ 31 ≤ a.orig_num_aac_poses) (h1 : a.orig_num_aac_poses < 2 ^ 31) :
    ((x.noChange = true ∨ SelfCal.grows (prevOrMax a.prev_cond_error) x = false) →
      (SelfCal.adaptiveStep x a).num_active_poses = toU32 a.orig_num_aac_poses ∧
      toI32 (SelfCal.adaptiveStep x a).num_active_poses = a.orig_num_aac_poses ∧
      SelfCal.innerLoopExits do_adaptive (SelfCal.adaptiveStep x a) = true) ∧
    (x.noChange = false → SelfCal.grows (prevOrMax a.prev_cond_error) x = true →
      (SelfCal.adaptiveStep x a).num_active_poses = (toU32 a.orig_num_aac_poses + 30) % U32 ∧
      toI32 (SelfCal.adaptiveStep x a).num_active_poses ≠ a.orig_num_aac_poses ∧
      SelfCal.innerLoopExits do_adaptive (SelfCal.adaptiveStep x a) = !do_adaptive) := by
  have hc : SelfCal.clampToBaseline x a = toU32 a.orig_num_aac_poses := by
    unfold SelfCal.clampToBaseline
    rw [if_pos hfull]
  have hnum := selfcal_adaptiveStep_num x a ht
  rw [hc] at hnum
  have horig := selfcal_adaptiveStep_orig x a
  have hback := toI32_toU32 a.orig_num_aac_poses h0 h1
  refine ⟨?_, ?_⟩
  · intro h
    have hn : (SelfCal.adaptiveStep x a).num_active_poses = toU32 a.orig_num_aac_poses := by
      rw [hnum]
      rcases h with h | h
      · rw [h, if_pos rfl]
      · by_cases hz : x.noChange = true
        · rw [hz, if_pos rfl]
        · rw [if_neg hz, h]
          rfl
    refine ⟨hn, by rw [hn, hback], ?_⟩
    unfold SelfCal.innerLoopExits
    rw [hn, horig, hback]
    simp
  · intro hz hg
    have hn : (SelfCal.adaptiveStep x a).num_active_poses =
        (toU32 a.orig_num_aac_poses + 30) % U32 := by
      rw [hnum, hz, hg]
      rfl
    have hne : toI32 ((toU32 a.orig_num_aac_poses + 30) % U32) ≠ a.orig_num_aac_poses := by
      unfold toU32 toI32 U32
      split_ifs <;> omega
    refine ⟨hn, by rw [hn]; exact hne, ?_⟩
    unfold SelfCal.innerLoopExits
    rw [hn, horig]
    simp [hne]

/-- C23, amended, on Scenario C with inertial ratio `0.8` and 101 poses: a step entered
with a window of 150 poses and the baseline 20 ends at 20 poses, and the inner loop
exits. -/
theorem C23_full_size_step_witness :
    (SelfCal.adaptiveStep scenarioC_low (sampleAac 150)).num_active_poses = 20 ∧
    SelfCal.innerLoopExits true (SelfCal.adaptiveStep scenarioC_low (sampleAac 150)) = true :=
  have hg : SelfCal.grows (prevOrMax (sampleAac 150).prev_cond_error) scenarioC_low = false :=
    (congrArg (fun p => SelfCal.grows p scenarioC_low) prevOrMax_100).trans scenarioC_low_grows
  have h := (C23_full_size_step scenarioC_low (sampleAac 150) true (by decide) (by decide)
    (by decide) (by decide)).1 (Or.inr hg)
  ⟨h.1, h.2.2⟩

/-! ### Per-pose camera parameters -/

/-- Entry `i` of a list whose elements from index `n` on were rewritten by `f`, for
`i` at or after `n`. -/
theorem getElem?_take_append_map_drop {α : Type} (f : α → α) (l : List α) (n i : Nat)
    (h : n ≤ i) : (l.take n ++ (l.drop n).map f)[i]? = l[i]?.map f := by
  by_cases hn : n ≤ l.length
  · have hlen : (l.take n).length = n := by simp [hn]
    rw [List.getElem?_append_right (by omega), hlen, List.getElem?_map, List.getElem?_drop]
    congr 2
    omega
  · have hd : l.drop n = [] := List.drop_eq_nil_of_le (by omega)
    have ht : l.take n = l := List.take_of_length_le (by omega)
    rw [hd, ht, List.map_nil, List.append_nil, List.getElem?_eq_none (by omega)]
    rfl

/-- C24, evaluated on the code: when `ApplyPriorityQueueResults` applies results with
the camera active, the live rig gets the parameters of the scratch rig and every pose at
or after the camera's `unknown_calibration_start_pose` is rewritten inside the loop over
its tracks.  A pose that has tracks gets the new parameters as `cam_params`, and every
one of its tracks gets a new reference ray and `needs_backprojection`; a pose without
tracks is left as it is and keeps its old `cam_params`.  The loop of the batch block
sets `cam_params` of every pose from the rollback index on, with or without tracks. -/
theorem C24_trackless_pose_keeps_cam_params (unproject : List Dbl → List Dbl → List Dbl)
    (s : State) (poses : List TrackerPose) (i : Nat) (pose : TrackerPose)
    (hb : s.use_batch_estimates = false) (ha : SelfCalActive s s.cam_calib = true)
    (hi : s.cam_calib.unknown_calibration_start_pose ≤ i) (hp : poses[i]? = some pose) :
    (ApplyPriorityQueueResults unproject true s poses).1.rig.params = s.selfcal_rig.params ∧
    (ApplyPriorityQueueResults unproject true s poses).2[i]? =
      some (reprojectPose unproject s.selfcal_rig.params pose) ∧
    (pose.tracks ≠ [] →
      (reprojectPose unproject s.selfcal_rig.params pose).cam_params = s.selfcal_rig.params ∧
      (reprojectPose unproject s.selfcal_rig.params pose).tracks =
        pose.tracks.map (fun track =>
          { track with ray := unproject s.selfcal_rig.params track.center_px
                       needs_backprojection := true })) ∧
    (pose.tracks = [] →
      (ApplyPriorityQueueResults unproject true s poses).2[i]? = some pose) ∧
    (batchReproject unproject (copyRig s) poses)[i]? =
      some (batchReprojectPose unproject s.selfcal_rig.params pose) ∧
    (batchReprojectPose unproject s.selfcal_rig.params pose).cam_params =
      s.selfcal_rig.params := by
  have hact : SelfCalActive (copyRig s) (copyRig s).cam_calib = true := by
    rw [← ha]
    exact SelfCalActive_congr _ _ _ _ rfl rfl rfl rfl rfl
  have hres : (ApplyPriorityQueueResults unproject true s poses).2[i]? =
      some (reprojectPose unproject s.selfcal_rig.params pose) := by
    unfold ApplyPriorityQueueResults
    simp only [hb, Bool.not_false, Bool.and_self, if_true, hact]
    have h := getElem?_take_append_map_drop
      (reprojectPose unproject (copyRig s).rig.params) poses
      (copyRig s).cam_calib.unknown_calibration_start_pose i hi
    rw [hp] at h
    exact h
  refine ⟨?_, hres, ?_, ?_, ?_, rfl⟩
  · rw [ApplyPriorityQueueResults_rig _ _ _ hb]
  · intro ht
    unfold reprojectPose
    rw [if_neg ht]
    exact ⟨rfl, rfl⟩
  · intro ht
    rw [hres]
    unfold reprojectPose
    rw [if_pos ht]
  · unfold batchReproject
    rw [if_pos hact]
    have h := getElem?_take_append_map_drop
      (batchReprojectPose unproject (copyRig s).rig.params) poses
      (copyRig s).cam_calib.unknown_calibration_start_pose i hi
    rw [hp] at h
    exact h

/-- C24 on the sample pose graph, whose third pose has no tracks: after the results are
applied the live rig holds the parameters `2, 2, 2, 2`, the first pose has them as
`cam_params`, and the third pose still has its old, empty `cam_params`; the loop of the
batch block gives the third pose the new parameters. -/
theorem C24_trackless_pose_keeps_cam_params_witness :
    (ApplyPriorityQueueResults (fun _ px => px) true sampleApplyState samplePoses).1.rig.params =
      [Dbl.fin 2, Dbl.fin 2, Dbl.fin 2, Dbl.fin 2] ∧
    (ApplyPriorityQueueResults (fun _ px => px) true sampleApplyState samplePoses).2[2]? =
      some { tracks := [], opt_id := 0, cam_params := [], time := Dbl.fin 3 } ∧
    ((batchReproject (fun _ px => px) (copyRig sampleApplyState) samplePoses)[2]?).map
        (fun pose => pose.cam_params) =
      some [Dbl.fin 2, Dbl.fin 2, Dbl.fin 2, Dbl.fin 2] :=
  have h := C24_trackless_pose_keeps_cam_params (fun _ px => px) sampleApplyState samplePoses 2
    { tracks := [], opt_id := 0, cam_params := [], time := Dbl.fin 3 } rfl rfl (by decide) rfl
  ⟨h.1, h.2.2.2.1 rfl, by rw [h.2.2.2.2.1]; rfl⟩

/-! ### Motion guess -/

theorem initialGuess_sample : initialGuess sampleGuessInput = SE3.identity := by
  simp [initialGuess, sampleGuessInput, Dbl.gt, Dbl.lt, Dbl.c0_2, Dbl.c0_3]
  norm_num

theorem translationIsZero_identity : SE3.identity.translationIsZero = true := by
  simp [SE3.translationIsZero, SE3.identity, Dbl.eq, Dbl.zero]

/-- With more than one pose the identity guess gets the translation `(0, 0, 0.001)`. -/
theorem perturbGuess_identity (poses_size : Nat) (h : poses_size > 1) :
    perturbGuess poses_size SE3.identity =
      { rotation := [Dbl.fin 0, Dbl.fin 0, Dbl.fin 0, Dbl.fin 1]
        translation := [Dbl.fin 0, Dbl.fin 0, Dbl.c0_001] } := by
  unfold perturbGuess
  have hd : decide (poses_size > 1) = true := by simp; omega
  rw [hd, translationIsZero_identity]
  rfl

/-- C25, as stated, fails: with a track ratio of `0.2` and two poses in the graph the
guess given to the tracker is not the identity transform but the identity rotation with
the translation `(0, 0, 0.001)`; and with an IMU present whose measurements are not in
use, 5 successful tracks do not make the tracker's relative transform be replaced by the
guess. -/
theorem C25_motion_guess_counterexample :
    Dbl.gt sampleGuessInput.track_ratio Dbl.c0_3 = false ∧
    motionGuess 2 sampleGuessInput =
      { rotation := [Dbl.fin 0, Dbl.fin 0, Dbl.fin 0, Dbl.fin 1]
        translation := [Dbl.fin 0, Dbl.fin 0, Dbl.c0_001] } ∧
    motionGuess 2 sampleGuessInput ≠ SE3.identity ∧
    trackerTransform 2 { sampleGuessInput with has_imu := true } =
      sampleGuessInput.tracker_t_ba ∧
    trackerTransform 2 { sampleGuessInput with has_imu := true } ≠
      motionGuess 2 { sampleGuessInput with has_imu := true } := by
  have hg : motionGuess 2 sampleGuessInput =
      { rotation := [Dbl.fin 0, Dbl.fin 0, Dbl.fin 0, Dbl.fin 1]
        translation := [Dbl.fin 0, Dbl.fin 0, Dbl.c0_001] } := by
    unfold motionGuess
    rw [initialGuess_sample, perturbGuess_identity 2 (by decide)]
    simp [imuGuess, imuGuessGate, sampleGuessInput]
  have hg2 : motionGuess 2 { sampleGuessInput with has_imu := true } =
      { rotation := [Dbl.fin 0, Dbl.fin 0, Dbl.fin 0, Dbl.fin 1]
        translation := [Dbl.fin 0, Dbl.fin 0, Dbl.c0_001] } := by
    have hi : initialGuess { sampleGuessInput with has_imu := true } = SE3.identity :=
      initialGuess_sample
    unfold motionGuess
    rw [hi, perturbGuess_identity 2 (by decide)]
    simp [imuGuess, imuGuessGate, sampleGuessInput]
  have ht : trackerTransform 2 { sampleGuessInput with has_imu := true } =
      sampleGuessInput.tracker_t_ba := by
    simp [trackerTransform, sampleGuessInput]
  refine ⟨?_, hg, ?_, ht, ?_⟩
  · simp [sampleGuessInput, Dbl.gt, Dbl.lt, Dbl.c0_2, Dbl.c0_3]
    norm_num
  · rw [hg]
    simp [SE3.identity, Dbl.c0_001]
  · rw [ht, hg2]
    simp [sampleGuessInput, SE3.identity]

/-- C25, amended: the guess first chosen is the identity transform when the track ratio
is not greater than `0.3` (also when it is NaN) and `prev_delta_t_ba * prev_t_ba` when
it is greater.  A guess whose translation is zero gets the translation `(0, 0, 0.001)`
when there is more than one pose, and the result of the IMU integration replaces the
guess when inertial measurements are used for the guess, `poses.size()` exceeds
`min_poses_for_imu`, the IMU calibration is known and the integration returned more
than one pose.  Neither branch fails: a frame that passes the timestamp test is
processed with that guess.  The tracker's relative transform is replaced by the guess
if and only if fewer than 10 tracks succeeded, an IMU is present and its measurements
are in use. -/
theorem C25_motion_guess (is_prev_keyframe : Bool) (timestamp imu_time_offset : Dbl)
    (times : List Dbl) (x : GuessInput) (poses_size : Nat) :
    (Dbl.gt x.track_ratio Dbl.c0_3 = false → initialGuess x = SE3.identity) ∧
    (Dbl.gt x.track_ratio Dbl.c0_3 = true →
      initialGuess x = x.mul x.prev_delta_t_ba x.prev_t_ba) ∧
    (imuGuessGate poses_size x = false ∨ x.imu_integration = none →
      motionGuess poses_size x = perturbGuess poses_size (initialGuess x)) ∧
    (∀ t, imuGuessGate poses_size x = true → x.imu_integration = some t →
      motionGuess poses_size x = t) ∧
    (Dbl.gt x.track_ratio Dbl.c0_3 = false → poses_size ≤ 1 →
      perturbGuess poses_size (initialGuess x) = SE3.identity) ∧
    (Dbl.gt x.track_ratio Dbl.c0_3 = false → poses_size > 1 →
      perturbGuess poses_size (initialGuess x) =
        { rotation := [Dbl.fin 0, Dbl.fin 0, Dbl.fin 0, Dbl.fin 1]
          translation := [Dbl.fin 0, Dbl.fin 0, Dbl.c0_001] }) ∧
    (∀ stamped, stampAndCheck is_prev_keyframe timestamp imu_time_offset times = some stamped →
      processFrame is_prev_keyframe timestamp imu_time_offset times x =
        some (stamped, motionGuess stamped.length x, trackerTransform stamped.length x)) ∧
    ((x.num_successful_tracks < 10 ∧ x.has_imu = true ∧ x.use_imu_measurements = true) →
      trackerTransform poses_size x = motionGuess poses_size x) ∧
    (¬ (x.num_successful_tracks < 10 ∧ x.has_imu = true ∧ x.use_imu_measurements = true) →
      trackerTransform poses_size x = x.tracker_t_ba) := by
  have hid : ∀ h : Dbl.gt x.track_ratio Dbl.c0_3 = false, initialGuess x = SE3.identity := by
    intro h
    unfold initialGuess
    rw [h]
    rfl
  refine ⟨hid, ?_, ?_, ?_, ?_, ?_, ?_, ?_, ?_⟩
  · intro h
    unfold initialGuess
    rw [h]
    rfl
  · intro h
    unfold motionGuess imuGuess
    rcases h with h | h
    · rw [h]
      rfl
    · rw [h]
      split_ifs <;> rfl
  · intro t hg ht
    unfold motionGuess imuGuess
    rw [hg, ht]
    rfl
  · intro h hp
    rw [hid h]
    unfold perturbGuess
    have : decide (poses_size > 1) = false := by simp; omega
    rw [this, Bool.and_false]
    rfl
  · intro h hp
    rw [hid h]
    exact perturbGuess_identity poses_size hp
  · intro stamped hs
    unfold processFrame
    rw [hs]
    rfl
  · intro h
    unfold trackerTransform
    simp [h.1, h.2.1, h.2.2]
  · intro h
    unfold trackerTransform
    by_cases h1 : x.num_successful_tracks < 10 <;> cases h2 : x.has_imu <;>
      cases h3 : x.use_imu_measurements <;> simp [h1, h2, h3] at h ⊢

/-! ### Size of the tracking bundle adjustment -/

/-- C26: in `BaAndStartNewLandmarks`, with the map `calibrations` keyed by sensor type,
if no active sensor is Unknown then `ba_size = num_ba_poses`; the camera and the IMU are
never both active and Unknown; if an active sensor is Unknown then
`ba_size = max(num_ba_poses, batch_end - unknown_calibration_start_pose)` of that
sensor, in `uint32_t` arithmetic; in every case `ba_size >= num_ba_poses`; and when the
rollback index of the Unknown active sensor does not exceed the pose count (which fits
32 bits), `ba_size` is at least the number of poses since the rollback index. -/
theorem C26_ba_size_unknown_calibration (num_ba_poses : Nat) (s : State) (hw : s.wellTyped) :
    (has_unknown_calibration s = false → ba_size num_ba_poses s = num_ba_poses) ∧
    ¬ ((SelfCalActive s s.cam_calib = true ∧ s.cam_calib.unknown_calibration = true) ∧
        (SelfCalActive s s.imu_calib = true ∧ s.imu_calib.unknown_calibration = true)) ∧
    (SelfCalActive s s.cam_calib = true → s.cam_calib.unknown_calibration = true →
      has_unknown_calibration s = true ∧
      ba_size num_ba_poses s =
        max num_ba_poses (sub32 (batch_end s) s.cam_calib.unknown_calibration_start_pose) ∧
      (s.cam_calib.unknown_calibration_start_pose ≤ s.poses_size → s.poses_size < U32 →
        ba_size num_ba_poses s ≥ s.poses_size - s.cam_calib.unknown_calibration_start_pose)) ∧
    (SelfCalActive s s.imu_calib = true → s.imu_calib.unknown_calibration = true →
      has_unknown_calibration s = true ∧
      ba_size num_ba_poses s =
        max num_ba_poses (sub32 (batch_end s) s.imu_calib.unknown_calibration_start_pose) ∧
      (s.imu_calib.unknown_calibration_start_pose ≤ s.poses_size → s.poses_size < U32 →
        ba_size num_ba_poses s ≥ s.poses_size - s.imu_calib.unknown_calibration_start_pose)) ∧
    ba_size num_ba_poses s ≥ num_ba_poses := by
  have hex : ¬ ((SelfCalActive s s.cam_calib = true ∧ s.cam_calib.unknown_calibration = true) ∧
      (SelfCalActive s s.imu_calib = true ∧ s.imu_calib.unknown_calibration = true)) := by
    rintro ⟨⟨_, hcu⟩, ⟨hia, _⟩⟩
    unfold SelfCalActive at hia
    rw [hw.2] at hia
    simp [GetCalibration, hcu] at hia
  have hsub : ∀ start : Nat, start ≤ s.poses_size → s.poses_size < U32 →
      sub32 (batch_end s) start = s.poses_size - start := by
    intro start h1 h2
    unfold sub32 batch_end U32 at *
    omega
  refine ⟨?_, hex, ?_, ?_, ?_⟩
  · intro h
    unfold ba_size
    rw [h]
    rfl
  · intro ha hu
    have hi : (SelfCalActive s s.imu_calib && s.imu_calib.unknown_calibration) = false := by
      cases h1 : SelfCalActive s s.imu_calib <;> cases h2 : s.imu_calib.unknown_calibration <;>
        simp
      exact hex ⟨⟨ha, hu⟩, ⟨h1, h2⟩⟩
    have hh : has_unknown_calibration s = true := by
      unfold has_unknown_calibration
      rw [ha, hu]
      rfl
    have hb : ba_size num_ba_poses s =
        max num_ba_poses (sub32 (batch_end s) s.cam_calib.unknown_calibration_start_pose) := by
      unfold ba_size
      rw [hh, hi, ha, hu]
      rfl
    refine ⟨hh, hb, ?_⟩
    intro h1 h2
    rw [hb, hsub _ h1 h2]
    exact le_max_right _ _
  · intro ha hu
    have hc : (SelfCalActive s s.cam_calib && s.cam_calib.unknown_calibration) = false := by
      cases h1 : SelfCalActive s s.cam_calib <;> cases h2 : s.cam_calib.unknown_calibration <;>
        simp
      exact hex ⟨⟨h1, h2⟩, ⟨ha, hu⟩⟩
    have hh : has_unknown_calibration s = true := by
      unfold has_unknown_calibration
      rw [ha, hu]
      simp
    have hb : ba_size num_ba_poses s =
        max num_ba_poses (sub32 (batch_end s) s.imu_calib.unknown_calibration_start_pose) := by
      unfold ba_size
      rw [hh, hc, ha, hu]
      simp [max_comm]
    refine ⟨hh, hb, ?_⟩
    intro h1 h2
    rw [hb, hsub _ h1 h2]
    exact le_max_right _ _
  · unfold ba_size
    split_ifs with h0 h1 h2
    · exfalso
      simp only [Bool.and_eq_true] at h1 h2
      exact hex ⟨h2, h1⟩
    all_goals simp

/-- C26 on the keyframe with 25 poses in which the camera is Unknown since pose 0: with
`num_ba_poses = 10` the window holds all 25 poses. -/
theorem C26_ba_size_unknown_calibration_witness :
    sampleBatchState.wellTyped ∧ ba_size 10 sampleBatchState = 25 :=
  ⟨⟨rfl, rfl⟩,
    ((C26_ba_size_unknown_calibration 10 sampleBatchState ⟨rfl, rfl⟩).2.2.1 rfl rfl).2.1⟩

/-! ### Change detection for the IMU -/

/-- The loop body of the change detection keeps the type and the switch of a sensor and
never makes an Unknown sensor known. -/
theorem changeCheckBody_frame (poses_size : Nat) (calib : Calibration) :
    (changeCheckBody poses_size calib).type = calib.type ∧
    (changeCheckBody poses_size calib).do_self_cal = calib.do_self_cal ∧
    ((changeCheckBody poses_size calib).unknown_calibration = false →
      calib.unknown_calibration = false) := by
  unfold changeCheckBody CheckParameterChange
  simp only []
  split_ifs <;> simp

/-- With a zero divergence the loop body resets the counter and leaves
`unknown_calibration`, the rollback index and the queue as they are. -/
theorem changeCheckBody_zero (poses_size : Nat) (calib : Calibration)
    (h : calib.last_window_kl_divergence = Dbl.zero) :
    (changeCheckBody poses_size calib).num_change_detected = 0 ∧
    (changeCheckBody poses_size calib).unknown_calibration = calib.unknown_calibration ∧
    (changeCheckBody poses_size calib).unknown_calibration_start_pose =
      calib.unknown_calibration_start_pose ∧
    (changeCheckBody poses_size calib).online_calibrator = calib.online_calibrator := by
  unfold changeCheckBody
  simp only []
  split_ifs <;>
    (rw [CheckParameterChange_zero_divergence _ _ (by first | rfl | exact h)]
     exact ⟨rfl, rfl, rfl, rfl⟩)

/-- An IMU sensor that is active after a step that keeps the flags, the type and the
switch, and that does not make the camera known, was active before the step. -/
theorem imu_active_before (s t : State) (h1 : t.has_imu = s.has_imu)
    (h2 : t.use_imu_measurements = s.use_imu_measurements)
    (h3 : t.imu_calib.type = s.imu_calib.type)
    (h4 : t.imu_calib.do_self_cal = s.imu_calib.do_self_cal)
    (h5 : t.cam_calib.unknown_calibration = false → s.cam_calib.unknown_calibration = false)
    (ha : SelfCalActive t t.imu_calib = true) : SelfCalActive s s.imu_calib = true := by
  unfold SelfCalActive GetCalibration at *
  rw [h1, h2, h3, h4] at ha
  cases ht : s.imu_calib.type
  · rw [ht] at ha
    exact ha
  · rw [ht] at ha
    simp only [Bool.and_eq_true, Bool.not_eq_true'] at ha ⊢
    exact ⟨ha.1, h5 ha.2⟩

/-- The IMU sensor after the change-detection section: it is as before, or its
divergence was set to 0, or its divergence was set to 0 and the loop body was run on
it. -/
theorem changeDetection_imu_calib (rank : List (List Dbl) → Nat)
    (ComputeYao1965 : CalibrationWindow → CalibrationWindow → Dbl) (s : State) :
    (changeDetection rank ComputeYao1965 s).imu_calib = s.imu_calib ∨
    (changeDetection rank ComputeYao1965 s).imu_calib =
      { s.imu_calib with last_window_kl_divergence := Dbl.zero } ∨
    (changeDetection rank ComputeYao1965 s).imu_calib =
      changeCheckBody s.poses_size { s.imu_calib with last_window_kl_divergence := Dbl.zero } := by
  unfold changeDetection
  simp only []
  split_ifs with h1 h2 h3 h4 h5 h6 h7
  all_goals first
    | exact Or.inl rfl
    | exact Or.inr (Or.inl rfl)
    | exact Or.inr (Or.inr rfl)
    | (exfalso
       refine h2 (imu_active_before _ _ ?_ ?_ ?_ ?_ ?_ h7)
       · rfl
       · rfl
       · rfl
       · rfl
       · exact (changeCheckBody_frame _ _).2.2)

/-- C27: in the change-detection section of `BaAndStartNewLandmarks` the divergence of an
active IMU sensor is set to 0 before the loop that calls `CheckParameterChange`, and the
loop body runs on the IMU only with that zero divergence.  Hence the section never
increments the IMU counter (the counter is 0 or as before), never sets the IMU sensor's
`unknown_calibration`, never moves its rollback index and never clears its queue; the
same holds after any sequence of keyframes. -/
theorem C27_imu_change_detection_inert (rank : List (List Dbl) → Nat)
    (ComputeYao1965 : CalibrationWindow → CalibrationWindow → Dbl) (s : State)
    (inputs : List ((List (List Dbl) → Nat) × (CalibrationWindow → CalibrationWindow → Dbl))) :
    ((changeDetection rank ComputeYao1965 s).imu_calib.num_change_detected = 0 ∨
      (changeDetection rank ComputeYao1965 s).imu_calib.num_change_detected =
        s.imu_calib.num_change_detected) ∧
    (changeDetection rank ComputeYao1965 s).imu_calib.unknown_calibration =
      s.imu_calib.unknown_calibration ∧
    (changeDetection rank ComputeYao1965 s).imu_calib.unknown_calibration_start_pose =
      s.imu_calib.unknown_calibration_start_pose ∧
    (changeDetection rank ComputeYao1965 s).imu_calib.online_calibrator =
      s.imu_calib.online_calibrator ∧
    ((changeDetection rank ComputeYao1965 s).imu_calib = s.imu_calib ∨
      (changeDetection rank ComputeYao1965 s).imu_calib =
        { s.imu_calib with last_window_kl_divergence := Dbl.zero } ∨
      (changeDetection rank ComputeYao1965 s).imu_calib =
        changeCheckBody s.poses_size
          { s.imu_calib with last_window_kl_divergence := Dbl.zero }) ∧
    (inputs.foldl (fun t x => changeDetection x.1 x.2 t) s).imu_calib.unknown_calibration =
      s.imu_calib.unknown_calibration ∧
    (inputs.foldl (fun t x => changeDetection x.1 x.2 t) s).imu_calib.online_calibrator =
      s.imu_calib.online_calibrator ∧
    (inputs.foldl (fun t x => changeDetection x.1 x.2 t) s).imu_calib.num_change_detected ≤
      s.imu_calib.num_change_detected := by
  have step : ∀ (r : List (List Dbl) → Nat)
      (y : CalibrationWindow → CalibrationWindow → Dbl) (t : State),
      ((changeDetection r y t).imu_calib.num_change_detected = 0 ∨
        (changeDetection r y t).imu_calib.num_change_detected = t.imu_calib.num_change_detected) ∧
      (changeDetection r y t).imu_calib.unknown_calibration = t.imu_calib.unknown_calibration ∧
      (changeDetection r y t).imu_calib.unknown_calibration_start_pose =
        t.imu_calib.unknown_calibration_start_pose ∧
      (changeDetection r y t).imu_calib.online_calibrator = t.imu_calib.online_calibrator := by
    intro r y t
    have hz := changeCheckBody_zero t.poses_size
      { t.imu_calib with last_window_kl_divergence := Dbl.zero } rfl
    rcases changeDetection_imu_calib r y t with h | h | h
    · rw [h]
      exact ⟨Or.inr rfl, rfl, rfl, rfl⟩
    · rw [h]
      exact ⟨Or.inr rfl, rfl, rfl, rfl⟩
    · rw [h]
      exact ⟨Or.inl hz.1, hz.2.1, hz.2.2.1, hz.2.2.2⟩
  have hfold : ∀ (xs : List ((List (List Dbl) → Nat) ×
      (CalibrationWindow → CalibrationWindow → Dbl))) (t : State),
      (xs.foldl (fun t x => changeDetection x.1 x.2 t) t).imu_calib.unknown_calibration =
        t.imu_calib.unknown_calibration ∧
      (xs.foldl (fun t x => changeDetection x.1 x.2 t) t).imu_calib.online_calibrator =
        t.imu_calib.online_calibrator ∧
      (xs.foldl (fun t x => changeDetection x.1 x.2 t) t).imu_calib.num_change_detected ≤
        t.imu_calib.num_change_detected := by
    intro xs
    induction xs with
    | nil => intro t; exact ⟨rfl, rfl, le_refl _⟩
    | cons x rest ih =>
      intro t
      have h1 := step x.1 x.2 t
      have h2 := ih (changeDetection x.1 x.2 t)
      rw [List.foldl_cons]
      refine ⟨h2.1.trans h1.2.1, h2.2.1.trans h1.2.2.2, le_trans h2.2.2 ?_⟩
      rcases h1.1 with h | h <;> omega
  have hs := step rank ComputeYao1965 s
  exact ⟨hs.1, hs.2.1, hs.2.2.1, hs.2.2.2, changeDetection_imu_calib rank ComputeYao1965 s,
    hfold inputs s⟩

/-! ### Outlier flags -/

/-- The first loop keeps every track in place and changes only its `external_id`; a
track that is an outlier gets `UINT_MAX`. -/
theorem addPoses_tracks (c : BaConfig) (ps : List TrackerPose) :
    ∀ (ii : Nat) (problem : BaProblem),
      List.Forall₂
        (fun (p q : TrackerPose) =>
          List.Forall₂
            (fun (t u : DenseTrack) =>
              u = { t with external_id := u.external_id } ∧
              (t.is_outlier = true → u.external_id = UINT_MAX))
            p.tracks q.tracks)
        ps (SelfCal.addPoses c ii ps problem).2 := by
  induction ps with
  | nil => intro ii problem; exact List.Forall₂.nil
  | cons pose rest ih =>
    intro ii problem
    unfold SelfCal.addPoses
    simp only []
    refine List.Forall₂.cons ?_ (ih _ _)
    exact (addLandmarks_tracks c ii _ pose.tracks problem.landmarks).imp
      (fun t u h => ⟨h.1, fun ho => h.2 (by simp [SelfCal.excluded, ho])⟩)

/-- C28: in `DoBundleAdjustment` of `sd_selfcal.cpp` called with `reset_outliers` false,
a track that is an outlier on entry is excluded by the first loop (its `external_id`
becomes `UINT_MAX`, so no residual refers to it) and is skipped by the read-back; over
the whole pose graph every such track is still an outlier on exit and has the same
reference ray and inverse depth.  With `reset_outliers` true the flags of all tracks
are cleared at the start. -/
theorem C28_outlier_flags_sticky (c : BaConfig) (has_current_tracks : Bool)
    (r : ReadbackConfig) (ratio solved_rho : Nat → Dbl) (poses : List TrackerPose)
    (hrange : c.start_pose_id ≤ c.end_pose_id) :
    (∀ (ii num_poses : Nat) (ps : List TrackerPose) (problem : BaProblem),
      List.Forall₂
        (fun (p q : TrackerPose) =>
          List.Forall₂
            (fun (t u : DenseTrack) =>
              t.is_outlier = true →
                u.external_id = UINT_MAX ∧
                SelfCal.trackResiduals c num_poses q.opt_id u = [] ∧
                SelfCal.readbackTrack r ratio solved_rho u = u)
            p.tracks q.tracks)
        ps (SelfCal.addPoses c ii ps problem).2) ∧
    List.Forall₂
      (fun (p q : TrackerPose) =>
        List.Forall₂
          (fun (t v : DenseTrack) =>
            t.is_outlier = true → v.is_outlier = true ∧ v.ray = t.ray ∧ v.rho = t.rho)
          p.tracks q.tracks)
      poses (SelfCal.DoBundleAdjustment false c has_current_tracks r ratio solved_rho poses) ∧
    (∀ pose ∈ SelfCal.resetOutliers true poses, ∀ t ∈ pose.tracks, t.is_outlier = false) := by
  have hsame : ∀ l : List TrackerPose,
      List.Forall₂
        (fun (p q : TrackerPose) =>
          List.Forall₂
            (fun (t v : DenseTrack) =>
              t.is_outlier = true → v.is_outlier = true ∧ v.ray = t.ray ∧ v.rho = t.rho)
            p.tracks q.tracks) l l := by
    intro l
    rw [List.forall₂_same]
    intro p _
    rw [List.forall₂_same]
    intro t _ h
    exact ⟨h, rfl, rfl⟩
  refine ⟨?_, ?_, ?_⟩
  · intro ii num_poses ps problem
    refine (addPoses_tracks c ps ii problem).imp ?_
    intro p q hpq
    refine hpq.imp ?_
    intro t u h ho
    have hx := h.2 ho
    refine ⟨hx, ?_, ?_⟩
    · unfold SelfCal.trackResiduals
      rw [if_pos hx]
    · unfold SelfCal.readbackTrack
      rw [if_pos hx]
  · unfold SelfCal.DoBundleAdjustment
    have hreset : SelfCal.resetOutliers false poses = poses := rfl
    rw [hreset]
    by_cases h1 : c.start_pose_id = c.end_pose_id
    · rw [if_pos h1]
      exact hsame poses
    · rw [if_neg h1]
      by_cases h2 : (has_current_tracks && decide (c.end_pose_id ≠ 0)) = true
      · rw [if_pos h2]
        have hf : c.first_pose ≤ c.end_pose_id + 1 := by
          unfold BaConfig.first_pose
          split_ifs <;> omega
        have hsplit : poses = poses.take c.first_pose ++
            (poses.drop c.first_pose).take (c.end_pose_id + 1 - c.first_pose) ++
            poses.drop (c.end_pose_id + 1) := by
          have hd : poses.drop (c.end_pose_id + 1) =
              (poses.drop c.first_pose).drop (c.end_pose_id + 1 - c.first_pose) := by
            rw [List.drop_drop]
            congr 1
            omega
          rw [hd, List.append_assoc, List.take_append_drop, List.take_append_drop]
        nth_rewrite 1 [hsplit]
        refine List.rel_append (List.rel_append (hsame _) ?_) (hsame _)
        rw [List.forall₂_map_right_iff]
        refine (addPoses_tracks c _ c.first_pose _).imp ?_
        intro p q hpq
        show List.Forall₂ _ p.tracks (q.tracks.map (SelfCal.readbackTrack r ratio solved_rho))
        rw [List.forall₂_map_right_iff]
        refine hpq.imp ?_
        intro t u h ho
        have hx := h.2 ho
        have hrb : SelfCal.readbackTrack r ratio solved_rho u = u := by
          unfold SelfCal.readbackTrack
          rw [if_pos hx]
        rw [hrb]
        have hray : u.ray = ({ t with external_id := u.external_id } : DenseTrack).ray :=
          congrArg DenseTrack.ray h.1
        have hrho : u.rho = ({ t with external_id := u.external_id } : DenseTrack).rho :=
          congrArg DenseTrack.rho h.1
        exact ⟨(congrArg DenseTrack.is_outlier h.1).trans ho, hray, hrho⟩
      · rw [if_neg h2]
        exact hsame poses
  · intro pose hp t ht
    unfold SelfCal.resetOutliers at hp
    rw [if_pos rfl, List.mem_map] at hp
    obtain ⟨p, _, hpe⟩ := hp
    rw [← hpe, List.mem_map] at ht
    obtain ⟨t0, _, hte⟩ := ht
    rw [← hte]

/-- C28 on the sample pose graph, whose second pose owns the outlier track 9: after a
bundle adjustment over poses 0 to 2 the track is still an outlier, has no landmark and
has the inverse depth it had. -/
theorem C28_outlier_flags_sticky_witness :
    sampleBa.start_pose_id ≤ sampleBa.end_pose_id ∧
    ((SelfCal.DoBundleAdjustment false sampleBa true sampleReadback (fun _ => Dbl.fin (1 / 2))
        (fun _ => Dbl.fin 5) samplePoses)[1]?).map
      (fun pose => pose.tracks.map (fun t => (t.id, t.is_outlier, t.external_id))) =
      some [(9, true, UINT_MAX)] ∧
    List.Forall₂
      (fun (p q : TrackerPose) =>
        List.Forall₂
          (fun (t v : DenseTrack) =>
            t.is_outlier = true → v.is_outlier = true ∧ v.ray = t.ray ∧ v.rho = t.rho)
          p.tracks q.tracks)
      samplePoses
      (SelfCal.DoBundleAdjustment false sampleBa true sampleReadback (fun _ => Dbl.fin (1 / 2))
        (fun _ => Dbl.fin 5) samplePoses) :=
  ⟨by decide, by decide,
    (C28_outlier_flags_sticky sampleBa true sampleReadback (fun _ => Dbl.fin (1 / 2))
      (fun _ => Dbl.fin 5) samplePoses (by decide)).2.1⟩

/-! ### Rig copies after seeding -/

/-- C29, evaluated on the code: after `LoadCameras` has run with an IMU, unknown IMU
calibration and inertial measurements in use, the first camera of the live rig and of
the self-calibration scratch rig hold the seeded pose, and the further cameras of both
hold the poses loaded from the XML file; but every camera of the AAC scratch rig still
holds the pose of the first camera as loaded from the XML file, because the loop sets
the pose of each AAC camera to its own pose. -/
theorem C29_aac_rig_not_seeded (x : LoadInput) (cam0 : Rig) (rest : List Rig)
    (hx : x.xml_rig = cam0 :: rest) (hi : x.imu_given = true)
    (hu : x.unknown_imu_calibration = true) (hm : x.use_imu_measurements = true) :
    (LoadCameras x).rig.map (fun cam => cam.pose) =
      seedExtrinsics x.RoboticsToVision cam0.pose :: rest.map (fun cam => cam.pose) ∧
    (LoadCameras x).selfcal_rig.map (fun cam => cam.pose) =
      seedExtrinsics x.RoboticsToVision cam0.pose :: rest.map (fun cam => cam.pose) ∧
    (LoadCameras x).aac_rig.map (fun cam => cam.pose) =
      cam0.pose :: rest.map (fun _ => cam0.pose) := by
  have hz : ∀ (l : List Rig),
      (List.zipWith (fun (d s : Rig) => ({ d with pose := s.pose } : Rig))
        (l.map (fun _ => cam0)) l).map (fun cam => cam.pose) = l.map (fun cam => cam.pose) := by
    intro l
    induction l with
    | nil => rfl
    | cons a t ih => simp only [List.map_cons, List.zipWith_cons_cons, ih]
  have hz2 : ∀ (l : List Rig),
      (List.zipWith (fun (d s : Rig) => ({ d with pose := s.pose } : Rig))
        (l.map (fun _ => cam0)) (l.map (fun _ => cam0))).map (fun cam => cam.pose) =
        l.map (fun _ => cam0.pose) := by
    intro l
    induction l with
    | nil => rfl
    | cons a t ih => simp only [List.map_cons, List.zipWith_cons_cons, ih]
  unfold LoadCameras
  rw [hx]
  cases hc : x.unknown_cam_calibration <;>
    simp [setParams0, setPose0, copyPoses, hc, hi, hu, hm, hz2 rest] <;>
    simpa using hz rest

/-- C29 on the sample start-up: the live rig and the self-calibration scratch rig hold
the seeded pose (identity rotation, zero translation), the AAC scratch rig holds the
pose of the XML file. -/
theorem C29_aac_rig_not_seeded_witness :
    (LoadCameras sampleLoad).rig.map (fun cam => cam.pose) =
      [[Dbl.fin 0, Dbl.fin 0, Dbl.fin 0, Dbl.fin 1, Dbl.fin 0, Dbl.fin 0, Dbl.fin 0]] ∧
    (LoadCameras sampleLoad).selfcal_rig.map (fun cam => cam.pose) =
      [[Dbl.fin 0, Dbl.fin 0, Dbl.fin 0, Dbl.fin 1, Dbl.fin 0, Dbl.fin 0, Dbl.fin 0]] ∧
    (LoadCameras sampleLoad).aac_rig.map (fun cam => cam.pose) =
      [[Dbl.fin 0, Dbl.fin 1, Dbl.fin 0, Dbl.fin 0, Dbl.fin 1, Dbl.fin 2, Dbl.fin 3]] ∧
    (LoadCameras sampleLoad).aac_rig.map (fun cam => cam.pose) ≠
      (LoadCameras sampleLoad).rig.map (fun cam => cam.pose) :=
  have h := C29_aac_rig_not_seeded sampleLoad
    { params := [Dbl.fin 500, Dbl.fin 500, Dbl.fin 300, Dbl.fin 200, Dbl.fin 1]
      pose := [Dbl.fin 0, Dbl.fin 1, Dbl.fin 0, Dbl.fin 0, Dbl.fin 1, Dbl.fin 2, Dbl.fin 3] }
    [] rfl rfl rfl rfl
  ⟨h.1, h.2.1, h.2.2, by rw [h.1, h.2.2]; simp [seedExtrinsics, sampleLoad]⟩

/-! ### Patch scores -/

/-- One step of the Cauchy-Schwarz inequality for running sums. -/
theorem cauchy_schwarz_step (n da db a b : ℝ) (h : n ^ 2 ≤ da * db) (ha : 0 ≤ da)
    (hb : 0 ≤ db) : (n + a * b) ^ 2 ≤ (da + a * a) * (db + b * b) := by
  have h1 : (2 * n * (a * b)) ^ 2 ≤ (da * (b * b) + db * (a * a)) ^ 2 := by
    nlinarith [sq_nonneg (da * (b * b) - db * (a * a)), mul_nonneg (sq_nonneg a) (sq_nonneg b),
      mul_le_mul_of_nonneg_right h (mul_nonneg (sq_nonneg a) (sq_nonneg b))]
  have h2 : 0 ≤ da * (b * b) + db * (a * a) :=
    add_nonneg (mul_nonneg ha (mul_self_nonneg b)) (mul_nonneg hb (mul_self_nonneg a))
  have h3 : 2 * n * (a * b) ≤ da * (b * b) + db * (a * a) := (abs_le_of_sq_le_sq' h1 h2).2
  nlinarith

/-- A quotient by the square root of a bound of its square lies between -1 and 1. -/
theorem ncc_quotient_bound (n da db : ℝ) (h : n ^ 2 ≤ da * db) (ha : 0 ≤ da) (hb : 0 ≤ db) :
    -1 ≤ (if Real.sqrt (da * db) = 0 then 0 else n / Real.sqrt (da * db)) ∧
    (if Real.sqrt (da * db) = 0 then 0 else n / Real.sqrt (da * db)) ≤ 1 := by
  by_cases hz : Real.sqrt (da * db) = 0
  · rw [if_pos hz]
    constructor <;> norm_num
  · rw [if_neg hz]
    have hpos : 0 < Real.sqrt (da * db) := lt_of_le_of_ne (Real.sqrt_nonneg _) (Ne.symm hz)
    have hsq : Real.sqrt (da * db) ^ 2 = da * db := Real.sq_sqrt (mul_nonneg ha hb)
    have hle : n ^ 2 ≤ Real.sqrt (da * db) ^ 2 := by rw [hsq]; exact h
    have habs := abs_le_of_sq_le_sq' hle (le_of_lt hpos)
    constructor
    · rw [le_div_iff₀ hpos]
      linarith [habs.1]
    · rw [div_le_iff₀ hpos]
      linarith [habs.2]

/-- The loop over the valid rays adds to each sum the terms of the inlier pixels. -/
theorem sums_foldl {R : Type} [LinearOrderedField R] (sqrt : R → R)
    (x : OptimizeTrack.PatchInput R) (pixels : List (R × R)) :
    ∀ s : OptimizeTrack.NccSums R,
      pixels.foldl (OptimizeTrack.accumulate sqrt x) s =
        { ncc_num := s.ncc_num +
            ((pixels.filter (OptimizeTrack.inlier sqrt x)).map
              (fun px => OptimizeTrack.mean_s_ref x px * OptimizeTrack.mean_s_proj x px)).sum
          ncc_den_a := s.ncc_den_a +
            ((pixels.filter (OptimizeTrack.inlier sqrt x)).map
              (fun px => OptimizeTrack.mean_s_ref x px * OptimizeTrack.mean_s_ref x px)).sum
          ncc_den_b := s.ncc_den_b +
            ((pixels.filter (OptimizeTrack.inlier sqrt x)).map
              (fun px => OptimizeTrack.mean_s_proj x px * OptimizeTrack.mean_s_proj x px)).sum } := by
  induction pixels with
  | nil => intro s; simp
  | cons px rest ih =>
    intro s
    rw [List.foldl_cons, ih]
    unfold OptimizeTrack.accumulate
    by_cases hin : OptimizeTrack.inlier sqrt x px = true
    · simp only [hin, if_true, List.filter_cons_of_pos, List.map_cons, List.sum_cons, add_assoc]
    · simp only [hin, if_false, Bool.false_eq_true, List.filter_cons_of_neg, not_false_eq_true]

/-- The sums of the products and of the squares of a list of pairs of real numbers
satisfy the Cauchy-Schwarz inequality, and the sums of squares are not negative. -/
theorem cauchy_schwarz_list (f g : ℝ × ℝ → ℝ) (l : List (ℝ × ℝ)) :
    ((l.map (fun px => f px * g px)).sum) ^ 2 ≤
        (l.map (fun px => f px * f px)).sum * (l.map (fun px => g px * g px)).sum ∧
      0 ≤ (l.map (fun px => f px * f px)).sum ∧ 0 ≤ (l.map (fun px => g px * g px)).sum := by
  induction l with
  | nil => simp
  | cons px rest ih =>
    simp only [List.map_cons, List.sum_cons]
    refine ⟨?_, add_nonneg (mul_self_nonneg _) ih.2.1, add_nonneg (mul_self_nonneg _) ih.2.2⟩
    have h := cauchy_schwarz_step _ _ _ (f px) (g px) ih.1 ih.2.1 ih.2.2
    calc (f px * g px + (rest.map (fun px => f px * g px)).sum) ^ 2
        = ((rest.map (fun px => f px * g px)).sum + f px * g px) ^ 2 := by ring
      _ ≤ ((rest.map (fun px => f px * f px)).sum + f px * f px) *
            ((rest.map (fun px => g px * g px)).sum + g px * g px) := h
      _ = (f px * f px + (rest.map (fun px => f px * f px)).sum) *
            (g px * g px + (rest.map (fun px => g px * g px)).sum) := by ring

/-- The score of the sample patch on two pixels, evaluated on the rationals: the sums
are 5, 5 and 5, the root of 25 is 5, and the score is 1. -/
theorem ncc_sample :
    OptimizeTrack.ncc OptimizeTrack.sampleSqrt OptimizeTrack.samplePatch [(3, 4), (4, 5)] = 1 := by
  simp [OptimizeTrack.ncc, OptimizeTrack.sums, OptimizeTrack.accumulate, OptimizeTrack.inlier,
    OptimizeTrack.samplePatch, OptimizeTrack.mean_s_ref, OptimizeTrack.mean_s_proj,
    OptimizeTrack.sampleSqrt]
  norm_num

/-- C30: for a patch transfer that is not skipped (at least half of the rays of the
reference patch have a valid projection), the value stored in `transfer.ncc` is 0 when
`sqrt(ncc_den_a * ncc_den_b)` is 0 and otherwise the sum of `a_i * b_i` divided by the
square root of the product of the sums of `a_i ^ 2` and `b_i ^ 2`, taken over the inlier
pixels, with `a_i` and `b_i` the reference and projected values minus their means; over
the reals this value lies in `[-1, 1]`. -/
theorem C30_ncc_score (x : OptimizeTrack.PatchInput ℝ) (valid_projections rays : Nat)
    (old_ncc : ℝ) (pixels : List (ℝ × ℝ)) (hv : ¬ valid_projections < rays / 2) :
    OptimizeTrack.transferNcc Real.sqrt x valid_projections rays old_ncc pixels =
      (if Real.sqrt
          (((pixels.filter (OptimizeTrack.inlier Real.sqrt x)).map
              (fun px => OptimizeTrack.mean_s_ref x px * OptimizeTrack.mean_s_ref x px)).sum *
            ((pixels.filter (OptimizeTrack.inlier Real.sqrt x)).map
              (fun px => OptimizeTrack.mean_s_proj x px * OptimizeTrack.mean_s_proj x px)).sum) = 0
        then 0
        else
          ((pixels.filter (OptimizeTrack.inlier Real.sqrt x)).map
              (fun px => OptimizeTrack.mean_s_ref x px * OptimizeTrack.mean_s_proj x px)).sum /
            Real.sqrt
              (((pixels.filter (OptimizeTrack.inlier Real.sqrt x)).map
                  (fun px => OptimizeTrack.mean_s_ref x px * OptimizeTrack.mean_s_ref x px)).sum *
                ((pixels.filter (OptimizeTrack.inlier Real.sqrt x)).map
                  (fun px =>
                    OptimizeTrack.mean_s_proj x px * OptimizeTrack.mean_s_proj x px)).sum)) ∧
    -1 ≤ OptimizeTrack.transferNcc Real.sqrt x valid_projections rays old_ncc pixels ∧
    OptimizeTrack.transferNcc Real.sqrt x valid_projections rays old_ncc pixels ≤ 1 := by
  have hs := sums_foldl Real.sqrt x pixels { ncc_num := 0, ncc_den_a := 0, ncc_den_b := 0 }
  have heq : OptimizeTrack.transferNcc Real.sqrt x valid_projections rays old_ncc pixels =
      OptimizeTrack.ncc Real.sqrt x pixels := by
    unfold OptimizeTrack.transferNcc
    rw [if_neg hv]
  have hcs := cauchy_schwarz_list (OptimizeTrack.mean_s_ref x) (OptimizeTrack.mean_s_proj x)
    (pixels.filter (OptimizeTrack.inlier Real.sqrt x))
  have hb := ncc_quotient_bound _ _ _ hcs.1 hcs.2.1 hcs.2.2
  rw [heq]
  unfold OptimizeTrack.ncc OptimizeTrack.sums
  rw [hs]
  simp only [zero_add]
  exact ⟨trivial, hb.1, hb.2⟩

/-- C30 on a transfer of four rays with three valid projections, over the reals. -/
theorem C30_ncc_score_witness :
    -1 ≤ OptimizeTrack.transferNcc Real.sqrt
        { ref_mean := 2, mean_value := 3, use_robust_norm := true, c_huber := 1 } 3 4 7
        [(3, 4), (4, 5), (1, 9)] ∧
    OptimizeTrack.transferNcc Real.sqrt
        { ref_mean := 2, mean_value := 3, use_robust_norm := true, c_huber := 1 } 3 4 7
        [(3, 4), (4, 5), (1, 9)] ≤ 1 :=
  (C30_ncc_score { ref_mean := 2, mean_value := 3, use_robust_norm := true, c_huber := 1 } 3 4 7
    [(3, 4), (4, 5), (1, 9)] (by decide)).2

end SdTrack
